import Mathlib

/-!
# Kid3 tag normalisation: a shallow embedding of `Mp3File` and `TagLibFile`

The functions of `kid3/kid3/mp3file.cpp` and `kid3/kid3/taglibfile.cpp`, and the
paste operations of `kid3/kid3/kid3.cpp`, are translated into pure Lean
functions.  The libraries they sit on (Qt's
`QString`, id3lib's `ID3_Tag`, TagLib's `Tag`) are represented by small value
models that follow the documented behaviour of the calls the code makes.

* A `QString` is `none` for `QString::null` and `some us` for a string of
  16-bit code units `us`; `some []` is the non-null empty string `""`.
* An `ID3_Tag` is the list of its frames in the order id3lib keeps them;
  `Find(id)` yields the first frame with that id, `RemoveFrame` erases the
  frame that was found, `AttachFrame` appends.  id3lib starts the search of
  `Find` at a cursor that stands behind the frame found last and that
  `RemoveFrame` and `AttachFrame` reset to the first frame; `Find` is the search
  with the cursor at the first frame.  Statements about which of several
  frames of one id is read or removed are made only for tags with at most one
  frame of the id, where the cursor makes no difference.
* A pointer that may be `0` is an `Option`.
-/

namespace Kid3

set_option autoImplicit false

/-! ## QString -/

/-- QString of Qt 3: `none` is `QString::null`, `some us` a string of code units. -/
abbrev QString := Option (List Nat)

/-- The value of `INT_MAX` for the 32-bit `int` of the program. -/
def INT_MAX : Int := 2147483647

/-- The value of `INT_MIN` for the 32-bit `int` of the program. -/
def INT_MIN : Int := -2147483648

/-- Code units of a Lean string literal, used to write concrete texts. -/
def units (s : String) : List Nat := s.toList.map Char.toNat

/-- Constructor `QString(const char*)` on a literal. -/
def qstr (s : String) : QString := some (units s)

/-- Member `QString::isNull()`. -/
def QString.isNull (s : QString) : Bool := s.isNone

/-- Member `QString::isEmpty()`: true for the null string and for `""`. -/
def QString.isEmpty (s : QString) : Bool :=
  match s with
  | none => true
  | some us => us.isEmpty

/-- Member `QString::length()`. -/
def QString.length (s : QString) : Nat :=
  match s with
  | none => 0
  | some us => us.length

/-- Member `QString::find(QChar c, int index)` for `index >= 0`: position of the
first `c` at or after `index`, `-1` if there is none. -/
def QString.find (s : QString) (c : Nat) (index : Nat) : Int :=
  match s with
  | none => -1
  | some us =>
    let tl := us.drop index
    let i := tl.indexOf c
    if i < tl.length then ((index + i : Nat) : Int) else -1

/-- Member `QString::truncate(uint pos)`: cuts the string when it is longer. -/
def QString.truncate (s : QString) (pos : Nat) : QString :=
  match s with
  | none => none
  | some us => if pos < us.length then some (us.take pos) else some us

/-- Member `QString::mid(uint index, uint len)`: the null string when the string
is empty or `index` is past its end. -/
def QString.mid (s : QString) (index len : Nat) : QString :=
  match s with
  | none => none
  | some us =>
    if us.isEmpty || us.length ≤ index then none
    else some ((us.drop index).take len)

/-- Predicate `QChar::isSpace()` restricted to the ASCII white space. -/
def isSpace (c : Nat) : Bool := c == 32 || (9 ≤ c && c ≤ 13)

/-- Predicate `QChar::isDigit()` restricted to the ASCII digits. -/
def isDigit (c : Nat) : Bool := 48 ≤ c && c ≤ 57

/-- Value of a run of decimal digits, most significant first. -/
def digitsValue (ds : List Nat) : Nat := ds.foldl (fun a d => 10 * a + (d - 48)) 0

/-- The optional sign in front of a number: whether it is `'-'`, and the text
after the sign. -/
def splitSign (t : List Nat) : Bool × List Nat :=
  match t with
  | 45 :: r => (true, r)
  | 43 :: r => (false, r)
  | _ => (false, t)

/-- Member `QString::toInt(bool *ok)` in base 10: optional white space, an
optional sign, at least one digit, optional white space; the result is
`(0, false)` when the text has another shape or the value is no `int`. -/
def QString.toInt (s : QString) : Int × Bool :=
  match s with
  | none => (0, false)
  | some us =>
    let signed := splitSign (us.dropWhile isSpace)
    let ds := signed.2.takeWhile isDigit
    let rest := (signed.2.dropWhile isDigit).dropWhile isSpace
    if ds.isEmpty || !rest.isEmpty then (0, false)
    else
      let v : Int := if signed.1 then -(digitsValue ds : Int) else (digitsValue ds : Int)
      if v < INT_MIN ∨ INT_MAX < v then (0, false) else (v, true)

/-- Decimal digits of `n`, most significant first, by repeated division;
`fuel` bounds the number of digits. -/
def decimalAux : Nat → Nat → List Nat → List Nat
  | 0, _, acc => acc
  | fuel + 1, n, acc =>
    if n < 10 then (48 + n) :: acc
    else decimalAux fuel (n / 10) ((48 + n % 10) :: acc)

/-- Decimal text of a natural number. -/
def decimal (n : Nat) : List Nat := decimalAux (n + 1) n []

/-- Static `QString::number(int)` and `QString::setNum(int)`. -/
def QString.number (n : Int) : QString :=
  if n < 0 then some (45 :: decimal n.natAbs) else some (decimal n.natAbs)

/-- Member `QString::latin1()` handed to a `const char*` parameter: code units
above 0xff become `'?'`, and the C string ends at the first NUL. -/
def QString.latin1 (s : QString) : List Nat :=
  match s with
  | none => []
  | some us => (us.map (fun c => if 0xff < c then 63 else c)).takeWhile (fun c => c != 0)

/-- Member `QChar::latin1()`: 0 for a code unit above 0xff. -/
def QChar.latin1 (c : Nat) : Nat := if 0xff < c then 0 else c

/-! ## id3lib -/

/-- Text encodings of id3lib (`ID3_TextEnc`). -/
inductive ID3_TextEnc where
  | ISO8859_1
  | UTF16
  | UTF16BE
  | UTF8
  deriving DecidableEq, Repr

/-- Frame ids of id3lib (`ID3_FrameID`) that the program touches: the seven text
frames of the standard tags, and `PICTURE` as a frame without a text field. -/
inductive ID3_FrameID where
  | TITLE
  | LEADARTIST
  | ALBUM
  | COMMENT
  | YEAR
  | TRACKNUM
  | CONTENTTYPE
  | PICTURE
  deriving DecidableEq, Repr

/-- A text field (`ID3_Field` of type text string): its encoding and the stored
units, bytes for a single-byte encoding and 16-bit units for UTF-16. -/
structure ID3_Field where
  enc : ID3_TextEnc
  data : List Nat
  deriving DecidableEq, Repr

/-- A frame: its id, the integer field `ID3FN_TEXTENC` and the text field
`ID3FN_TEXT`, each absent when the frame type does not have it. -/
structure ID3_Frame where
  id : ID3_FrameID
  textenc : Option ID3_TextEnc
  text : Option ID3_Field
  deriving DecidableEq, Repr

/-- A tag (`ID3_Tag`): its frames in order. -/
abbrev ID3_Tag := List ID3_Frame

/-- Constructor `new ID3_Frame(id)`: the fields of the frame type, empty and in
the default encoding ISO-8859-1. -/
def ID3_Frame.new (id : ID3_FrameID) : ID3_Frame :=
  match id with
  | ID3_FrameID.PICTURE => { id := id, textenc := some ID3_TextEnc.ISO8859_1, text := none }
  | _ => { id := id, textenc := some ID3_TextEnc.ISO8859_1,
           text := some { enc := ID3_TextEnc.ISO8859_1, data := [] } }

/-- Member `ID3_Tag::Find(id)` on a tag whose search cursor stands at the first
frame: the first frame with the id.  id3lib keeps a cursor behind the frame the
last `Find` yielded (`FindFrom` below); whether a frame is found never depends on
the cursor, and on a tag with at most one frame of the id neither does the frame
(`findFrom_isNone`, `findFrom_of_count_le_one`). -/
def ID3_Tag.Find (tag : ID3_Tag) (id : ID3_FrameID) : Option ID3_Frame :=
  tag.find? (fun f => f.id == id)

/-- Member `ID3_Tag::Find(id)` of id3lib with the search cursor at position
`cursor`: the frames from the cursor to the end are searched first, then the
frames before the cursor; a cursor at the end of the list counts as one at the
first frame. -/
def ID3_Tag.FindFrom (tag : ID3_Tag) (cursor : Nat) (id : ID3_FrameID) : Option ID3_Frame :=
  let c := if tag.length ≤ cursor then 0 else cursor
  match (tag.drop c).find? (fun f => f.id == id) with
  | some frame => some frame
  | none => (tag.take c).find? (fun f => f.id == id)

/-- Calls `frame = tag->Find(id); tag->RemoveFrame(frame)` on a tag whose search
cursor stands at the first frame: the frame that was found, the first with the
id, leaves the tag; nothing happens when none was found.  On a tag with at most
one frame of the id the cursor makes no difference
(`removeFoundFrom_of_count_le_one`). -/
def ID3_Tag.RemoveFound (tag : ID3_Tag) (id : ID3_FrameID) : ID3_Tag :=
  tag.eraseP (fun f => f.id == id)

/-- Calls `frame = tag->Find(id); tag->RemoveFrame(frame)` with the search cursor
at position `cursor`: the frame that `FindFrom` yields leaves the tag. -/
def ID3_Tag.RemoveFoundFrom (tag : ID3_Tag) (cursor : Nat) (id : ID3_FrameID) : ID3_Tag :=
  let c := if tag.length ≤ cursor then 0 else cursor
  if (tag.drop c).any (fun f => f.id == id) then
    tag.take c ++ (tag.drop c).eraseP (fun f => f.id == id)
  else (tag.take c).eraseP (fun f => f.id == id) ++ tag.drop c

/-- Member `ID3_Tag::AttachFrame(frame)`. -/
def ID3_Tag.AttachFrame (tag : ID3_Tag) (frame : ID3_Frame) : ID3_Tag :=
  tag ++ [frame]

/-- Member `ID3_Field::Size()`: the size of the stored text in bytes. -/
def ID3_Field.Size (f : ID3_Field) : Nat :=
  if f.enc = ID3_TextEnc.UTF16 ∨ f.enc = ID3_TextEnc.UTF16BE then 2 * f.data.length
  else f.data.length

/-- Member `ID3_Field::Set(const char*)`: stores the C string. -/
def ID3_Field.SetText (f : ID3_Field) (cstr : List Nat) : ID3_Field :=
  { f with data := cstr.takeWhile (fun c => c != 0) }

/-- Member `ID3_Field::Set(const unicode_t*)`: stores the units up to the
terminating 0. -/
def ID3_Field.SetUnicode (f : ID3_Field) (unicode : List Nat) : ID3_Field :=
  { f with data := unicode.takeWhile (fun c => c != 0) }

/-- Member `ID3_Field::SetEncoding(enc)`. -/
def ID3_Field.SetEncoding (f : ID3_Field) (enc : ID3_TextEnc) : ID3_Field :=
  { f with enc := enc }

/-! ## mp3file.cpp -/

/-- Macro `UNICODE_SUPPORT_BUGGY` from the id3lib version numbers. -/
def UNICODE_SUPPORT_BUGGY (major minor patch : Nat) : Bool :=
  decide ((major <<< 16) + (minor <<< 8) + patch ≤ 0x030803)

/-- The expression `(ushort)(((u & 0x00ff) << 8) | ((u & 0xff00) >> 8))`. -/
def mirror (u : Nat) : Nat := (((u &&& 0x00ff) <<< 8) ||| ((u &&& 0xff00) >>> 8)) % 65536

/-- The conversion `Mp3File::getString` applies to one stored unit. -/
def getUnit (buggy : Bool) (u : Nat) : Nat := if buggy then mirror u else u % 65536

/-- The conversion `Mp3File::setString` applies to one code unit of the text. -/
def setUnit (buggy : Bool) (c : Nat) : Nat := if buggy then mirror (c % 65536) else c % 65536

/-- Function `Mp3File::getString`. -/
def getString (buggy : Bool) (field : Option ID3_Field) : QString :=
  match field with
  | none => some []
  | some f =>
    if f.enc = ID3_TextEnc.UTF16 ∨ f.enc = ID3_TextEnc.UTF16BE then
      let unicode_size := f.Size / 2
      if unicode_size ≠ 0 then some ((f.data.take unicode_size).map (getUnit buggy))
      else some []
    else some f.data

/-- Function `Mp3File::getTextField`. -/
def getTextField (buggy : Bool) (tag : Option ID3_Tag) (id : ID3_FrameID) : QString :=
  match tag with
  | none => none
  | some t =>
    match t.Find id with
    | some frame =>
      match frame.text with
      | some fld => getString buggy (some fld)
      | none => some []
    | none => some []

/-- Function `Mp3File::getYear`. -/
def getYear (buggy : Bool) (tag : Option ID3_Tag) : Int :=
  let str := getTextField buggy tag ID3_FrameID.YEAR
  if str.isNull then -1
  else if str.isEmpty then 0
  else str.toInt.1

/-- Function `Mp3File::getTrackNum`. -/
def getTrackNum (buggy : Bool) (tag : Option ID3_Tag) : Int :=
  let str := getTextField buggy tag ID3_FrameID.TRACKNUM
  if str.isNull then -1
  else if str.isEmpty then 0
  else
    let slashPos := str.find 47 0
    let str1 := if slashPos ≠ -1 then str.truncate slashPos.toNat else str
    str1.toInt.1

/-- Function `Mp3File::getGenreNum`. -/
def getGenreNum (buggy : Bool) (tag : Option ID3_Tag) : Int :=
  let str := getTextField buggy tag ID3_FrameID.CONTENTTYPE
  if str.isNull then -1
  else if str.isEmpty then 0xff
  else
    let cpPos := str.find 41 2
    if (str.getD []).head? = some 40 ∧ 1 < cpPos then
      let r := (str.mid 1 (cpPos - 1).toNat).toInt
      if !r.2 ∨ 0xff < r.1 then 0xff else r.1
    else 0xff

/-- Function `Mp3File::setString`. -/
def setString (buggy : Bool) (field : ID3_Field) (text : QString) : ID3_Field :=
  if field.enc = ID3_TextEnc.UTF16 ∨ field.enc = ID3_TextEnc.UTF16BE then
    field.SetUnicode ((text.getD []).map (setUnit buggy) ++ [0])
  else
    field.SetText text.latin1

/-- The loop of `Mp3File::setTextField` that looks for a character whose
`latin1()` is 0. -/
def needsUnicode (text : QString) : Bool :=
  (text.getD []).any (fun c => QChar.latin1 c == 0)

/-- The block of `Mp3File::setTextField` that fills the new frame: the encoding
is raised to UTF-16 when allowed and needed, then the text is set.  The result
is `none` when the frame has no text field, in which case it is not attached. -/
def fillFrame (buggy : Bool) (frame : ID3_Frame) (text : QString) (allowUnicode : Bool) :
    Option ID3_Frame :=
  match frame.text with
  | none => none
  | some fld =>
    if allowUnicode && decide (fld.enc = ID3_TextEnc.ISO8859_1) && needsUnicode text then
      some { frame with
        textenc := frame.textenc.map (fun _ => ID3_TextEnc.UTF16)
        text := some (setString buggy (fld.SetEncoding ID3_TextEnc.UTF16) text) }
    else
      some { frame with text := some (setString buggy fld text) }

/-- Function `Mp3File::setTextField`: the result and the tag after the call. -/
def setTextField (buggy : Bool) (tag : Option ID3_Tag) (id : ID3_FrameID) (text : QString)
    (allowUnicode replace removeEmpty : Bool) : Bool × Option ID3_Tag :=
  match tag with
  | none => (false, none)
  | some t =>
    if text.isNull then (false, some t)
    else
      let removeOnly := removeEmpty && text.isEmpty
      let t1 := if replace || removeOnly then t.RemoveFound id else t
      let changed := replace || removeOnly
      if !removeOnly && (replace || (t1.Find id).isNone) then
        match fillFrame buggy (ID3_Frame.new id) text allowUnicode with
        | some frame => (true, some (t1.AttachFrame frame))
        | none => (true, some t1)
      else (changed, some t1)

/-- Modelled from the spec: the default value of `allowUnicode` in the
declaration of `Mp3File::setTextField` (mp3file.h); the ID3v2 setters pass
`true` explicitly, the other callers leave it out. -/
def defaultAllowUnicode : Bool := false

/-- Modelled from the spec: the default value of `replace` in the declaration
of `Mp3File::setTextField` (mp3file.h); a setter sets the value it is given. -/
def defaultReplace : Bool := true

/-- Modelled from the spec: the default value of `removeEmpty` in the
declaration of `Mp3File::setTextField` (mp3file.h); writing an empty string
removes the field. -/
def defaultRemoveEmpty : Bool := true

/-- Function `Mp3File::setYear`. -/
def setYear (buggy : Bool) (tag : Option ID3_Tag) (num : Int) : Bool × Option ID3_Tag :=
  if 0 ≤ num then
    let str : QString := if num ≠ 0 then QString.number num else some []
    setTextField buggy tag ID3_FrameID.YEAR str defaultAllowUnicode defaultReplace
      defaultRemoveEmpty
  else (false, tag)

/-- Function `Mp3File::setTrackNum`. -/
def setTrackNum (buggy : Bool) (tag : Option ID3_Tag) (num numTracks : Int) :
    Bool × Option ID3_Tag :=
  if 0 ≤ num then
    let str : QString :=
      if num ≠ 0 then
        if 0 < numTracks then
          some ((QString.number num).getD [] ++ [47] ++ (QString.number numTracks).getD [])
        else QString.number num
      else some []
    setTextField buggy tag ID3_FrameID.TRACKNUM str defaultAllowUnicode defaultReplace
      defaultRemoveEmpty
  else (false, tag)

/-- Function `Mp3File::setGenreNum`. -/
def setGenreNum (buggy : Bool) (tag : Option ID3_Tag) (num : Int) : Bool × Option ID3_Tag :=
  if 0 ≤ num then
    let str : QString :=
      if num ≠ 0xff then some ([40] ++ (QString.number num).getD [] ++ [41]) else some []
    setTextField buggy tag ID3_FrameID.CONTENTTYPE str defaultAllowUnicode defaultReplace
      defaultRemoveEmpty
  else (false, tag)

/-- The file object `Mp3File`: the two id3lib tags (0 before the tags are read),
the change flags and the file names of `TaggedFile`. -/
structure Mp3File where
  tagV1 : Option ID3_Tag
  tagV2 : Option ID3_Tag
  changedV1 : Bool
  changedV2 : Bool
  filename : QString
  new_filename : QString
  deriving DecidableEq, Repr

/-- The setters `Mp3File::set...V1`: the flag is raised when the static setter
reports a change. -/
def Mp3File.updateV1 (f : Mp3File) (r : Bool × Option ID3_Tag) : Mp3File :=
  { f with tagV1 := r.2, changedV1 := if r.1 then true else f.changedV1 }

/-- The setters `Mp3File::set...V2`: the flag is raised when the static setter
reports a change. -/
def Mp3File.updateV2 (f : Mp3File) (r : Bool × Option ID3_Tag) : Mp3File :=
  { f with tagV2 := r.2, changedV2 := if r.1 then true else f.changedV2 }

/-- Function `Mp3File::getTitleV1`. -/
def Mp3File.getTitleV1 (buggy : Bool) (f : Mp3File) : QString :=
  getTextField buggy f.tagV1 ID3_FrameID.TITLE

/-- Function `Mp3File::getArtistV1`. -/
def Mp3File.getArtistV1 (buggy : Bool) (f : Mp3File) : QString :=
  getTextField buggy f.tagV1 ID3_FrameID.LEADARTIST

/-- Function `Mp3File::getAlbumV1`. -/
def Mp3File.getAlbumV1 (buggy : Bool) (f : Mp3File) : QString :=
  getTextField buggy f.tagV1 ID3_FrameID.ALBUM

/-- Function `Mp3File::getCommentV1`. -/
def Mp3File.getCommentV1 (buggy : Bool) (f : Mp3File) : QString :=
  getTextField buggy f.tagV1 ID3_FrameID.COMMENT

/-- Function `Mp3File::getYearV1`. -/
def Mp3File.getYearV1 (buggy : Bool) (f : Mp3File) : Int := getYear buggy f.tagV1

/-- Function `Mp3File::getTrackNumV1`. -/
def Mp3File.getTrackNumV1 (buggy : Bool) (f : Mp3File) : Int := getTrackNum buggy f.tagV1

/-- Function `Mp3File::getGenreNumV1`. -/
def Mp3File.getGenreNumV1 (buggy : Bool) (f : Mp3File) : Int := getGenreNum buggy f.tagV1

/-- Function `Mp3File::getTitleV2`. -/
def Mp3File.getTitleV2 (buggy : Bool) (f : Mp3File) : QString :=
  getTextField buggy f.tagV2 ID3_FrameID.TITLE

/-- Function `Mp3File::getArtistV2`. -/
def Mp3File.getArtistV2 (buggy : Bool) (f : Mp3File) : QString :=
  getTextField buggy f.tagV2 ID3_FrameID.LEADARTIST

/-- Function `Mp3File::getAlbumV2`. -/
def Mp3File.getAlbumV2 (buggy : Bool) (f : Mp3File) : QString :=
  getTextField buggy f.tagV2 ID3_FrameID.ALBUM

/-- Function `Mp3File::getCommentV2`. -/
def Mp3File.getCommentV2 (buggy : Bool) (f : Mp3File) : QString :=
  getTextField buggy f.tagV2 ID3_FrameID.COMMENT

/-- Function `Mp3File::getYearV2`. -/
def Mp3File.getYearV2 (buggy : Bool) (f : Mp3File) : Int := getYear buggy f.tagV2

/-- Function `Mp3File::getTrackNumV2`. -/
def Mp3File.getTrackNumV2 (buggy : Bool) (f : Mp3File) : Int := getTrackNum buggy f.tagV2

/-- Function `Mp3File::getGenreNumV2`. -/
def Mp3File.getGenreNumV2 (buggy : Bool) (f : Mp3File) : Int := getGenreNum buggy f.tagV2

/-- Function `Mp3File::getGenreV2`; `getName` is `Genres::getName`, the lookup in
the genre name table (genres.cpp). -/
def Mp3File.getGenreV2 (getName : Int → QString) (buggy : Bool) (f : Mp3File) : QString :=
  let num := f.getGenreNumV2 buggy
  if num ≠ 0xff ∧ num ≠ -1 then getName num
  else getTextField buggy f.tagV2 ID3_FrameID.CONTENTTYPE

/-- Function `Mp3File::setTitleV1`. -/
def Mp3File.setTitleV1 (buggy : Bool) (f : Mp3File) (str : QString) : Mp3File :=
  f.updateV1 (setTextField buggy f.tagV1 ID3_FrameID.TITLE str defaultAllowUnicode
    defaultReplace defaultRemoveEmpty)

/-- Function `Mp3File::setArtistV1`. -/
def Mp3File.setArtistV1 (buggy : Bool) (f : Mp3File) (str : QString) : Mp3File :=
  f.updateV1 (setTextField buggy f.tagV1 ID3_FrameID.LEADARTIST str defaultAllowUnicode
    defaultReplace defaultRemoveEmpty)

/-- Function `Mp3File::setAlbumV1`. -/
def Mp3File.setAlbumV1 (buggy : Bool) (f : Mp3File) (str : QString) : Mp3File :=
  f.updateV1 (setTextField buggy f.tagV1 ID3_FrameID.ALBUM str defaultAllowUnicode
    defaultReplace defaultRemoveEmpty)

/-- Function `Mp3File::setCommentV1`. -/
def Mp3File.setCommentV1 (buggy : Bool) (f : Mp3File) (str : QString) : Mp3File :=
  f.updateV1 (setTextField buggy f.tagV1 ID3_FrameID.COMMENT str defaultAllowUnicode
    defaultReplace defaultRemoveEmpty)

/-- Function `Mp3File::setYearV1`. -/
def Mp3File.setYearV1 (buggy : Bool) (f : Mp3File) (num : Int) : Mp3File :=
  f.updateV1 (setYear buggy f.tagV1 num)

/-- Modelled from the spec: the default value of `numTracks` in the declaration
of `Mp3File::setTrackNum` (mp3file.h); no total is written for an ID3v1 tag. -/
def defaultNumTracks : Int := 0

/-- Function `Mp3File::setTrackNumV1`. -/
def Mp3File.setTrackNumV1 (buggy : Bool) (f : Mp3File) (num : Int) : Mp3File :=
  f.updateV1 (setTrackNum buggy f.tagV1 num defaultNumTracks)

/-- Function `Mp3File::setGenreNumV1`. -/
def Mp3File.setGenreNumV1 (buggy : Bool) (f : Mp3File) (num : Int) : Mp3File :=
  f.updateV1 (setGenreNum buggy f.tagV1 num)

/-- Function `Mp3File::setTitleV2`. -/
def Mp3File.setTitleV2 (buggy : Bool) (f : Mp3File) (str : QString) : Mp3File :=
  f.updateV2 (setTextField buggy f.tagV2 ID3_FrameID.TITLE str true defaultReplace
    defaultRemoveEmpty)

/-- Function `Mp3File::setArtistV2`. -/
def Mp3File.setArtistV2 (buggy : Bool) (f : Mp3File) (str : QString) : Mp3File :=
  f.updateV2 (setTextField buggy f.tagV2 ID3_FrameID.LEADARTIST str true defaultReplace
    defaultRemoveEmpty)

/-- Function `Mp3File::setAlbumV2`. -/
def Mp3File.setAlbumV2 (buggy : Bool) (f : Mp3File) (str : QString) : Mp3File :=
  f.updateV2 (setTextField buggy f.tagV2 ID3_FrameID.ALBUM str true defaultReplace
    defaultRemoveEmpty)

/-- Function `Mp3File::setCommentV2`. -/
def Mp3File.setCommentV2 (buggy : Bool) (f : Mp3File) (str : QString) : Mp3File :=
  f.updateV2 (setTextField buggy f.tagV2 ID3_FrameID.COMMENT str true defaultReplace
    defaultRemoveEmpty)

/-- Function `Mp3File::setYearV2`. -/
def Mp3File.setYearV2 (buggy : Bool) (f : Mp3File) (num : Int) : Mp3File :=
  f.updateV2 (setYear buggy f.tagV2 num)

/-- Function `Mp3File::setTrackNumV2`; `numTracks` is the result of
`getTotalNumberOfTracksIfEnabled()`. -/
def Mp3File.setTrackNumV2 (buggy : Bool) (numTracks : Int) (f : Mp3File) (num : Int) : Mp3File :=
  f.updateV2 (setTrackNum buggy f.tagV2 num numTracks)

/-- Function `Mp3File::setGenreNumV2`. -/
def Mp3File.setGenreNumV2 (buggy : Bool) (f : Mp3File) (num : Int) : Mp3File :=
  f.updateV2 (setGenreNum buggy f.tagV2 num)

/-- Function `Mp3File::setGenreV2`. -/
def Mp3File.setGenreV2 (buggy : Bool) (f : Mp3File) (str : QString) : Mp3File :=
  f.updateV2 (setTextField buggy f.tagV2 ID3_FrameID.CONTENTTYPE str true defaultReplace
    defaultRemoveEmpty)

/-- An `Mp3File` as `readTags` leaves it: the two tags, no pending change, and
the new file name equal to the file name. -/
def Mp3File.ofTags (v1 v2 : Option ID3_Tag) : Mp3File :=
  { tagV1 := v1, tagV2 := v2, changedV1 := false, changedV2 := false,
    filename := qstr "a.mp3", new_filename := qstr "a.mp3" }

/-! ## taglibfile.cpp -/

/-- `TagLib::String`: `none` is `TagLib::String::null`. -/
abbrev TString := Option (List Nat)

/-- Macro `QStringToTString`: the same text as a `TagLib::String`. -/
def QStringToTString (s : QString) : TString := some (s.getD [])

/-- Macro `TStringToQString`: the same text as a non-null `QString`. -/
def TStringToQString (s : TString) : QString := some (s.getD [])

/-- Comparison `TagLib::String::operator==`: the texts are equal; the null
string equals the empty string. -/
def TString.eq (a b : TString) : Bool := a.getD [] == b.getD []

/-- Dynamic type of the `TagLib::File` behind `m_fileRef`. -/
inductive TagLibFileType where
  | MPEG
  | FLAC
  | MPC
  | OTHER
  deriving DecidableEq, Repr

/-- Dynamic type of a `TagLib::Tag`, as the `dynamic_cast`s of the program tell
it apart. -/
inductive TagLibTagType where
  | ID3v1
  | ID3v2
  | XiphComment
  | APE
  | OTHER
  deriving DecidableEq, Repr

/-- A frame (ID3v2), field (Xiph comment) or item (APE) of a tag that does not
back one of the seven accessors. -/
structure TagLibItem where
  key : List Nat
  value : List Nat
  deriving DecidableEq, Repr

/-- A `TagLib::Tag`: its dynamic type, the values its accessors `title()`,
`artist()`, `album()`, `comment()`, `genre()`, `year()`, `track()` return, and
the frames, fields or items it holds beyond those that back the accessors. -/
structure TagLibTag where
  type : TagLibTagType
  title : TString
  artist : TString
  album : TString
  comment : TString
  genre : TString
  year : Nat
  track : Nat
  others : List TagLibItem
  deriving DecidableEq, Repr

/-- Whether `dynamic_cast<TagLib::ID3v2::Tag*>` succeeds on the tag. -/
def TagLibTag.isId3v2 (t : TagLibTag) : Bool := decide (t.type = TagLibTagType.ID3v2)

/-- The tag that `ID3v1Tag(true)`, `ID3v2Tag(true)`, `xiphComment(true)` or
`APETag(true)` creates when the file has none: all fields empty. -/
def TagLibTag.created (type : TagLibTagType) : TagLibTag :=
  { type := type, title := none, artist := none, album := none, comment := none,
    genre := none, year := 0, track := 0, others := [] }

/-- The file object `TagLibFile`.  `m_fileRef` is `none` when the file reference
is null or has no file; `m_tagV1` and `m_tagV2` point into the file, so a null
pointer after reading means that the file has no such tag. -/
structure TagLibFile where
  m_fileRef : Option TagLibFileType
  m_tagV1 : Option TagLibTag
  m_tagV2 : Option TagLibTag
  m_fileRead : Bool
  changedV1 : Bool
  changedV2 : Bool
  filename : QString
  new_filename : QString
  deriving DecidableEq, Repr

/-- Body of the getters `TagLibFile::getTitleV1` ... `getGenreV2` for one string
accessor of a tag. -/
def getTagString (tag : Option TagLibTag) (field : TagLibTag → TString) : QString :=
  match tag with
  | some t => if (field t).isNone then some [] else TStringToQString (field t)
  | none => none

/-- Function `TagLibFile::getTitleV1`. -/
def TagLibFile.getTitleV1 (f : TagLibFile) : QString := getTagString f.m_tagV1 (fun t => t.title)

/-- Function `TagLibFile::getArtistV1`. -/
def TagLibFile.getArtistV1 (f : TagLibFile) : QString :=
  getTagString f.m_tagV1 (fun t => t.artist)

/-- Function `TagLibFile::getAlbumV1`. -/
def TagLibFile.getAlbumV1 (f : TagLibFile) : QString := getTagString f.m_tagV1 (fun t => t.album)

/-- Function `TagLibFile::getCommentV1`. -/
def TagLibFile.getCommentV1 (f : TagLibFile) : QString :=
  getTagString f.m_tagV1 (fun t => t.comment)

/-- Function `TagLibFile::getYearV1`. -/
def TagLibFile.getYearV1 (f : TagLibFile) : Int :=
  match f.m_tagV1 with
  | some t => (t.year : Int)
  | none => -1

/-- Function `TagLibFile::getTrackNumV1`. -/
def TagLibFile.getTrackNumV1 (f : TagLibFile) : Int :=
  match f.m_tagV1 with
  | some t => (t.track : Int)
  | none => -1

/-- Body of `TagLibFile::getGenreNumV1` and `getGenreNumV2`; `getNumber` is
`Genres::getNumber` (genres.cpp). -/
def getTagGenreNum (getNumber : QString → Int) (tag : Option TagLibTag) : Int :=
  match tag with
  | some t => if !t.genre.isNone then getNumber (TStringToQString t.genre) else 0xff
  | none => -1

/-- Function `TagLibFile::getGenreNumV1`. -/
def TagLibFile.getGenreNumV1 (getNumber : QString → Int) (f : TagLibFile) : Int :=
  getTagGenreNum getNumber f.m_tagV1

/-- Function `TagLibFile::getTitleV2`. -/
def TagLibFile.getTitleV2 (f : TagLibFile) : QString := getTagString f.m_tagV2 (fun t => t.title)

/-- Function `TagLibFile::getArtistV2`. -/
def TagLibFile.getArtistV2 (f : TagLibFile) : QString :=
  getTagString f.m_tagV2 (fun t => t.artist)

/-- Function `TagLibFile::getAlbumV2`. -/
def TagLibFile.getAlbumV2 (f : TagLibFile) : QString := getTagString f.m_tagV2 (fun t => t.album)

/-- Function `TagLibFile::getCommentV2`. -/
def TagLibFile.getCommentV2 (f : TagLibFile) : QString :=
  getTagString f.m_tagV2 (fun t => t.comment)

/-- Function `TagLibFile::getYearV2`. -/
def TagLibFile.getYearV2 (f : TagLibFile) : Int :=
  match f.m_tagV2 with
  | some t => (t.year : Int)
  | none => -1

/-- Function `TagLibFile::getTrackNumV2`. -/
def TagLibFile.getTrackNumV2 (f : TagLibFile) : Int :=
  match f.m_tagV2 with
  | some t => (t.track : Int)
  | none => -1

/-- Function `TagLibFile::getGenreNumV2`. -/
def TagLibFile.getGenreNumV2 (getNumber : QString → Int) (f : TagLibFile) : Int :=
  getTagGenreNum getNumber f.m_tagV2

/-- Function `TagLibFile::getGenreV2`. -/
def TagLibFile.getGenreV2 (f : TagLibFile) : QString := getTagString f.m_tagV2 (fun t => t.genre)

/-- Function `TagLibFile::makeTagV1Settable`; `MPC_ID3V1` tells whether the macro of
that name is defined.  The result of the function is `m_tagV1 != 0` afterwards. -/
def TagLibFile.makeTagV1Settable (MPC_ID3V1 : Bool) (f : TagLibFile) : TagLibFile :=
  if f.m_tagV1.isNone then
    match f.m_fileRef with
    | some TagLibFileType.MPEG =>
      { f with m_tagV1 := some (TagLibTag.created TagLibTagType.ID3v1) }
    | some TagLibFileType.FLAC =>
      { f with m_tagV1 := some (TagLibTag.created TagLibTagType.ID3v1) }
    | some TagLibFileType.MPC =>
      if MPC_ID3V1 then { f with m_tagV1 := some (TagLibTag.created TagLibTagType.ID3v1) }
      else f
    | _ => f
  else f

/-- Function `TagLibFile::makeTagV2Settable`.  The result of the function is
`m_tagV2 != 0` afterwards. -/
def TagLibFile.makeTagV2Settable (f : TagLibFile) : TagLibFile :=
  if f.m_tagV2.isNone then
    match f.m_fileRef with
    | some TagLibFileType.MPEG =>
      { f with m_tagV2 := some (TagLibTag.created TagLibTagType.ID3v2) }
    | some TagLibFileType.FLAC =>
      { f with m_tagV2 := some (TagLibTag.created TagLibTagType.XiphComment) }
    | some TagLibFileType.MPC =>
      { f with m_tagV2 := some (TagLibTag.created TagLibTagType.APE) }
    | _ => f
  else f

/-- Body shared by `TagLibFile::setTitleV1`, `setArtistV1`, `setAlbumV1` and
`setCommentV1`; `get` and `set` are the accessor pair of the field. -/
def TagLibFile.setStringV1 (MPC_ID3V1 : Bool) (f : TagLibFile) (str : QString)
    (get : TagLibTag → TString) (set : TagLibTag → TString → TagLibTag) : TagLibFile :=
  let f1 := f.makeTagV1Settable MPC_ID3V1
  match f1.m_tagV1 with
  | some tag =>
    if !str.isNull then
      let tstr : TString := if str.isEmpty then none else QStringToTString str
      if !(TString.eq tstr (get tag)) then
        { f1 with m_tagV1 := some (set tag tstr), changedV1 := true }
      else f1
    else f1
  | none => f1

/-- Function `TagLibFile::setTitleV1`. -/
def TagLibFile.setTitleV1 (MPC_ID3V1 : Bool) (f : TagLibFile) (str : QString) : TagLibFile :=
  f.setStringV1 MPC_ID3V1 str (fun t => t.title) (fun t s => { t with title := s })

/-- Function `TagLibFile::setArtistV1`. -/
def TagLibFile.setArtistV1 (MPC_ID3V1 : Bool) (f : TagLibFile) (str : QString) : TagLibFile :=
  f.setStringV1 MPC_ID3V1 str (fun t => t.artist) (fun t s => { t with artist := s })

/-- Function `TagLibFile::setAlbumV1`. -/
def TagLibFile.setAlbumV1 (MPC_ID3V1 : Bool) (f : TagLibFile) (str : QString) : TagLibFile :=
  f.setStringV1 MPC_ID3V1 str (fun t => t.album) (fun t s => { t with album := s })

/-- Function `TagLibFile::setCommentV1`. -/
def TagLibFile.setCommentV1 (MPC_ID3V1 : Bool) (f : TagLibFile) (str : QString) : TagLibFile :=
  f.setStringV1 MPC_ID3V1 str (fun t => t.comment) (fun t s => { t with comment := s })

/-- Function `setId3v2Unicode`: for an ID3v2 tag and a text that Latin-1 cannot
hold, the frames of the id are removed and a UTF-16 frame with the text is
added (when the text is not empty); the result tells whether this was done. -/
def setId3v2Unicode (tag : TagLibTag) (qstr : QString) (tstr : TString)
    (set : TagLibTag → TString → TagLibTag) : Bool × TagLibTag :=
  if tag.isId3v2 && needsUnicode qstr then
    let removed := set tag none
    if !(tstr.getD []).isEmpty then (true, set removed tstr) else (true, removed)
  else (false, tag)

/-- Body shared by `TagLibFile::setTitleV2`, `setArtistV2`, `setAlbumV2` and
`setCommentV2`.  `setTitleV2` calls the plain setter only when no Unicode frame
was written (`always = false`), the other three call it in any case. -/
def TagLibFile.setStringV2 (f : TagLibFile) (str : QString) (always : Bool)
    (get : TagLibTag → TString) (set : TagLibTag → TString → TagLibTag) : TagLibFile :=
  let f1 := f.makeTagV2Settable
  match f1.m_tagV2 with
  | some tag =>
    if !str.isNull then
      let tstr : TString := if str.isEmpty then none else QStringToTString str
      if !(TString.eq tstr (get tag)) then
        let r := setId3v2Unicode tag str tstr set
        let tag1 := if always || !r.1 then set r.2 tstr else r.2
        { f1 with m_tagV2 := some tag1, changedV2 := true }
      else f1
    else f1
  | none => f1

/-- Function `TagLibFile::setTitleV2`. -/
def TagLibFile.setTitleV2 (f : TagLibFile) (str : QString) : TagLibFile :=
  f.setStringV2 str false (fun t => t.title) (fun t s => { t with title := s })

/-- Function `TagLibFile::setArtistV2`. -/
def TagLibFile.setArtistV2 (f : TagLibFile) (str : QString) : TagLibFile :=
  f.setStringV2 str true (fun t => t.artist) (fun t s => { t with artist := s })

/-- Function `TagLibFile::setAlbumV2`. -/
def TagLibFile.setAlbumV2 (f : TagLibFile) (str : QString) : TagLibFile :=
  f.setStringV2 str true (fun t => t.album) (fun t s => { t with album := s })

/-- Function `TagLibFile::setCommentV2`. -/
def TagLibFile.setCommentV2 (f : TagLibFile) (str : QString) : TagLibFile :=
  f.setStringV2 str true (fun t => t.comment) (fun t s => { t with comment := s })

/-- Function `TagLibFile::setGenreV2`. -/
def TagLibFile.setGenreV2 (f : TagLibFile) (str : QString) : TagLibFile :=
  let f1 := f.makeTagV2Settable
  match f1.m_tagV2 with
  | some tag =>
    if !str.isNull then
      let tstr : TString := if str.isEmpty then none else QStringToTString str
      if !(TString.eq tstr tag.genre) then
        { f1 with m_tagV2 := some { tag with genre := tstr }, changedV2 := true }
      else f1
    else f1
  | none => f1

/-- Every value a getter of `TagLibFile` returns and the two change flags: what
a caller can observe of the tags of the file. -/
structure TagLibView where
  titleV1 : QString
  artistV1 : QString
  albumV1 : QString
  commentV1 : QString
  yearV1 : Int
  trackV1 : Int
  genreNumV1 : Int
  titleV2 : QString
  artistV2 : QString
  albumV2 : QString
  commentV2 : QString
  yearV2 : Int
  trackV2 : Int
  genreNumV2 : Int
  genreV2 : QString
  changedV1 : Bool
  changedV2 : Bool
  deriving DecidableEq, Repr

/-- The observable state of a `TagLibFile`. -/
def TagLibFile.view (getNumber : QString → Int) (f : TagLibFile) : TagLibView :=
  { titleV1 := f.getTitleV1, artistV1 := f.getArtistV1, albumV1 := f.getAlbumV1,
    commentV1 := f.getCommentV1, yearV1 := f.getYearV1, trackV1 := f.getTrackNumV1,
    genreNumV1 := f.getGenreNumV1 getNumber,
    titleV2 := f.getTitleV2, artistV2 := f.getArtistV2, albumV2 := f.getAlbumV2,
    commentV2 := f.getCommentV2, yearV2 := f.getYearV2, trackV2 := f.getTrackNumV2,
    genreNumV2 := f.getGenreNumV2 getNumber, genreV2 := f.getGenreV2,
    changedV1 := f.changedV1, changedV2 := f.changedV2 }

/-- A `TagLibFile` as `readTags` leaves it for a file of the given type with the
given tags. -/
def TagLibFile.ofTags (type : TagLibFileType) (v1 v2 : Option TagLibTag) : TagLibFile :=
  { m_fileRef := some type, m_tagV1 := v1, m_tagV2 := v2, m_fileRead := true,
    changedV1 := false, changedV2 := false,
    filename := qstr "a.mp3", new_filename := qstr "a.mp3" }

/-! ## Standard tags (kid3.cpp, taggedfile.cpp) -/

/-- Modelled from the spec: class `StandardTags` (standardtags.h), the seven
standard fields of one tag; a null string or a negative number stands for a
field that is not set.  The member names are those `Kid3App::pasteTags` uses. -/
structure StandardTags where
  title : QString
  artist : QString
  album : QString
  comment : QString
  year : Int
  track : Int
  genre : Int
  genreStr : QString
  deriving DecidableEq, Repr

/-- Modelled from the spec: class `StandardTagsFilter` (standardtags.h), one flag
per standard field that selects the fields an operation takes part in. -/
structure StandardTagsFilter where
  m_enableTitle : Bool
  m_enableArtist : Bool
  m_enableAlbum : Bool
  m_enableComment : Bool
  m_enableYear : Bool
  m_enableTrack : Bool
  m_enableGenre : Bool
  deriving DecidableEq, Repr

/-- Modelled from the spec: `TaggedFile::getStandardTagsV1` (taggedfile.cpp) reads
title, artist, album, comment, year, track and genre of tag 1 through the
getters of the file. -/
def Mp3File.getStandardTagsV1 (buggy : Bool) (f : Mp3File) : StandardTags :=
  { title := f.getTitleV1 buggy, artist := f.getArtistV1 buggy, album := f.getAlbumV1 buggy,
    comment := f.getCommentV1 buggy, year := f.getYearV1 buggy, track := f.getTrackNumV1 buggy,
    genre := f.getGenreNumV1 buggy, genreStr := none }

/-- Modelled from the spec: `TaggedFile::setStandardTagsV1` (taggedfile.cpp) writes
only the fields selected by the filter, each through the setter of the file. -/
def Mp3File.setStandardTagsV1 (buggy : Bool) (f : Mp3File) (st : StandardTags)
    (flt : StandardTagsFilter) : Mp3File :=
  let f1 := if flt.m_enableTitle then f.setTitleV1 buggy st.title else f
  let f2 := if flt.m_enableArtist then f1.setArtistV1 buggy st.artist else f1
  let f3 := if flt.m_enableAlbum then f2.setAlbumV1 buggy st.album else f2
  let f4 := if flt.m_enableComment then f3.setCommentV1 buggy st.comment else f3
  let f5 := if flt.m_enableYear then f4.setYearV1 buggy st.year else f4
  let f6 := if flt.m_enableTrack then f5.setTrackNumV1 buggy st.track else f5
  if flt.m_enableGenre then f6.setGenreNumV1 buggy st.genre else f6

/-- Function `Kid3App::pasteTags`: `m_copyTags` is the copy buffer, `st` the tags
to fill. -/
def pasteTags (m_copyTags st : StandardTags) : StandardTags :=
  let st1 := if !m_copyTags.title.isNull then { st with title := m_copyTags.title } else st
  let st2 := if !m_copyTags.artist.isNull then { st1 with artist := m_copyTags.artist } else st1
  let st3 := if !m_copyTags.album.isNull then { st2 with album := m_copyTags.album } else st2
  let st4 :=
    if !m_copyTags.comment.isNull then { st3 with comment := m_copyTags.comment } else st3
  let st5 := if 0 ≤ m_copyTags.year then { st4 with year := m_copyTags.year } else st4
  let st6 := if 0 ≤ m_copyTags.track then { st5 with track := m_copyTags.track } else st5
  if 0 ≤ m_copyTags.genre then
    { st6 with genre := m_copyTags.genre, genreStr := m_copyTags.genreStr }
  else st6

/-- The body of the loop of `Kid3App::pasteTagsV1` for one selected file;
`format` is `formatStandardTagsIfEnabled` and `flt` the filter taken from the
view. -/
def pasteTagsV1File (buggy : Bool) (m_copyTags : StandardTags)
    (format : StandardTags → StandardTags) (flt : StandardTagsFilter) (f : Mp3File) : Mp3File :=
  f.setStandardTagsV1 buggy (format (pasteTags m_copyTags (f.getStandardTagsV1 buggy))) flt

/-- Function `Kid3App::pasteTagsV1` on the list of files of the view, each with
its `isInSelection()` flag. -/
def pasteTagsV1 (buggy : Bool) (m_copyTags : StandardTags)
    (format : StandardTags → StandardTags) (flt : StandardTagsFilter)
    (files : List (Mp3File × Bool)) : List (Mp3File × Bool) :=
  files.map (fun x =>
    if x.2 then (pasteTagsV1File buggy m_copyTags format flt x.1, x.2) else x)

/-- Body shared by `TagLibFile::setYearV1` and `setTrackNumV1`; `get` and `set`
are the accessor pair of the field. -/
def TagLibFile.setNumV1 (MPC_ID3V1 : Bool) (f : TagLibFile) (num : Int)
    (get : TagLibTag → Nat) (set : TagLibTag → Nat → TagLibTag) : TagLibFile :=
  let f1 := f.makeTagV1Settable MPC_ID3V1
  match f1.m_tagV1 with
  | some tag =>
    if 0 ≤ num then
      if num ≠ (get tag : Int) then
        { f1 with m_tagV1 := some (set tag num.toNat), changedV1 := true }
      else f1
    else f1
  | none => f1

/-- Function `TagLibFile::setYearV1`. -/
def TagLibFile.setYearV1 (MPC_ID3V1 : Bool) (f : TagLibFile) (num : Int) : TagLibFile :=
  f.setNumV1 MPC_ID3V1 num (fun t => t.year) (fun t n => { t with year := n })

/-- Function `TagLibFile::setTrackNumV1`. -/
def TagLibFile.setTrackNumV1 (MPC_ID3V1 : Bool) (f : TagLibFile) (num : Int) : TagLibFile :=
  f.setNumV1 MPC_ID3V1 num (fun t => t.track) (fun t n => { t with track := n })

/-- Function `TagLibFile::setGenreNumV1`; `getName` is `Genres::getName`, whose
result is `none` for a null pointer. -/
def TagLibFile.setGenreNumV1 (getName : Int → QString) (MPC_ID3V1 : Bool) (f : TagLibFile)
    (num : Int) : TagLibFile :=
  let f1 := f.makeTagV1Settable MPC_ID3V1
  match f1.m_tagV1 with
  | some tag =>
    if 0 ≤ num then
      let str := getName num
      let tstr : TString := if !str.isEmpty then str else none
      if !(TString.eq tstr tag.genre) then
        { f1 with m_tagV1 := some { tag with genre := tstr }, changedV1 := true }
      else f1
    else f1
  | none => f1

/-- Modelled from the spec: `TaggedFile::setStandardTagsV1` (taggedfile.cpp) on a
`TagLibFile`: only the fields selected by the filter are written, each through
the setter of the file. -/
def TagLibFile.setStandardTagsV1 (getName : Int → QString) (MPC_ID3V1 : Bool) (f : TagLibFile)
    (st : StandardTags) (flt : StandardTagsFilter) : TagLibFile :=
  let f1 := if flt.m_enableTitle then f.setTitleV1 MPC_ID3V1 st.title else f
  let f2 := if flt.m_enableArtist then f1.setArtistV1 MPC_ID3V1 st.artist else f1
  let f3 := if flt.m_enableAlbum then f2.setAlbumV1 MPC_ID3V1 st.album else f2
  let f4 := if flt.m_enableComment then f3.setCommentV1 MPC_ID3V1 st.comment else f3
  let f5 := if flt.m_enableYear then f4.setYearV1 MPC_ID3V1 st.year else f4
  let f6 := if flt.m_enableTrack then f5.setTrackNumV1 MPC_ID3V1 st.track else f5
  if flt.m_enableGenre then f6.setGenreNumV1 getName MPC_ID3V1 st.genre else f6

/-- The frames of a tag that carry the given id, in order; `none` when there is
no tag. -/
def framesWithId (id : ID3_FrameID) (tag : Option ID3_Tag) : Option (List ID3_Frame) :=
  tag.map (fun t => t.filter (fun f => f.id == id))

/-- A text frame as id3lib parses it from a file: ISO-8859-1, holding the text
of the literal. -/
def latin1Frame (id : ID3_FrameID) (s : String) : ID3_Frame :=
  { id := id, textenc := some ID3_TextEnc.ISO8859_1,
    text := some { enc := ID3_TextEnc.ISO8859_1, data := units s } }

/-! ## Selection, saving and reverting (kid3.cpp) -/

/-- Member `QString::append(const QString&)`. -/
def QString.append (s t : QString) : QString :=
  match s, t with
  | none, none => none
  | _, _ => some (s.getD [] ++ t.getD [])

/-- Member `QString::append(QChar)`. -/
def QString.appendChar (s : QString) (c : Nat) : QString := some (s.getD [] ++ [c])

/-- Modelled from the spec: `StandardTags::filterDifferent` (standardtags.cpp)
clears every field whose value differs from the value in `st`; a cleared string
is the null string and a cleared number is -1, the values of a field that is
not set. -/
def StandardTags.filterDifferent (agg st : StandardTags) : StandardTags :=
  { title := if agg.title ≠ st.title then none else agg.title,
    artist := if agg.artist ≠ st.artist then none else agg.artist,
    album := if agg.album ≠ st.album then none else agg.album,
    comment := if agg.comment ≠ st.comment then none else agg.comment,
    year := if agg.year ≠ st.year then -1 else agg.year,
    track := if agg.track ≠ st.track then -1 else agg.track,
    genre := if agg.genre ≠ st.genre then -1 else agg.genre,
    genreStr := if agg.genreStr ≠ st.genreStr then none else agg.genreStr }

/-- The loop of `Kid3App::updateGuiControls` for one tag version: `filetags` are
the standard tags of the selected files in the order of the view, `init` is the
default-constructed `tags_v1`; the state is `tags_v1` and `num_files_selected`. -/
def updateGuiControlsLoop (filetags : List StandardTags) (init : StandardTags) :
    StandardTags × Nat :=
  filetags.foldl
    (fun state ft =>
      (if state.2 = 0 then ft else state.1.filterDifferent ft, state.2 + 1))
    (init, 0)

/-- The aggregate `Kid3App::updateGuiControls` hands to the view. -/
def aggregateTags (filetags : List StandardTags) (init : StandardTags) : StandardTags :=
  (updateGuiControlsLoop filetags init).1

/-- What `Kid3App::saveDirectory` leaves behind: its return value, the text of
`errorFiles`, the files after the calls, and the files `writeTags` was called
on, in the order of the calls. -/
structure SaveResult (F : Type) where
  result : Bool
  errorFiles : QString
  files : List F
  calls : List F

/-- The second loop of `Kid3App::saveDirectory`.  `writeTags f` is the call
`getFile()->writeTags(false, &renamed, s_miscCfg.m_preserveTime)` on a file: its
result and the file after the call. -/
def saveDirectoryLoop {F : Type} (writeTags : F → Bool × F) (getFilename : F → QString) :
    List F → QString → QString × List F × List F
  | [], errorFiles => (errorFiles, [], [])
  | mp3file :: rest, errorFiles =>
    let r := writeTags mp3file
    let errorFiles1 :=
      if !r.1 then (errorFiles.append (getFilename r.2)).appendChar 10 else errorFiles
    let out := saveDirectoryLoop writeTags getFilename rest errorFiles1
    (out.1, r.2 :: out.2.1, mp3file :: out.2.2)

/-- Function `Kid3App::saveDirectory` on the files of the view. -/
def saveDirectory {F : Type} (writeTags : F → Bool × F) (getFilename : F → QString)
    (files : List F) : SaveResult F :=
  let out := saveDirectoryLoop writeTags getFilename files none
  { result := true, errorFiles := out.1, files := out.2.1, calls := out.2.2 }

/-- Standard tags with the given title, artist and year, an empty album and
comment, and no track and genre, used to write concrete inputs. -/
def exampleTags (title artist : String) (year : Int) : StandardTags :=
  { title := qstr title, artist := qstr artist, album := some [], comment := some [],
    year := year, track := -1, genre := -1, genreStr := none }

/-! ## Removing, reading and writing tags (mp3file.cpp, taglibfile.cpp) -/

/-- Modelled from the spec: `StandardTagsFilter::areAllTrue()` (standardtags.h)
tells whether every field is selected. -/
def StandardTagsFilter.areAllTrue (flt : StandardTagsFilter) : Bool :=
  flt.m_enableTitle && flt.m_enableArtist && flt.m_enableAlbum && flt.m_enableComment &&
    flt.m_enableYear && flt.m_enableTrack && flt.m_enableGenre

/-- The filter with every field selected. -/
def StandardTagsFilter.allTrue : StandardTagsFilter :=
  { m_enableTitle := true, m_enableArtist := true, m_enableAlbum := true,
    m_enableComment := true, m_enableYear := true, m_enableTrack := true,
    m_enableGenre := true }

/-- The loop `while ((frame = iter->GetNext()) != NULL) tag->RemoveFrame(frame)`
of `Mp3File::removeTagsV1` and `removeTagsV2`: the iterator hands out the frames
of the tag in order, and each one is taken out of the tag. -/
def removeEveryFrame (tag : ID3_Tag) : ID3_Tag :=
  tag.foldl (fun t frame => t.erase frame) tag

/-- Function `Mp3File::removeTagsV1`; `removeStandardTagsV1` is the function of
that name of `TaggedFile` (taggedfile.cpp). -/
def Mp3File.removeTagsV1 (removeStandardTagsV1 : Mp3File → StandardTagsFilter → Mp3File)
    (f : Mp3File) (flt : StandardTagsFilter) : Mp3File :=
  match f.tagV1 with
  | some tag =>
    if flt.areAllTrue then { f with tagV1 := some (removeEveryFrame tag), changedV1 := true }
    else removeStandardTagsV1 f flt
  | none => f

/-- Function `Mp3File::removeTagsV2`; `removeStandardTagsV2` is the function of
that name of `TaggedFile` (taggedfile.cpp). -/
def Mp3File.removeTagsV2 (removeStandardTagsV2 : Mp3File → StandardTagsFilter → Mp3File)
    (f : Mp3File) (flt : StandardTagsFilter) : Mp3File :=
  match f.tagV2 with
  | some tag =>
    if flt.areAllTrue then { f with tagV2 := some (removeEveryFrame tag), changedV2 := true }
    else removeStandardTagsV2 f flt
  | none => f

/-- One frame, field or item of a `TagLib::Tag`: the one that backs an accessor,
or one of the others. -/
inductive TagLibFrameRef where
  | title
  | artist
  | album
  | comment
  | genre
  | year
  | track
  | other (item : TagLibItem)
  deriving DecidableEq, Repr

/-- The frames of a tag (`frameList()`, `fieldListMap()`, `itemListMap()`): one for
each accessor that returns a value, then the others. -/
def TagLibTag.frameList (t : TagLibTag) : List TagLibFrameRef :=
  (if (t.title.getD []).isEmpty then [] else [TagLibFrameRef.title]) ++
  (if (t.artist.getD []).isEmpty then [] else [TagLibFrameRef.artist]) ++
  (if (t.album.getD []).isEmpty then [] else [TagLibFrameRef.album]) ++
  (if (t.comment.getD []).isEmpty then [] else [TagLibFrameRef.comment]) ++
  (if (t.genre.getD []).isEmpty then [] else [TagLibFrameRef.genre]) ++
  (if t.year = 0 then [] else [TagLibFrameRef.year]) ++
  (if t.track = 0 then [] else [TagLibFrameRef.track]) ++
  t.others.map TagLibFrameRef.other

/-- Members `ID3v2::Tag::removeFrame(frame, true)`, `XiphComment::removeField(key)`
and `APE::Tag::removeItem(key)`: the frame leaves the tag, so the accessor it
backed returns nothing. -/
def TagLibTag.removeFrame (t : TagLibTag) (frame : TagLibFrameRef) : TagLibTag :=
  match frame with
  | TagLibFrameRef.title => { t with title := none }
  | TagLibFrameRef.artist => { t with artist := none }
  | TagLibFrameRef.album => { t with album := none }
  | TagLibFrameRef.comment => { t with comment := none }
  | TagLibFrameRef.genre => { t with genre := none }
  | TagLibFrameRef.year => { t with year := 0 }
  | TagLibFrameRef.track => { t with track := 0 }
  | TagLibFrameRef.other item => { t with others := t.others.erase item }

/-- The loops of `TagLibFile::removeTagsV2` over the frames, fields or items of
the tag: each one the iterator hands out is removed. -/
def TagLibTag.removeEveryFrame (t : TagLibTag) : TagLibTag :=
  t.frameList.foldl TagLibTag.removeFrame t

/-- Member `TagLib::Tag::isEmpty()`: the base class looks at the seven accessors,
the ID3v2, Xiph and APE tags at their frames, fields and items. -/
def TagLibTag.isEmpty (t : TagLibTag) : Bool :=
  match t.type with
  | TagLibTagType.ID3v2 => t.frameList.isEmpty
  | TagLibTagType.XiphComment => t.frameList.isEmpty
  | TagLibTagType.APE => t.frameList.isEmpty
  | _ =>
    (t.title.getD []).isEmpty && (t.artist.getD []).isEmpty && (t.album.getD []).isEmpty &&
      (t.comment.getD []).isEmpty && (t.genre.getD []).isEmpty &&
      decide (t.year = 0) && decide (t.track = 0)

/-- Function `TagLibFile::setYearV2`. -/
def TagLibFile.setYearV2 (f : TagLibFile) (num : Int) : TagLibFile :=
  let f1 := f.makeTagV2Settable
  match f1.m_tagV2 with
  | some tag =>
    if 0 ≤ num then
      if num ≠ (tag.year : Int) then
        { f1 with m_tagV2 := some { tag with year := num.toNat }, changedV2 := true }
      else f1
    else f1
  | none => f1

/-- Function `TagLibFile::setTrackNumV2`.  For an ID3v2 tag with the total number
of tracks enabled a `TRCK` frame with the text `num/numTracks` replaces the
track frames, otherwise `setTrack(num)` is called; in both cases `track()`
returns `num` afterwards, and the total is not visible through the accessor. -/
def TagLibFile.setTrackNumV2 (f : TagLibFile) (num : Int) : TagLibFile :=
  let f1 := f.makeTagV2Settable
  match f1.m_tagV2 with
  | some tag =>
    if 0 ≤ num then
      if num ≠ (tag.track : Int) then
        { f1 with m_tagV2 := some { tag with track := num.toNat }, changedV2 := true }
      else f1
    else f1
  | none => f1

/-- Function `TagLibFile::setGenreNumV2`; `getName` is `Genres::getName`, whose
result is `none` for a null pointer. -/
def TagLibFile.setGenreNumV2 (getName : Int → QString) (f : TagLibFile) (num : Int) :
    TagLibFile :=
  let f1 := f.makeTagV2Settable
  match f1.m_tagV2 with
  | some tag =>
    if 0 ≤ num then
      let str := getName num
      let tstr : TString := if !str.isEmpty then str else none
      if !(TString.eq tstr tag.genre) then
        { f1 with m_tagV2 := some { tag with genre := tstr }, changedV2 := true }
      else f1
    else f1
  | none => f1

/-- Modelled from the spec: `TaggedFile::removeStandardTagsV2` (taggedfile.cpp) on
a `TagLibFile` removes the standard fields selected by the filter, each by
writing its empty value ("" for a string, 0 for year and track) through the
setter of the file. -/
def TagLibFile.removeStandardTagsV2 (f : TagLibFile) (flt : StandardTagsFilter) : TagLibFile :=
  let f1 := if flt.m_enableTitle then f.setTitleV2 (some []) else f
  let f2 := if flt.m_enableArtist then f1.setArtistV2 (some []) else f1
  let f3 := if flt.m_enableAlbum then f2.setAlbumV2 (some []) else f2
  let f4 := if flt.m_enableComment then f3.setCommentV2 (some []) else f3
  let f5 := if flt.m_enableYear then f4.setYearV2 0 else f4
  let f6 := if flt.m_enableTrack then f5.setTrackNumV2 0 else f5
  if flt.m_enableGenre then f6.setGenreV2 (some []) else f6

/-- Function `TagLibFile::removeTagsV2`; `removeStandardTagsV2` is the function of
that name of `TaggedFile` (taggedfile.cpp). -/
def TagLibFile.removeTagsV2 (removeStandardTagsV2 : TagLibFile → StandardTagsFilter → TagLibFile)
    (f : TagLibFile) (flt : StandardTagsFilter) : TagLibFile :=
  match f.m_tagV2 with
  | some tag =>
    if flt.areAllTrue then
      match tag.type with
      | TagLibTagType.ID3v2 =>
        { f with m_tagV2 := some tag.removeEveryFrame, changedV2 := true }
      | TagLibTagType.XiphComment =>
        { f with m_tagV2 := some tag.removeEveryFrame, changedV2 := true }
      | TagLibTagType.APE =>
        { f with m_tagV2 := some tag.removeEveryFrame, changedV2 := true }
      | _ => removeStandardTagsV2 f flt
    else removeStandardTagsV2 f flt
  | none => f

/-- Operator `QString != QString`: strings differ when their characters do; the
null and the empty string compare equal. -/
def QString.ne (s t : QString) : Bool := s.getD [] != t.getD []

/-- Function `Mp3File::readTags`.  `diskV1` and `diskV2` are the frames that
`ID3_Tag::Link` parses from the file for the ID3v1 and the ID3v2 tag. -/
def Mp3File.readTags (diskV1 diskV2 : ID3_Tag) (force : Bool) (f : Mp3File) : Mp3File :=
  let f1 := if force && f.tagV1.isSome then
      { f with tagV1 := some diskV1, changedV1 := false } else f
  let f2 := if f1.tagV1.isNone then
      { f1 with tagV1 := some diskV1, changedV1 := false } else f1
  let f3 := if force && f2.tagV2.isSome then
      { f2 with tagV2 := some diskV2, changedV2 := false } else f2
  let f4 := if f3.tagV2.isNone then
      { f3 with tagV2 := some diskV2, changedV2 := false } else f3
  if force then { f4 with new_filename := f4.filename } else f4

/-- What the outside world answers during `writeTags`: whether the file is
writable (`QFileInfo::isWritable`), whether the tag library manages to write
(`ID3_Tag::Strip` and `Update`, `TagLib::File::save` and `strip`), and the
result of `renameFile` (taggedfile.cpp). -/
structure WriteEnv where
  isWritable : Bool
  saveOk : Bool
  renameOk : Bool
  deriving DecidableEq, Repr

/-- The two tags stored in the file on disk; `none` when the file has no such
tag. -/
structure Disk (T : Type) where
  v1 : Option T
  v2 : Option T
  deriving DecidableEq, Repr

/-- Outcome of `writeTags`: the returned value, the value of `*renamed`, the file
object and the tags on disk afterwards. -/
structure WriteResult (F T : Type) where
  result : Bool
  renamed : Bool
  file : F
  disk : Disk T
  deriving DecidableEq, Repr

/-- The end of `writeTags`: the file is renamed when the new name differs from the
name, and a failing `renameFile` makes the result false. -/
def renameStep {F T : Type} (env : WriteEnv) (filename new_filename : QString)
    (renamed : Bool) (file : F) (disk : Disk T) : WriteResult F T :=
  if new_filename.ne filename then
    if !env.renameOk then { result := false, renamed := renamed, file := file, disk := disk }
    else { result := true, renamed := true, file := file, disk := disk }
  else { result := true, renamed := renamed, file := file, disk := disk }

/-- Block of `Mp3File::writeTags`: an ID3v1 tag that is to be written and has no
frames is stripped from the file.  The values returned by `Strip` and `Update`
are not looked at by the function; a failing library call leaves the tag on
disk as it was. -/
def Mp3File.stripTagV1 (env : WriteEnv) (force : Bool) (s : Mp3File × Disk ID3_Tag) :
    Mp3File × Disk ID3_Tag :=
  match s.1.tagV1 with
  | some tag =>
    if (force || s.1.changedV1) && tag.length == 0 then
      ({ s.1 with changedV1 := false }, if env.saveOk then { s.2 with v1 := none } else s.2)
    else s
  | none => s

/-- Block of `Mp3File::writeTags`: an ID3v2 tag that is to be written and has no
frames is stripped from the file. -/
def Mp3File.stripTagV2 (env : WriteEnv) (force : Bool) (s : Mp3File × Disk ID3_Tag) :
    Mp3File × Disk ID3_Tag :=
  match s.1.tagV2 with
  | some tag =>
    if (force || s.1.changedV2) && tag.length == 0 then
      ({ s.1 with changedV2 := false }, if env.saveOk then { s.2 with v2 := none } else s.2)
    else s
  | none => s

/-- Block of `Mp3File::writeTags`: an ID3v1 tag that is to be written and has
frames is updated in the file. -/
def Mp3File.writeTagV1 (env : WriteEnv) (force : Bool) (s : Mp3File × Disk ID3_Tag) :
    Mp3File × Disk ID3_Tag :=
  match s.1.tagV1 with
  | some tag =>
    if (force || s.1.changedV1) && decide (tag.length > 0) then
      ({ s.1 with changedV1 := false },
        if env.saveOk then { s.2 with v1 := some tag } else s.2)
    else s
  | none => s

/-- Block of `Mp3File::writeTags`: an ID3v2 tag that is to be written and has
frames is updated in the file. -/
def Mp3File.writeTagV2 (env : WriteEnv) (force : Bool) (s : Mp3File × Disk ID3_Tag) :
    Mp3File × Disk ID3_Tag :=
  match s.1.tagV2 with
  | some tag =>
    if (force || s.1.changedV2) && decide (tag.length > 0) then
      ({ s.1 with changedV2 := false },
        if env.saveOk then { s.2 with v2 := some tag } else s.2)
    else s
  | none => s

/-- The part of `Mp3File::writeTags` between the test for a writable file and
the renaming: empty tags are stripped from the file, then the others are
updated. -/
def Mp3File.saveTags (env : WriteEnv) (disk : Disk ID3_Tag) (force : Bool) (f : Mp3File) :
    Mp3File × Disk ID3_Tag :=
  Mp3File.writeTagV2 env force (Mp3File.writeTagV1 env force
    (Mp3File.stripTagV2 env force (Mp3File.stripTagV1 env force (f, disk))))

/-- Function `Mp3File::writeTags`.  `isChanged` is `TaggedFile::isChanged`
(taggedfile.h); the time stamp handling has no effect on the modelled state. -/
def Mp3File.writeTags (isChanged : Mp3File → Bool) (env : WriteEnv) (disk : Disk ID3_Tag)
    (force renamed : Bool) (f : Mp3File) : WriteResult Mp3File ID3_Tag :=
  if isChanged f && !env.isWritable then
    { result := false, renamed := renamed, file := f, disk := disk }
  else
    let s := f.saveTags env disk force
    renameStep env s.1.filename s.1.new_filename renamed s.1 s.2

/-- The tags that the accessors of a `TagLib::File` return: `ID3v1Tag()`,
`ID3v2Tag()`, `xiphComment()`, `APETag()` and `FileRef::tag()`; `none` is a
null pointer. -/
structure TagLibFileTags where
  ID3v1Tag : Option TagLibTag
  ID3v2Tag : Option TagLibTag
  xiphComment : Option TagLibTag
  APETag : Option TagLibTag
  tag : Option TagLibTag
  deriving DecidableEq, Repr

/-- The two blocks `if (!m_tagV1) ...` and `if (!m_tagV2) ...` of
`TagLibFile::readTags` for one type of file. -/
def TagLibFile.adoptTags (f : TagLibFile) (v1 v2 : Option TagLibTag) : TagLibFile :=
  let f1 := if f.m_tagV1.isNone then { f with m_tagV1 := v1, changedV1 := false } else f
  if f1.m_tagV2.isNone then { f1 with m_tagV2 := v2, changedV2 := false } else f1

/-- The last branch of `TagLibFile::readTags`, for a file that has no separate
first tag. -/
def TagLibFile.adoptTag (f : TagLibFile) (tag : Option TagLibTag) : TagLibFile :=
  let f1 := { f with m_tagV1 := none, changedV1 := false }
  if f1.m_tagV2.isNone then { f1 with m_tagV2 := tag, changedV2 := false } else f1

/-- Function `TagLibFile::readTags`.  `opened` is the type of the file that
`TagLib::FileRef(fn)` opens (`none` for a null reference or a null file), and
`tags` are the tags that the accessors of the file of the reference return. -/
def TagLibFile.readTags (MPC_ID3V1 : Bool) (opened : Option TagLibFileType)
    (tags : TagLibFileTags) (force : Bool) (f : TagLibFile) : TagLibFile :=
  let f1 := if force || f.m_fileRef.isNone then
      { f with m_fileRef := opened, m_tagV1 := none, m_tagV2 := none, changedV1 := false,
               changedV2 := false, m_fileRead := true }
    else f
  let f2 :=
    match f1.m_fileRef with
    | none => f1
    | some TagLibFileType.MPEG => f1.adoptTags tags.ID3v1Tag tags.ID3v2Tag
    | some TagLibFileType.FLAC => f1.adoptTags tags.ID3v1Tag tags.xiphComment
    | some TagLibFileType.MPC =>
      if MPC_ID3V1 then f1.adoptTags tags.ID3v1Tag tags.APETag else f1.adoptTag tags.tag
    | some TagLibFileType.OTHER => f1.adoptTag tags.tag
  if force then { f2 with new_filename := f2.filename } else f2

/-- Block of `TagLibFile::writeTags` for an MPEG file: an ID3v1 tag that is to be
written and is empty is stripped from the file and forgotten. -/
def TagLibFile.stripTagV1 (env : WriteEnv) (force : Bool) (s : TagLibFile × Disk TagLibTag) :
    TagLibFile × Disk TagLibTag :=
  match s.1.m_tagV1 with
  | some tag =>
    if (force || s.1.changedV1) && tag.isEmpty then
      ({ s.1 with changedV1 := false, m_tagV1 := none },
        if env.saveOk then { s.2 with v1 := none } else s.2)
    else s
  | none => s

/-- Block of `TagLibFile::writeTags` for an MPEG file: an ID3v2 tag that is to be
written and is empty is stripped from the file and forgotten. -/
def TagLibFile.stripTagV2 (env : WriteEnv) (force : Bool) (s : TagLibFile × Disk TagLibTag) :
    TagLibFile × Disk TagLibTag :=
  match s.1.m_tagV2 with
  | some tag =>
    if (force || s.1.changedV2) && tag.isEmpty then
      ({ s.1 with changedV2 := false, m_tagV2 := none },
        if env.saveOk then { s.2 with v2 := none } else s.2)
    else s
  | none => s

/-- Whether `saveMask` of `TagLibFile::writeTags` gets the bit of a tag: the tag
is present, to be written and not empty. -/
def saveMaskBit (tag : Option TagLibTag) (force changed : Bool) : Bool :=
  match tag with
  | some t => (force || changed) && !t.isEmpty
  | none => false

/-- Block of `TagLibFile::writeTags` for an MPEG file: the tags of the save mask
are saved, and their change flags are cleared only when `save` succeeds; a
failing `save` leaves the tags on disk as they were. -/
def TagLibFile.saveMasked (env : WriteEnv) (force : Bool) (s : TagLibFile × Disk TagLibTag) :
    TagLibFile × Disk TagLibTag :=
  let saveV1 := saveMaskBit s.1.m_tagV1 force s.1.changedV1
  let saveV2 := saveMaskBit s.1.m_tagV2 force s.1.changedV2
  if saveV1 || saveV2 then
    if env.saveOk then
      ({ s.1 with changedV1 := if saveV1 then false else s.1.changedV1,
                  changedV2 := if saveV2 then false else s.1.changedV2 },
        { v1 := if saveV1 then s.1.m_tagV1 else s.2.v1,
          v2 := if saveV2 then s.1.m_tagV2 else s.2.v2 })
    else s
  else s

/-- Block of `TagLibFile::writeTags` for a file that is not an MPEG file: when a
tag is to be written the file is saved as a whole (for a Musepack file without
`MPC_ID3V1` after the ID3 tags are removed from it), and both change flags are
cleared only when `save` succeeds. -/
def TagLibFile.saveWhole (MPC_ID3V1 : Bool) (env : WriteEnv) (force : Bool)
    (type : TagLibFileType) (s : TagLibFile × Disk TagLibTag) : TagLibFile × Disk TagLibTag :=
  if (s.1.m_tagV2.isSome && (force || s.1.changedV2)) ||
      (s.1.m_tagV1.isSome && (force || s.1.changedV1)) then
    if env.saveOk then
      ({ s.1 with changedV1 := false, changedV2 := false },
        { v1 := if decide (type = TagLibFileType.MPC) && !MPC_ID3V1 then none
                else s.1.m_tagV1,
          v2 := s.1.m_tagV2 })
    else s
  else s

/-- The part of `TagLibFile::writeTags` between the test for a writable file and
the renaming. -/
def TagLibFile.saveTags (MPC_ID3V1 : Bool) (env : WriteEnv) (disk : Disk TagLibTag)
    (force : Bool) (f : TagLibFile) : TagLibFile × Disk TagLibTag :=
  match f.m_fileRef with
  | none => (f, disk)
  | some TagLibFileType.MPEG =>
    TagLibFile.saveMasked env force
      (TagLibFile.stripTagV2 env force (TagLibFile.stripTagV1 env force (f, disk)))
  | some type => TagLibFile.saveWhole MPC_ID3V1 env force type (f, disk)

/-- Function `TagLibFile::writeTags`.  `isChanged` is `TaggedFile::isChanged`
(taggedfile.h); the time stamp handling has no effect on the modelled state. -/
def TagLibFile.writeTags (MPC_ID3V1 : Bool) (isChanged : TagLibFile → Bool) (env : WriteEnv)
    (disk : Disk TagLibTag) (force renamed : Bool) (f : TagLibFile) :
    WriteResult TagLibFile TagLibTag :=
  if isChanged f && !env.isWritable then
    { result := false, renamed := renamed, file := f, disk := disk }
  else
    let s := f.saveTags MPC_ID3V1 env disk force
    renameStep env s.1.filename s.1.new_filename renamed s.1 s.2

/-- Function `Kid3App::slotFileRevert`, the loop over the files of the list: each
file is paired with `isInSelection()`, `numFilesSelected` is the number the
view reports, and `readTags` is the function of the file class. -/
def slotFileRevert {F : Type} (readTags : Bool → F → F) (numFilesSelected : Nat)
    (files : List (F × Bool)) : List (F × Bool) :=
  let no_selection := numFilesSelected == 0
  files.map (fun x => if no_selection || x.2 then (readTags true x.1, x.2) else x)

/-! ## Format codes (trackdata.cpp, commandformatreplacer.cpp) -/

/-- Member `QString::lastIndexOf(QChar c)`: position of the last `c`, `-1` if
there is none. -/
def QString.lastIndexOf (s : QString) (c : Nat) : Int :=
  match s with
  | none => -1
  | some us =>
    let i := us.reverse.indexOf c
    if i < us.length then ((us.length - 1 - i : Nat) : Int) else -1

/-- Member `QString::remove(int pos, int len)` for `pos`, `len` that are not
negative. -/
def QString.remove (s : QString) (pos len : Nat) : QString :=
  match s with
  | none => none
  | some us => some (us.take pos ++ us.drop (pos + len))

/-- Member `QString::mid(int pos)` of Qt 4 for `pos >= 0`: the rest of the string
from `pos`, the null string when `pos` is past the end. -/
def QString.midFrom (s : QString) (pos : Nat) : QString :=
  match s with
  | none => none
  | some us => if us.length < pos then none else some (us.drop pos)

/-- Comparison `QString == QLatin1String("...")` with a literal. -/
def QString.eqLit (s : QString) (lit : String) : Bool := s.getD [] == units lit

/-- Member `QChar::toLatin1()`: the character when it is a Latin-1 character,
else 0. -/
def QChar.toLatin1 (u : Nat) : Nat := if 0xff < u then 0 else u

/-- The loop over a `shortToLong` table: the long code of the first entry whose
short code is `c`, the null string when there is none. -/
def lookupShortCode (table : List (Char × String)) (c : Nat) : QString :=
  match table.find? (fun e => e.1.toNat == c) with
  | some e => qstr e.2
  | none => none

/-- The name that `getReplacement` looks up for a code: the long code of the
table for a code of one character, the code itself when it is longer, and the
null string for an empty code. -/
def codeName (table : List (Char × String)) (code : QString) : QString :=
  if code.length = 1 then lookupShortCode table (QChar.toLatin1 ((code.getD []).headD 0))
  else if 1 < code.length then code
  else none

/-- Modelled from the spec: enum `TaggedFile::DetailInfo::ChannelMode`
(taggedfile.h). -/
inductive ChannelMode where
  | CM_None
  | CM_Stereo
  | CM_JointStereo
  deriving DecidableEq, Repr

/-- Modelled from the spec: struct `TaggedFile::DetailInfo` (taggedfile.h), the
technical details of a file. -/
structure DetailInfo where
  format : QString
  channelMode : ChannelMode
  channels : Int
  sampleRate : Int
  bitrate : Int
  vbr : Bool
  deriving DecidableEq, Repr

/-- What the getters of a `TaggedFile` (taggedfile.h) return for the file of a
track. -/
structure TaggedFile where
  getDuration : Int
  getAbsFilename : QString
  getFilename : QString
  getTagFormatV1 : QString
  getTagFormatV2 : QString
  getDetailInfo : DetailInfo
  getFileExtension : QString
  getTotalNumberOfTracksInDir : Int
  deriving DecidableEq, Repr

/-- Class `TrackData` as far as the format functions look at it: the tagged file
of the track, `none` when `getTaggedFile()` returns 0.  The frames of the base
class are looked at only by `FrameFormatReplacer`. -/
structure TrackData where
  taggedFile : Option TaggedFile
  deriving DecidableEq, Repr

/-- Function `TrackData::getFileDuration`. -/
def TrackData.getFileDuration (t : TrackData) : Int :=
  match t.taggedFile with
  | some f => f.getDuration
  | none => 0

/-- Function `TrackData::getAbsFilename`. -/
def TrackData.getAbsFilename (t : TrackData) : QString :=
  match t.taggedFile with
  | some f => f.getAbsFilename
  | none => none

/-- Function `TrackData::getTagFormatV1`. -/
def TrackData.getTagFormatV1 (t : TrackData) : QString :=
  match t.taggedFile with
  | some f => f.getTagFormatV1
  | none => none

/-- Function `TrackData::getTagFormatV2`. -/
def TrackData.getTagFormatV2 (t : TrackData) : QString :=
  match t.taggedFile with
  | some f => f.getTagFormatV2
  | none => none

/-- Function `TrackData::getDetailInfo`; `info` is the default-constructed
`DetailInfo` that the caller hands in. -/
def TrackData.getDetailInfo (t : TrackData) (info : DetailInfo) : DetailInfo :=
  match t.taggedFile with
  | some f => f.getDetailInfo
  | none => info

/-- Function `TrackData::getFileExtension`. -/
def TrackData.getFileExtension (t : TrackData) : QString :=
  let fileExtension : QString :=
    match t.taggedFile with
    | some f => f.getFileExtension
    | none => none
  let absFilename : QString :=
    match t.taggedFile with
    | some f => f.getAbsFilename
    | none => none
  if !fileExtension.isEmpty then fileExtension
  else
    let dotPos := absFilename.lastIndexOf ('.').toNat
    if dotPos ≠ -1 then absFilename.midFrom dotPos.toNat else none

/-- Function `TrackData::getTotalNumberOfTracksInDir`. -/
def TrackData.getTotalNumberOfTracksInDir (t : TrackData) : Int :=
  match t.taggedFile with
  | some f => f.getTotalNumberOfTracksInDir
  | none => -1

/-- What a format replacer takes from code outside the sources:
`FrameFormatReplacer::getReplacement` of the base class, `TaggedFile::formatTime`,
the text of the `file` URL that `QUrl` builds for a path, `QDir::separator()`,
the default-constructed `TaggedFile::DetailInfo`, and the browser of the
configuration (`ConfigStore::s_miscCfg.m_browser`). -/
structure ReplacerEnv where
  base : QString → QString
  formatTime : Int → QString
  fileUrl : QString → QString
  separator : Nat
  defaultInfo : DetailInfo
  m_browser : QString

/-- The table `shortToLong` of `TrackDataFormatReplacer::getReplacement`. -/
def TrackDataFormatReplacer.shortToLong : List (Char × String) :=
  [('f', "file"), ('p', "filepath"), ('u', "url"), ('d', "duration"), ('D', "seconds"),
   ('n', "tracks"), ('e', "extension"), ('O', "tag1"), ('o', "tag2"), ('b', "bitrate"),
   ('v', "vbr"), ('r', "samplerate"), ('m', "mode"), ('h', "channels"), ('k', "codec")]

/-- The chain `if (name == "file") ... else if (name == "codec") ...` of
`TrackDataFormatReplacer::getReplacement`; `result` is the null result of the
base class, kept when no name matches. -/
def TrackDataFormatReplacer.replaceName (env : ReplacerEnv) (m_trackData : TrackData)
    (name result : QString) : QString :=
  let info := m_trackData.getDetailInfo env.defaultInfo
  if name.eqLit "file" then
    let filename := m_trackData.getAbsFilename
    let sepPos0 := filename.lastIndexOf ('/').toNat
    let sepPos := if sepPos0 < 0 then filename.lastIndexOf env.separator else sepPos0
    if 0 ≤ sepPos then filename.remove 0 (sepPos + 1).toNat else filename
  else if name.eqLit "filepath" then m_trackData.getAbsFilename
  else if name.eqLit "url" then env.fileUrl m_trackData.getAbsFilename
  else if name.eqLit "duration" then env.formatTime m_trackData.getFileDuration
  else if name.eqLit "seconds" then QString.number m_trackData.getFileDuration
  else if name.eqLit "tracks" then QString.number m_trackData.getTotalNumberOfTracksInDir
  else if name.eqLit "extension" then m_trackData.getFileExtension
  else if name.eqLit "tag1" then m_trackData.getTagFormatV1
  else if name.eqLit "tag2" then m_trackData.getTagFormatV2
  else if name.eqLit "bitrate" then QString.number info.bitrate
  else if name.eqLit "vbr" then (if info.vbr then qstr "VBR" else qstr "")
  else if name.eqLit "samplerate" then QString.number info.sampleRate
  else if name.eqLit "mode" then
    match info.channelMode with
    | ChannelMode.CM_Stereo => qstr "Stereo"
    | ChannelMode.CM_JointStereo => qstr "Joint Stereo"
    | ChannelMode.CM_None => qstr ""
  else if name.eqLit "channels" then QString.number info.channels
  else if name.eqLit "codec" then info.format
  else result

/-- Function `TrackDataFormatReplacer::getReplacement`. -/
def TrackDataFormatReplacer.getReplacement (env : ReplacerEnv) (m_trackData : TrackData)
    (code : QString) : QString :=
  let result := env.base code
  if result.isNull then
    let name := codeName TrackDataFormatReplacer.shortToLong code
    if !name.isNull then TrackDataFormatReplacer.replaceName env m_trackData name result
    else result
  else result

/-- The table `shortToLong` of `CommandFormatReplacer::getReplacement`. -/
def CommandFormatReplacer.shortToLong : List (Char × String) :=
  [('f', "file"), ('d', "directory"), ('b', "browser")]

/-- The chain `if (name == "file") ... else if (name == "url") ...` of
`CommandFormatReplacer::getReplacement`; `result` is the null result of the
base class, kept when no name matches.  The value is `none` when `front()`
is called on an empty list of files, which has no defined result. -/
def CommandFormatReplacer.replaceName (env : ReplacerEnv) (m_files : List QString)
    (m_isDir : Bool) (name result : QString) : Option QString :=
  if name.eqLit "file" then m_files.head?
  else if name.eqLit "directory" then
    match m_files.head? with
    | some front =>
      if !m_isDir then
        let sepPos0 := front.lastIndexOf ('/').toNat
        let sepPos := if sepPos0 < 0 then front.lastIndexOf env.separator else sepPos0
        if 0 ≤ sepPos then some (front.truncate sepPos.toNat) else some front
      else some front
    | none => none
  else if name.eqLit "browser" then some env.m_browser
  else if name.eqLit "url" then
    match m_files.head? with
    | some front => some (env.fileUrl front)
    | none => some result
  else some result

/-- Function `CommandFormatReplacer::getReplacement`; the value is `none` when
the function calls `front()` on an empty list of files. -/
def CommandFormatReplacer.getReplacement (env : ReplacerEnv) (m_files : List QString)
    (m_isDir : Bool) (code : QString) : Option QString :=
  let result := env.base code
  if result.isNull then
    let name := codeName CommandFormatReplacer.shortToLong code
    if !name.isNull then CommandFormatReplacer.replaceName env m_files m_isDir name result
    else some result
  else some result

/-- Modelled from the spec: flag `FormatReplacer::FSF_ReplaceSeparators`
(formatreplacer.h), the bit `1 << 1` of the flags of `replacePercentCodes` that
asks for the path separators in substituted values to be replaced. -/
def FSF_ReplaceSeparators : Nat := 2

/-- Modelled from the spec: the default argument `flags = 0` of
`FormatReplacer::replacePercentCodes` (formatreplacer.h), which asks for no
separator replacement. -/
def defaultFlags : Nat := 0

/-- Whether the flags handed to `replacePercentCodes` ask for the replacement of
separators. -/
def requestsSeparators (flags : Nat) : Bool := flags &&& FSF_ReplaceSeparators != 0

/-- The members of `FormatReplacer` (formatreplacer.cpp) that the format
functions of `TrackData` call on a `TrackDataFormatReplacer`, over a type `S`
of replacer objects: the constructor from track data and string, the two
passes, and `getString`. -/
structure FormatReplacerOps (S : Type) where
  create : TrackData → QString → S
  replaceEscapedChars : S → S
  replacePercentCodes : Nat → S → S
  getString : S → QString

/-- The replacer object `fmt` of `TrackData::formatString` when the function
returns. -/
def TrackData.formatStringFmt {S : Type} (ops : FormatReplacerOps S) (t : TrackData)
    (format : QString) : S :=
  let fmt := ops.create t format
  let fmt1 := ops.replaceEscapedChars fmt
  ops.replacePercentCodes defaultFlags fmt1

/-- The string that `TrackData::formatFilenameFromTags` hands to the replacer:
for a file name the directory part is removed and the extension added. -/
def TrackData.filenameFormat (t : TrackData) (str : QString) (isDirname : Bool) : QString :=
  if !isDirname then
    let sepPos := str.lastIndexOf ('/').toNat
    let str1 := if 0 ≤ sepPos then str.remove 0 (sepPos + 1).toNat else str
    str1.append t.getFileExtension
  else str

/-- The replacer object `fmt` of `TrackData::formatFilenameFromTags` when the
function returns. -/
def TrackData.formatFilenameFromTagsFmt {S : Type} (ops : FormatReplacerOps S)
    (t : TrackData) (str : QString) (isDirname : Bool) : S :=
  let fmt := ops.create t (t.filenameFormat str isDirname)
  ops.replacePercentCodes (if isDirname then FSF_ReplaceSeparators else 0) fmt

/-- Function `TrackData::formatFilenameFromTags`. -/
def TrackData.formatFilenameFromTags {S : Type} (ops : FormatReplacerOps S) (t : TrackData)
    (str : QString) (isDirname : Bool) : QString :=
  ops.getString (t.formatFilenameFromTagsFmt ops str isDirname)

/-- A call of a member of the replacer, as recorded by `recordingOps`. -/
inductive ReplacerCall where
  | create (t : TrackData) (str : QString)
  | replaceEscapedChars
  | replacePercentCodes (flags : Nat)
  deriving DecidableEq, Repr

/-- A replacer that only records the calls made on it, in order. -/
def recordingOps : FormatReplacerOps (List ReplacerCall) :=
  { create := fun t str => [ReplacerCall.create t str],
    replaceEscapedChars := fun calls => calls ++ [ReplacerCall.replaceEscapedChars],
    replacePercentCodes := fun flags calls => calls ++ [ReplacerCall.replacePercentCodes flags],
    getString := fun _ => none }

/-- The codes that a `shortToLong` table lists: the single characters and the
long names. -/
def listedCodes (table : List (Char × String)) : List QString :=
  table.map (fun e => some [e.1.toNat]) ++ table.map (fun e => qstr e.2)

/-- A track whose tagged file has the given absolute file name, no stored
extension and empty technical details, used to write concrete inputs. -/
def exampleTrack (absFilename : String) : TrackData :=
  { taggedFile := some
      { getDuration := 0, getAbsFilename := qstr absFilename, getFilename := none,
        getTagFormatV1 := none, getTagFormatV2 := none,
        getDetailInfo := { format := none, channelMode := ChannelMode.CM_None, channels := 0,
                           sampleRate := 0, bitrate := 0, vbr := false },
        getFileExtension := none, getTotalNumberOfTracksInDir := -1 } }

/-- A replacer environment whose base class knows no code, with `formatTime`
as the decimal number, a URL that is the path after `file://`, and `/` as
separator, used to write concrete inputs. -/
def exampleEnv : ReplacerEnv :=
  { base := fun _ => none, formatTime := QString.number,
    fileUrl := fun path => (qstr "file://").append path, separator := 47,
    defaultInfo := { format := none, channelMode := ChannelMode.CM_None, channels := 0,
                     sampleRate := 0, bitrate := 0, vbr := false },
    m_browser := qstr "firefox" }

/-! ## Scheduled rename actions (rendirdialog.cpp) -/

/-- Operator `QString == QString`: strings are equal when their characters are;
the null and the empty string compare equal. -/
def QString.eq (s t : QString) : Bool := s.getD [] == t.getD []

/-- Member `QString::startsWith(const QString&)` of Qt 4. -/
def QString.startsWith (s t : QString) : Bool :=
  match s with
  | none => t.isNull
  | some us =>
    if us.isEmpty then t.length == 0
    else us.take t.length == t.getD []

/-- Modelled from the spec: enum `RenameAction::Type` (rendirdialog.h). -/
inductive RenameActionType where
  | CreateDirectory
  | RenameDirectory
  | RenameFile
  | ReportError
  deriving DecidableEq, Repr

/-- Modelled from the spec: class `RenameAction` (rendirdialog.h), an action
with its type, source and destination. -/
structure RenameAction where
  m_type : RenameActionType
  m_src : QString
  m_dest : QString
  deriving DecidableEq, Repr

/-- The members of `RenDirDialog` that the scheduling of actions uses: the list
of actions and the abort flag. -/
structure RenDirDialog where
  m_actions : List RenameAction
  m_aborted : Bool
  deriving DecidableEq, Repr

/-- Function `RenDirDialog::clearActions`. -/
def RenDirDialog.clearActions (d : RenDirDialog) : RenDirDialog :=
  { d with m_actions := [], m_aborted := false }

/-- The test in the loop of `RenDirDialog::addAction`: the action `a` of the list
has the source, or the destination, of the action to add. -/
def actionConflicts (src dest : QString) (a : RenameAction) : Bool :=
  (!src.isEmpty && a.m_src.eq src) || (!dest.isEmpty && a.m_dest.eq dest)

/-- Function `RenDirDialog::addAction(type, src, dest)`. -/
def RenDirDialog.addAction (d : RenDirDialog) (type : RenameActionType) (src dest : QString) :
    RenDirDialog :=
  if d.m_actions.any (actionConflicts src dest) then d
  else { d with m_actions := d.m_actions ++ [{ m_type := type, m_src := src, m_dest := dest }] }

/-- Function `RenDirDialog::addAction(type, dest)`. -/
def RenDirDialog.addActionDest (d : RenDirDialog) (type : RenameActionType) (dest : QString) :
    RenDirDialog :=
  d.addAction type none dest

/-- Function `RenDirDialog::actionHasSource`. -/
def RenDirDialog.actionHasSource (d : RenDirDialog) (src : QString) : Bool :=
  if src.isEmpty then false else d.m_actions.any (fun a => a.m_src.eq src)

/-- Function `RenDirDialog::actionHasDestination`. -/
def RenDirDialog.actionHasDestination (d : RenDirDialog) (dest : QString) : Bool :=
  if dest.isEmpty then false else d.m_actions.any (fun a => a.m_dest.eq dest)

/-- The inner loop of `RenDirDialog::replaceIfAlreadyRenamed`: the destination
of the first `RenameDirectory` action whose source is `src`, `none` when there
is no such action (`found` stays false). -/
def findRename (actions : List RenameAction) (src : QString) : Option QString :=
  (actions.find? (fun a =>
    decide (a.m_type = RenameActionType.RenameDirectory) && a.m_src.eq src)).map
    (fun a => a.m_dest)

/-- The outer loop `for (i = 0; found && i < 5; ++i)` of
`RenDirDialog::replaceIfAlreadyRenamed` with `rounds` iterations left. -/
def replaceLoop (actions : List RenameAction) : Nat → QString → QString
  | 0, src => src
  | rounds + 1, src =>
    match findRename actions src with
    | some dest => replaceLoop actions rounds dest
    | none => src

/-- Function `RenDirDialog::replaceIfAlreadyRenamed`: the value of `src` after
the call. -/
def RenDirDialog.replaceIfAlreadyRenamed (d : RenDirDialog) (src : QString) : QString :=
  replaceLoop d.m_actions 5 src

/-- Function `parentDirectory` of rendirdialog.cpp. -/
def parentDirectory (dir : QString) : QString :=
  let slashPos := dir.lastIndexOf ('/').toNat
  if slashPos ≠ -1 then dir.truncate (slashPos + 1).toNat else qstr ""

/-- The loop `for (i = 0; createDir && newDirname.startsWith(currentDirname) &&
i < 5; i++)` of `RenDirDialog::scheduleAction` with `rounds` iterations left:
the value of `currentDirname` and the dialog after the loop. -/
def createDirLoop (filename dirWithFiles newDirname : QString) :
    Nat → Bool → QString → RenDirDialog → QString × RenDirDialog
  | 0, _, currentDirname, d => (currentDirname, d)
  | rounds + 1, createDir, currentDirname, d =>
    if createDir && newDirname.startsWith currentDirname then
      let newPart0 := newDirname.midFrom currentDirname.length
      let slashPos := newPart0.find ('/').toNat 1
      let split : Bool := decide (slashPos ≠ -1 ∧ slashPos ≠ (newPart0.length : Int) - 1)
      let newPart := if split then newPart0.truncate slashPos.toNat else newPart0
      let createDir1 := split
      let d1 := d.addActionDest RenameActionType.CreateDirectory
        (currentDirname.append newPart)
      let d2 :=
        if !createDir1 then
          d1.addAction RenameActionType.RenameFile
            ((dirWithFiles.appendChar ('/').toNat).append filename)
            (((currentDirname.append newPart).appendChar ('/').toNat).append filename)
        else d1
      createDirLoop filename dirWithFiles newDirname rounds createDir1
        (currentDirname.append newPart) d2
    else (currentDirname, d)

/-- The state of `RenDirDialog::scheduleAction` between two rounds of its outer
loop. -/
structure ScheduleState where
  dialog : RenDirDialog
  currentDirname : QString
  again : Bool
  deriving DecidableEq, Repr

/-- One round of the outer loop of `RenDirDialog::scheduleAction`.  `isDir` is
`QFileInfo(path).isDir()`, `filename` is `taggedFile->getFilename()` and
`tooDifferent` the translated text of the error. -/
def scheduleRound (isDir : QString → Bool) (tooDifferent filename newDirname : QString)
    (s : ScheduleState) : ScheduleState :=
  let currentDirname := s.dialog.replaceIfAlreadyRenamed s.currentDirname
  if newDirname.ne currentDirname then
    if newDirname.startsWith (currentDirname.appendChar ('/').toNat) then
      let r := createDirLoop filename currentDirname newDirname 5 true currentDirname s.dialog
      { dialog := r.2, currentDirname := r.1, again := s.again }
    else
      let parent := parentDirectory currentDirname
      if newDirname.startsWith parent then
        let newPart0 := newDirname.midFrom parent.length
        let slashPos := newPart0.find ('/').toNat 0
        let split : Bool := decide (slashPos ≠ -1 ∧ slashPos ≠ (newPart0.length : Int) - 1)
        let newPart := if split then newPart0.truncate slashPos.toNat else newPart0
        let again := if split then true else s.again
        let parentWithNewPart := parent.append newPart
        if (isDir parentWithNewPart && !s.dialog.actionHasSource parentWithNewPart) ||
            s.dialog.actionHasDestination parentWithNewPart then
          { dialog := s.dialog.addAction RenameActionType.RenameFile
              ((currentDirname.appendChar ('/').toNat).append filename)
              ((parentWithNewPart.appendChar ('/').toNat).append filename),
            currentDirname := parentWithNewPart, again := again }
        else
          { dialog := s.dialog.addAction RenameActionType.RenameDirectory currentDirname
              parentWithNewPart,
            currentDirname := parentWithNewPart, again := again }
      else
        { dialog := s.dialog.addActionDest RenameActionType.ReportError tooDifferent,
          currentDirname := currentDirname, again := s.again }
  else { s with currentDirname := currentDirname }

/-- Function `RenDirDialog::scheduleAction`.  `newDirname` and `currentDirname`
are the two results of `generateNewDirname(taggedFile, &currentDirname)`. -/
def RenDirDialog.scheduleAction (isDir : QString → Bool)
    (tooDifferent filename newDirname currentDirname : QString) (d : RenDirDialog) :
    RenDirDialog :=
  let s1 := scheduleRound isDir tooDifferent filename newDirname
    { dialog := d, currentDirname := currentDirname, again := false }
  if !s1.again then s1.dialog
  else (scheduleRound isDir tooDifferent filename newDirname s1).dialog

/-- A call of `clearActions` or `addAction` on the dialog. -/
inductive RenDirOp where
  | clearActions
  | addAction (type : RenameActionType) (src dest : QString)
  deriving DecidableEq, Repr

/-- The dialog after one call. -/
def RenDirDialog.apply (d : RenDirDialog) (op : RenDirOp) : RenDirDialog :=
  match op with
  | RenDirOp.clearActions => d.clearActions
  | RenDirOp.addAction type src dest => d.addAction type src dest

/-- The dialog after a sequence of calls. -/
def RenDirDialog.run (d : RenDirDialog) (ops : List RenDirOp) : RenDirDialog :=
  ops.foldl RenDirDialog.apply d

/-- The text `/c1/c2/.../cn` of the path components `c1 ... cn`. -/
def joinSlash (comps : List (List Nat)) : List Nat :=
  (comps.map (fun c => 47 :: c)).flatten

/-- The `CreateDirectory` actions for the directories `pre/c1`, `pre/c1/c2`, ...,
outermost first. -/
def createActions (pre : List Nat) : List (List Nat) → List RenameAction
  | [] => []
  | c :: rest =>
    { m_type := RenameActionType.CreateDirectory, m_src := none,
      m_dest := some (pre ++ 47 :: c) } :: createActions (pre ++ 47 :: c) rest

/-- The name reached from `src` by following `k` scheduled renames of
directories, `none` when the chain of renames ends before. -/
def followRenames (actions : List RenameAction) : Nat → QString → Option QString
  | 0, src => some src
  | k + 1, src =>
    match findRename actions src with
    | some dest => followRenames actions k dest
    | none => none

/-- No two actions of the list have the same non-empty source, and no two have
the same non-empty destination. -/
def uniqueNames (actions : List RenameAction) : Prop :=
  actions.Pairwise (fun a b =>
    (a.m_src.isEmpty = false → a.m_src.eq b.m_src = false) ∧
    (a.m_dest.isEmpty = false → a.m_dest.eq b.m_dest = false))

/-! ## Frames of imported tracks (trackdata.cpp) -/

/-- The members of `TaggedFile` that `ImportTrackDataVector` calls, over a type
`FC` of frame collections: `getAllFramesV1` and `getAllFramesV2` give the
collection after the call from the collection handed in. -/
structure TaggedFileFrames (FC : Type) where
  isTagV1Supported : Bool
  getAllFramesV1 : FC → FC
  getAllFramesV2 : FC → FC

/-- Class `ImportTrackData` as far as `ImportTrackDataVector` looks at it: the
frames of the track itself and the tagged file, `none` when `getTaggedFile()`
returns 0. -/
structure ImportTrackData (FC : Type) where
  frames : FC
  getTaggedFile : Option (TaggedFileFrames FC)

/-- Function `ImportTrackDataVector::isTagV1Supported`. -/
def ImportTrackDataVector.isTagV1Supported {FC : Type} (v : List (ImportTrackData FC)) : Bool :=
  match v with
  | [] => true
  | trackData :: _ =>
    match trackData.getTaggedFile with
    | some taggedFile => taggedFile.isTagV1Supported
    | none => true

/-- Function `ImportTrackDataVector::getFrame`.  `getValue` is
`FrameCollection::getValue` and `emptyFrames` the default-constructed
collection.  The value is `none` when the function calls a member through a
null `taggedFile` pointer, where the result is not defined. -/
def ImportTrackDataVector.getFrame {FC FT : Type} (getValue : FC → FT → QString)
    (emptyFrames : FC) (v : List (ImportTrackData FC)) (type : FT) : Option QString :=
  match v with
  | [] => some none
  | trackData :: _ =>
    let result := getValue trackData.frames type
    if !result.isEmpty then some result
    else
      match trackData.getTaggedFile with
      | none => none
      | some taggedFile =>
        let frames := taggedFile.getAllFramesV2 emptyFrames
        let result2 := getValue frames type
        if !result2.isEmpty then some result2
        else some (getValue (taggedFile.getAllFramesV1 frames) type)

/-! ## Calls on a `TagLibFile` (taglibfile.cpp) -/

/-- Modelled from the spec: constructor `TagLibFile::TagLibFile(dn, fn)`: no
tags, no file reference, file not read; the constructor of `TaggedFile`
(taggedfile.cpp) starts with both change flags clear and the new file name
equal to the file name. -/
def TagLibFile.constructed (fn : QString) : TagLibFile :=
  { m_fileRef := none, m_tagV1 := none, m_tagV2 := none, m_fileRead := false,
    changedV1 := false, changedV2 := false, filename := fn, new_filename := fn }

/-- A call of `readTags`, `writeTags`, `removeTagsV2` or a setter on a
`TagLibFile`, with its arguments and with what the outside world answers
during the call. -/
inductive TagLibOp where
  | readTags (opened : Option TagLibFileType) (tags : TagLibFileTags) (force : Bool)
  | writeTags (env : WriteEnv) (disk : Disk TagLibTag) (force renamed : Bool)
  | removeTagsV2 (flt : StandardTagsFilter)
  | setTitleV1 (str : QString)
  | setArtistV1 (str : QString)
  | setAlbumV1 (str : QString)
  | setCommentV1 (str : QString)
  | setYearV1 (num : Int)
  | setTrackNumV1 (num : Int)
  | setGenreNumV1 (num : Int)
  | setTitleV2 (str : QString)
  | setArtistV2 (str : QString)
  | setAlbumV2 (str : QString)
  | setCommentV2 (str : QString)
  | setYearV2 (num : Int)
  | setTrackNumV2 (num : Int)
  | setGenreNumV2 (num : Int)
  | setGenreV2 (str : QString)

/-- The file object after one call; `getName` is `Genres::getName` and
`isChanged` is `TaggedFile::isChanged`. -/
def TagLibFile.applyOp (MPC_ID3V1 : Bool) (getName : Int → QString)
    (isChanged : TagLibFile → Bool) (f : TagLibFile) (op : TagLibOp) : TagLibFile :=
  match op with
  | TagLibOp.readTags opened tags force => TagLibFile.readTags MPC_ID3V1 opened tags force f
  | TagLibOp.writeTags env disk force renamed =>
    (TagLibFile.writeTags MPC_ID3V1 isChanged env disk force renamed f).file
  | TagLibOp.removeTagsV2 flt => TagLibFile.removeTagsV2 TagLibFile.removeStandardTagsV2 f flt
  | TagLibOp.setTitleV1 str => f.setTitleV1 MPC_ID3V1 str
  | TagLibOp.setArtistV1 str => f.setArtistV1 MPC_ID3V1 str
  | TagLibOp.setAlbumV1 str => f.setAlbumV1 MPC_ID3V1 str
  | TagLibOp.setCommentV1 str => f.setCommentV1 MPC_ID3V1 str
  | TagLibOp.setYearV1 num => f.setYearV1 MPC_ID3V1 num
  | TagLibOp.setTrackNumV1 num => f.setTrackNumV1 MPC_ID3V1 num
  | TagLibOp.setGenreNumV1 num => f.setGenreNumV1 getName MPC_ID3V1 num
  | TagLibOp.setTitleV2 str => f.setTitleV2 str
  | TagLibOp.setArtistV2 str => f.setArtistV2 str
  | TagLibOp.setAlbumV2 str => f.setAlbumV2 str
  | TagLibOp.setCommentV2 str => f.setCommentV2 str
  | TagLibOp.setYearV2 num => f.setYearV2 num
  | TagLibOp.setTrackNumV2 num => f.setTrackNumV2 num
  | TagLibOp.setGenreNumV2 num => f.setGenreNumV2 getName num
  | TagLibOp.setGenreV2 str => f.setGenreV2 str

/-- The file object after a sequence of calls. -/
def TagLibFile.runOps (MPC_ID3V1 : Bool) (getName : Int → QString)
    (isChanged : TagLibFile → Bool) (f : TagLibFile) (ops : List TagLibOp) : TagLibFile :=
  ops.foldl (TagLibFile.applyOp MPC_ID3V1 getName isChanged) f

/-- Whether `readTags` takes its last branch for the file reference, the one
that sets `m_tagV1 = 0`: the file is neither an MPEG nor a FLAC file, nor a
Musepack file with `MPC_ID3V1` defined. -/
def noFirstTag (MPC_ID3V1 : Bool) (fileRef : Option TagLibFileType) : Bool :=
  match fileRef with
  | some TagLibFileType.OTHER => true
  | some TagLibFileType.MPC => !MPC_ID3V1
  | _ => false

/-- A change flag is set only when its tag object is present; a file whose
reference is null has no tag objects, and a file of a type without a first tag
has no first tag object. -/
def TagLibFile.flagsHaveTags (MPC_ID3V1 : Bool) (f : TagLibFile) : Prop :=
  (f.changedV1 = true → f.m_tagV1.isSome = true) ∧
  (f.changedV2 = true → f.m_tagV2.isSome = true) ∧
  (noFirstTag MPC_ID3V1 f.m_fileRef = true → f.m_tagV1 = none) ∧
  (f.m_fileRef = none → f.m_tagV1 = none ∧ f.m_tagV2 = none)

/-! # Properties -/

open ID3_FrameID ID3_TextEnc

/-! ## Lemmas on tags -/

theorem find_eq_none_of_count_zero (id : ID3_FrameID) (t : ID3_Tag)
    (h : t.countP (fun f => f.id == id) = 0) : ID3_Tag.Find t id = none := by
  unfold ID3_Tag.Find
  rw [List.find?_eq_none]
  intro f hf
  have := (List.countP_eq_zero.mp h) f hf
  simpa using this

theorem count_removeFound (id : ID3_FrameID) (t : ID3_Tag) :
    (ID3_Tag.RemoveFound t id).countP (fun f => f.id == id)
      = t.countP (fun f => f.id == id) - 1 := by
  unfold ID3_Tag.RemoveFound
  induction t with
  | nil => simp
  | cons a l ih =>
    by_cases ha : (a.id == id) = true
    · simp [List.eraseP_cons, ha, List.countP_cons]
    · simp only [List.eraseP_cons, ha, List.countP_cons, Bool.false_eq_true, ite_false,
        cond_false, ih]
      simp

theorem find_append_of_found_behind {α : Type} (p : α → Bool) (l1 l2 : List α) (a : α)
    (h2 : l2.find? p = some a) (h : (l1 ++ l2).countP p ≤ 1) :
    (l1 ++ l2).find? p = some a := by
  rw [List.find?_append]
  cases h1 : l1.find? p with
  | none => simpa using h2
  | some b =>
    exfalso
    have c1 : 0 < l1.countP p :=
      List.countP_pos_iff.mpr ⟨b, List.mem_of_find?_eq_some h1, List.find?_some h1⟩
    have c2 : 0 < l2.countP p :=
      List.countP_pos_iff.mpr ⟨a, List.mem_of_find?_eq_some h2, List.find?_some h2⟩
    rw [List.countP_append] at h
    omega

theorem find_append_of_none_behind {α : Type} (p : α → Bool) (l1 l2 : List α)
    (h2 : l2.find? p = none) : (l1 ++ l2).find? p = l1.find? p := by
  rw [List.find?_append, h2]
  cases l1.find? p <;> rfl

theorem findFrom_zero (t : ID3_Tag) (id : ID3_FrameID) :
    ID3_Tag.FindFrom t 0 id = ID3_Tag.Find t id := by
  unfold ID3_Tag.FindFrom ID3_Tag.Find
  simp only [ite_self, List.drop_zero, List.take_zero, List.find?_nil]
  cases List.find? (fun f : ID3_Frame => f.id == id) t <;> rfl

theorem findFrom_of_count_le_one (t : ID3_Tag) (cursor : Nat) (id : ID3_FrameID)
    (h : t.countP (fun f => f.id == id) ≤ 1) :
    ID3_Tag.FindFrom t cursor id = ID3_Tag.Find t id := by
  unfold ID3_Tag.FindFrom ID3_Tag.Find
  simp only
  generalize (if t.length ≤ cursor then 0 else cursor) = c
  have hsplit : t.take c ++ t.drop c = t := List.take_append_drop c t
  cases h2 : List.find? (fun f : ID3_Frame => f.id == id) (t.drop c) with
  | none =>
    have := find_append_of_none_behind (fun f : ID3_Frame => f.id == id) (t.take c) (t.drop c) h2
    rw [hsplit] at this
    exact this.symm
  | some a =>
    have := find_append_of_found_behind (fun f : ID3_Frame => f.id == id) (t.take c) (t.drop c) a
      h2 (by rw [hsplit]; exact h)
    rw [hsplit] at this
    exact this.symm

theorem findFrom_isNone (t : ID3_Tag) (cursor : Nat) (id : ID3_FrameID) :
    (ID3_Tag.FindFrom t cursor id).isNone = (ID3_Tag.Find t id).isNone := by
  unfold ID3_Tag.FindFrom ID3_Tag.Find
  simp only
  generalize (if t.length ≤ cursor then 0 else cursor) = c
  conv_rhs => rw [← List.take_append_drop c t, List.find?_append]
  cases h2 : (t.drop c).find? (fun f => f.id == id) <;>
    cases h1 : (t.take c).find? (fun f => f.id == id) <;> simp

theorem eraseP_eq_filter_of_count_le_one {α : Type} (p : α → Bool) (l : List α)
    (h : l.countP p ≤ 1) : l.eraseP p = l.filter (fun a => !p a) := by
  induction l with
  | nil => rfl
  | cons a l ih =>
    by_cases ha : p a = true
    · have hc : l.countP p = 0 := by
        rw [List.countP_cons_of_pos _ _ ha] at h
        omega
      have hall : ∀ b ∈ l, (!p b) = true := by
        intro b hb
        have := (List.countP_eq_zero.mp hc) b hb
        simpa using this
      simp only [List.eraseP_cons_of_pos ha, List.filter_cons, ha, Bool.not_true,
        Bool.false_eq_true, if_false]
      exact (List.filter_eq_self.mpr hall).symm
    · have hc : l.countP p ≤ 1 := by
        rw [List.countP_cons_of_neg _ _ ha] at h
        exact h
      have ha1 : (!p a) = true := by simpa using ha
      rw [List.eraseP_cons_of_neg ha, List.filter_cons, if_pos ha1, ih hc]

theorem removeFoundFrom_of_count_le_one (t : ID3_Tag) (cursor : Nat) (id : ID3_FrameID)
    (h : t.countP (fun f => f.id == id) ≤ 1) :
    ID3_Tag.RemoveFoundFrom t cursor id = ID3_Tag.RemoveFound t id := by
  unfold ID3_Tag.RemoveFoundFrom ID3_Tag.RemoveFound
  simp only
  generalize (if t.length ≤ cursor then 0 else cursor) = c
  have hsplit : t.take c ++ t.drop c = t := List.take_append_drop c t
  have hcount : (t.take c).countP (fun f => f.id == id)
      + (t.drop c).countP (fun f => f.id == id) ≤ 1 := by
    rw [← List.countP_append, hsplit]; exact h
  by_cases hany : (t.drop c).any (fun f => f.id == id) = true
  · rw [if_pos hany]
    have c2 : 0 < (t.drop c).countP (fun f => f.id == id) := by
      obtain ⟨b, hb, hpb⟩ := List.any_eq_true.mp hany
      exact List.countP_pos_iff.mpr ⟨b, hb, hpb⟩
    have c1 : (t.take c).countP (fun f => f.id == id) = 0 := by omega
    have hnone : ∀ b ∈ t.take c, ¬(fun f : ID3_Frame => f.id == id) b = true :=
      List.countP_eq_zero.mp c1
    conv_rhs => rw [← hsplit]
    rw [List.eraseP_append_right _ hnone]
  · rw [if_neg hany]
    have hnone : ∀ b ∈ t.drop c, ¬(fun f : ID3_Frame => f.id == id) b = true := by
      intro b hb hpb
      exact hany (List.any_eq_true.mpr ⟨b, hb, hpb⟩)
    conv_rhs => rw [← hsplit]
    by_cases hex : ∃ a ∈ t.take c, (fun f : ID3_Frame => f.id == id) a = true
    · obtain ⟨a, ha, hpa⟩ := hex
      exact (List.eraseP_append_left (p := fun f : ID3_Frame => f.id == id) hpa _ ha).symm
    · have hnone1 : ∀ b ∈ t.take c, ¬(fun f : ID3_Frame => f.id == id) b = true := by
        intro b hb hpb
        exact hex ⟨b, hb, hpb⟩
      rw [List.eraseP_append_right _ hnone1, List.eraseP_of_forall_not hnone,
        List.eraseP_of_forall_not hnone1]

theorem getTextField_of_find_none (buggy : Bool) (t : ID3_Tag) (id : ID3_FrameID)
    (h : ID3_Tag.Find t id = none) : getTextField buggy (some t) id = some [] := by
  simp [getTextField, h]

/-! ## Lemmas on the byte mirroring -/

theorem and_ff00_shift (u : Nat) : (u &&& 0xff00) >>> 8 = (u / 256) % 256 := by
  have h3 : u / 256 = u >>> 8 := by rw [Nat.shiftRight_eq_div_pow]
  rw [h3, show (256 : Nat) = 2 ^ 8 by decide, ← Nat.and_pow_two_sub_one_eq_mod]
  apply Nat.eq_of_testBit_eq
  intro i
  have h1 : Nat.testBit 0xff00 (8 + i) = Nat.testBit (2 ^ 8 - 1) i := by
    have : (0xff00 : Nat) = (2 ^ 8 - 1) <<< 8 := by decide
    rw [this, Nat.testBit_shiftLeft]
    simp
  simp only [Nat.testBit_shiftRight, Nat.testBit_and, h1]

theorem mirror_eq (u : Nat) : mirror u = (u % 256) * 256 + (u / 256) % 256 := by
  unfold mirror
  rw [and_ff00_shift]
  have h2 : u &&& 0x00ff = u % 256 := by
    have := Nat.and_pow_two_sub_one_eq_mod u 8
    simpa using this
  rw [h2, Nat.shiftLeft_eq]
  have hb : (u / 256) % 256 < 2 ^ 8 := by
    have : (u / 256) % 256 < 256 := Nat.mod_lt _ (by decide)
    simpa using this
  have := Nat.mul_add_lt_is_or hb (u % 256)
  rw [show u % 256 * 2 ^ 8 = 2 ^ 8 * (u % 256) by ring, ← this]
  have h4 : u % 256 < 256 := Nat.mod_lt _ (by decide)
  have h5 : (u / 256) % 256 < 256 := Nat.mod_lt _ (by decide)
  omega

theorem mirror_lt (u : Nat) : mirror u < 65536 := by
  unfold mirror; exact Nat.mod_lt _ (by decide)

theorem mirror_mirror (u : Nat) (h : u < 65536) : mirror (mirror u) = u := by
  rw [mirror_eq (mirror u), mirror_eq u]
  generalize hl : u % 256 = l
  generalize hh : u / 256 = k
  have h1 : l < 256 := by rw [← hl]; exact Nat.mod_lt _ (by decide)
  have h2 : k < 256 := by omega
  have h3 : (l * 256 + k % 256) % 256 = k := by omega
  have h4 : (l * 256 + k % 256) / 256 = l := by omega
  rw [h3, h4]
  omega

theorem mirror_eq_zero (u : Nat) (h : u < 65536) (h0 : mirror u = 0) : u = 0 := by
  rw [mirror_eq u] at h0
  omega
/-! ## Lemmas on decimal texts -/

theorem decimalAux_foldl (fuel : Nat) : ∀ (n : Nat) (acc : List Nat), n < fuel →
    (decimalAux fuel n acc).foldl (fun a d => 10 * a + (d - 48)) 0
      = acc.foldl (fun a d => 10 * a + (d - 48)) n := by
  induction fuel with
  | zero => intro n acc h; omega
  | succ k ih =>
    intro n acc h
    unfold decimalAux
    by_cases hn : n < 10
    · simp [hn]
    · simp only [hn, if_false]
      rw [ih (n / 10) _ (by omega)]
      simp only [List.foldl_cons]
      congr 1
      omega

theorem digitsValue_decimal (n : Nat) : digitsValue (decimal n) = n := by
  unfold digitsValue decimal
  rw [decimalAux_foldl (n + 1) n [] (by omega)]
  rfl

theorem decimalAux_digits (fuel : Nat) : ∀ (n : Nat) (acc : List Nat), n < fuel →
    (∀ c ∈ acc, isDigit c = true) → ∀ c ∈ decimalAux fuel n acc, isDigit c = true := by
  induction fuel with
  | zero => intro n acc h; omega
  | succ k ih =>
    intro n acc h hacc c hc
    unfold decimalAux at hc
    by_cases hn : n < 10
    · simp only [hn, if_true, List.mem_cons] at hc
      rcases hc with rfl | hc
      · simp [isDigit]; omega
      · exact hacc c hc
    · simp only [hn, if_false] at hc
      refine ih (n / 10) _ (by omega) ?_ c hc
      intro d hd
      simp only [List.mem_cons] at hd
      rcases hd with rfl | hd
      · simp [isDigit]; omega
      · exact hacc d hd

theorem decimal_digits (n : Nat) : ∀ c ∈ decimal n, isDigit c = true :=
  decimalAux_digits (n + 1) n [] (by omega) (by simp)

theorem decimalAux_ne_nil (fuel : Nat) : ∀ (n : Nat) (acc : List Nat), n < fuel →
    decimalAux fuel n acc ≠ [] := by
  induction fuel with
  | zero => intro n acc h; omega
  | succ k ih =>
    intro n acc h
    unfold decimalAux
    by_cases hn : n < 10
    · simp [hn]
    · simp only [hn, if_false]
      exact ih (n / 10) _ (by omega)

theorem decimal_ne_nil (n : Nat) : decimal n ≠ [] :=
  decimalAux_ne_nil (n + 1) n [] (by omega)

theorem takeWhile_eq_self_of_all {p : Nat → Bool} (l : List Nat) (h : ∀ c ∈ l, p c = true) :
    l.takeWhile p = l := by
  induction l with
  | nil => rfl
  | cons a l ih =>
    have ha := h a (List.mem_cons_self a l)
    simp only [List.takeWhile_cons, ha, if_true]
    rw [ih (fun c hc => h c (List.mem_cons_of_mem a hc))]

theorem dropWhile_eq_nil_of_all {p : Nat → Bool} (l : List Nat) (h : ∀ c ∈ l, p c = true) :
    l.dropWhile p = [] := by
  induction l with
  | nil => rfl
  | cons a l ih =>
    have ha := h a (List.mem_cons_self a l)
    simp only [List.dropWhile_cons, ha, if_true]
    exact ih (fun c hc => h c (List.mem_cons_of_mem a hc))

theorem toInt_digits (ds : List Nat) (hne : ds ≠ []) (hd : ∀ c ∈ ds, isDigit c = true)
    (hmax : (digitsValue ds : Int) ≤ INT_MAX) :
    QString.toInt (some ds) = ((digitsValue ds : Int), true) := by
  cases ds with
  | nil => exact absurd rfl hne
  | cons d r =>
    have hdig := hd d (List.mem_cons_self d r)
    have hd1 : 48 ≤ d ∧ d ≤ 57 := by simpa [isDigit] using hdig
    have hsp : isSpace d = false := by
      simp [isSpace]; omega
    have h45 : d ≠ 45 := by omega
    have h43 : d ≠ 43 := by omega
    have hdw : (d :: r).dropWhile isSpace = d :: r := by
      simp [List.dropWhile_cons, hsp]
    have hss : splitSign (d :: r) = (false, d :: r) := by
      unfold splitSign
      split
      · rename_i heq; simp at heq; omega
      · rename_i heq; simp at heq; omega
      · rfl
    unfold QString.toInt
    simp only [hdw, hss, takeWhile_eq_self_of_all (d :: r) hd,
      dropWhile_eq_nil_of_all (d :: r) hd]
    · have hnn : (0 : Int) ≤ (digitsValue (d :: r) : Int) := Int.ofNat_nonneg _
      have h1 : ¬ ((digitsValue (d :: r) : Int) < INT_MIN) := by
        unfold INT_MIN; omega
      have h2 : ¬ (INT_MAX < (digitsValue (d :: r) : Int)) := not_lt.mpr hmax
      simp [h1, h2]

theorem toInt_decimal (n : Nat) (h : (n : Int) ≤ INT_MAX) :
    QString.toInt (some (decimal n)) = ((n : Int), true) := by
  have := toInt_digits (decimal n) (decimal_ne_nil n) (decimal_digits n)
    (by rw [digitsValue_decimal]; exact h)
  rw [digitsValue_decimal] at this
  exact this

/-! ## Unset input -/

/-- C1. Unset input leaves the tag untouched: `setTextField` with the null
string, and `setYear`, `setTrackNum`, `setGenreNum` with a negative number,
return false and hand back the tag (absent or present) with every frame as it
was, whatever the other arguments are. -/
theorem unset_input_leaves_tag_untouched (buggy : Bool) (tag : Option ID3_Tag)
    (id : ID3_FrameID) (allowUnicode replace removeEmpty : Bool) (num numTracks : Int)
    (hneg : num < 0) :
    setTextField buggy tag id none allowUnicode replace removeEmpty = (false, tag) ∧
    setYear buggy tag num = (false, tag) ∧
    setTrackNum buggy tag num numTracks = (false, tag) ∧
    setGenreNum buggy tag num = (false, tag) := by
  have h0 : ¬ (0 ≤ num) := not_le.mpr hneg
  refine ⟨?_, ?_, ?_, ?_⟩
  · cases tag <;> simp [setTextField, QString.isNull]
  · simp [setYear, h0]
  · simp [setTrackNum, h0]
  · simp [setGenreNum, h0]

theorem unset_input_leaves_tag_untouched_witness :
    (-1 : Int) < 0 ∧
    setTextField true (some [latin1Frame TITLE "a"]) TITLE none true true true
      = (false, some [latin1Frame TITLE "a"]) ∧
    setYear true (some [latin1Frame TITLE "a"]) (-1) = (false, some [latin1Frame TITLE "a"]) ∧
    setTrackNum true (some [latin1Frame TITLE "a"]) (-1) 12
      = (false, some [latin1Frame TITLE "a"]) ∧
    setGenreNum true (some [latin1Frame TITLE "a"]) (-1)
      = (false, some [latin1Frame TITLE "a"]) :=
  ⟨by decide, unset_input_leaves_tag_untouched true (some [latin1Frame TITLE "a"]) TITLE true
    true true (-1) 12 (by decide)⟩

/-! ## Writing the empty string -/

theorem removeFound_no_frame_left (id : ID3_FrameID) (t : ID3_Tag)
    (h : t.countP (fun f => f.id == id) ≤ 1) :
    ∀ f ∈ ID3_Tag.RemoveFound t id, f.id ≠ id := by
  have hc : (ID3_Tag.RemoveFound t id).countP (fun f => f.id == id) = 0 := by
    rw [count_removeFound]; omega
  intro f hf
  have := (List.countP_eq_zero.mp hc) f hf
  simpa using this

theorem find_removeFound_none (id : ID3_FrameID) (t : ID3_Tag)
    (h : t.countP (fun f => f.id == id) ≤ 1) :
    ID3_Tag.Find (ID3_Tag.RemoveFound t id) id = none := by
  apply find_eq_none_of_count_zero
  rw [count_removeFound]; omega

theorem removeFound_eq_filter (id : ID3_FrameID) (t : ID3_Tag)
    (h : t.countP (fun f => f.id == id) ≤ 1) :
    ID3_Tag.RemoveFound t id = t.filter (fun f => f.id != id) :=
  eraseP_eq_filter_of_count_le_one (fun f : ID3_Frame => f.id == id) t h

theorem removeFoundFrom_eq_filter (id : ID3_FrameID) (t : ID3_Tag) (cursor : Nat)
    (h : t.countP (fun f => f.id == id) ≤ 1) :
    ID3_Tag.RemoveFoundFrom t cursor id = t.filter (fun f => f.id != id) := by
  rw [removeFoundFrom_of_count_le_one t cursor id h]
  exact removeFound_eq_filter id t h

theorem setTextField_empty (buggy : Bool) (t : ID3_Tag) (id : ID3_FrameID)
    (allowUnicode : Bool) :
    setTextField buggy (some t) id (some []) allowUnicode true true
      = (true, some (ID3_Tag.RemoveFound t id)) := by
  simp [setTextField, QString.isNull, QString.isEmpty]

/-- C2, as stated, fails on a tag with two comment frames: writing the empty
comment with replace and removeEmpty enabled erases only the one frame that
`Find` yields (on a tag just read the first), the other comment frame stays in
the tag and `getTextField` returns its text. -/
theorem empty_string_keeps_second_frame :
    (setTextField true (some [latin1Frame COMMENT "a", latin1Frame COMMENT "b"]) COMMENT
        (some []) false true true).2 = some [latin1Frame COMMENT "b"] ∧
    (∃ f ∈ [latin1Frame COMMENT "b"], f.id = COMMENT) ∧
    getTextField true (setTextField true
        (some [latin1Frame COMMENT "a", latin1Frame COMMENT "b"]) COMMENT
        (some []) false true true).2 COMMENT = qstr "b" ∧
    qstr "b" ≠ some [] := by
  decide

/-- C2 (amended). For every present tag that holds at most one frame with the
id, `setTextField(tag, id, "")` with replace and removeEmpty enabled returns
true and leaves in the tag exactly its frames with other ids, in their order;
the tag holds no frame with the id afterwards and `getTextField(tag, id)`
returns the non-null empty string.  The frames that stay are the same wherever
the search cursor of the tag stands at the call. -/
theorem empty_string_removes_field (buggy : Bool) (t : ID3_Tag) (id : ID3_FrameID)
    (allowUnicode : Bool) (hcount : t.countP (fun f => f.id == id) ≤ 1) :
    setTextField buggy (some t) id (some []) allowUnicode true true
      = (true, some (t.filter (fun f => f.id != id))) ∧
    (∀ f ∈ t.filter (fun f => f.id != id), f.id ≠ id) ∧
    getTextField buggy
      (setTextField buggy (some t) id (some []) allowUnicode true true).2 id = some [] ∧
    (∀ cursor : Nat, ID3_Tag.RemoveFoundFrom t cursor id = t.filter (fun f => f.id != id)) := by
  have hset : setTextField buggy (some t) id (some []) allowUnicode true true
      = (true, some (ID3_Tag.RemoveFound t id)) := setTextField_empty buggy t id allowUnicode
  have hfilter := removeFound_eq_filter id t hcount
  refine ⟨by rw [hset, hfilter], ?_, ?_, fun cursor => removeFoundFrom_eq_filter id t cursor hcount⟩
  · rw [← hfilter]
    exact removeFound_no_frame_left id t hcount
  · rw [hset]
    exact getTextField_of_find_none buggy _ id (find_removeFound_none id t hcount)

theorem empty_string_removes_field_witness :
    ([latin1Frame TITLE "a", latin1Frame COMMENT "b"] : ID3_Tag).countP
        (fun f => f.id == COMMENT) ≤ 1 ∧
    setTextField true (some [latin1Frame TITLE "a", latin1Frame COMMENT "b"]) COMMENT
        (some []) false true true
      = (true, some (([latin1Frame TITLE "a", latin1Frame COMMENT "b"] : ID3_Tag).filter
          (fun f => f.id != COMMENT))) ∧
    getTextField true
      (setTextField true (some [latin1Frame TITLE "a", latin1Frame COMMENT "b"]) COMMENT
        (some []) false true true).2 COMMENT = some [] :=
  ⟨by decide,
   (empty_string_removes_field true [latin1Frame TITLE "a", latin1Frame COMMENT "b"] COMMENT
      false (by decide)).1,
   (empty_string_removes_field true [latin1Frame TITLE "a", latin1Frame COMMENT "b"] COMMENT
      false (by decide)).2.2.1⟩

/-! ## Missing tag and missing field -/

/-- C3. With no tag, `getTextField` returns the null string and `getYear`,
`getTrackNum`, `getGenreNum` return -1; with a present tag that has no frame of
the field, `getTextField` returns the non-null empty string, `getYear` and
`getTrackNum` return 0 and `getGenreNum` returns 0xff; the null string and the
empty string are different values. -/
theorem missing_tag_distinct_from_missing_field (buggy : Bool) :
    (∀ id, getTextField buggy none id = none) ∧
    getYear buggy none = -1 ∧ getTrackNum buggy none = -1 ∧ getGenreNum buggy none = -1 ∧
    (∀ (t : ID3_Tag) (id : ID3_FrameID), ID3_Tag.Find t id = none →
      getTextField buggy (some t) id = some [] ∧
      QString.isNull (getTextField buggy (some t) id) = false ∧
      getTextField buggy (some t) id ≠ getTextField buggy none id) ∧
    (∀ t : ID3_Tag, ID3_Tag.Find t YEAR = none → getYear buggy (some t) = 0) ∧
    (∀ t : ID3_Tag, ID3_Tag.Find t TRACKNUM = none → getTrackNum buggy (some t) = 0) ∧
    (∀ t : ID3_Tag, ID3_Tag.Find t CONTENTTYPE = none → getGenreNum buggy (some t) = 0xff) := by
  refine ⟨fun _ => rfl, rfl, rfl, rfl, ?_, ?_, ?_, ?_⟩
  · intro t id h
    rw [getTextField_of_find_none buggy t id h]
    simp [getTextField, QString.isNull]
  · intro t h
    simp [getYear, getTextField_of_find_none buggy t _ h, QString.isNull, QString.isEmpty]
  · intro t h
    simp [getTrackNum, getTextField_of_find_none buggy t _ h, QString.isNull, QString.isEmpty]
  · intro t h
    simp [getGenreNum, getTextField_of_find_none buggy t _ h, QString.isNull, QString.isEmpty]

theorem missing_tag_distinct_from_missing_field_witness :
    ID3_Tag.Find [latin1Frame TITLE "a"] YEAR = none ∧
    getYear true (some [latin1Frame TITLE "a"]) = 0 ∧
    getYear true none = -1 :=
  ⟨by decide,
   (missing_tag_distinct_from_missing_field true).2.2.2.2.2.1 [latin1Frame TITLE "a"]
     (by decide),
   (missing_tag_distinct_from_missing_field true).2.1⟩

/-! ## Text round trip -/

theorem getUnit_setUnit (buggy : Bool) (c : Nat) (h : c < 65536) :
    getUnit buggy (setUnit buggy c) = c := by
  have hc : c % 65536 = c := Nat.mod_eq_of_lt h
  cases buggy
  · simp [getUnit, setUnit, hc]
  · simp [getUnit, setUnit, hc, mirror_mirror c h]

theorem setUnit_ne_zero (buggy : Bool) (c : Nat) (h : c < 65536) (h0 : c ≠ 0) :
    setUnit buggy c ≠ 0 := by
  have hc : c % 65536 = c := Nat.mod_eq_of_lt h
  cases buggy
  · simp [setUnit, hc, h0]
  · simp only [setUnit, hc, if_true]
    exact fun hm => h0 (mirror_eq_zero c h hm)

theorem takeWhile_append_zero (l : List Nat) (h : ∀ c ∈ l, c ≠ 0) :
    (l ++ [0]).takeWhile (fun c => c != 0) = l := by
  induction l with
  | nil => simp
  | cons a l ih =>
    have ha : a ≠ 0 := h a (List.mem_cons_self a l)
    simp only [List.cons_append, List.takeWhile_cons, bne_iff_ne, ne_eq, ha, not_false_eq_true,
      if_true]
    rw [ih (fun c hc => h c (List.mem_cons_of_mem a hc))]

theorem getString_setString_utf16 (buggy : Bool) (fld : ID3_Field) (s : List Nat)
    (henc : fld.enc = UTF16) (hs : ∀ c ∈ s, c ≠ 0 ∧ c < 65536) :
    getString buggy (some (setString buggy fld (some s))) = some s := by
  have hdata : (setString buggy fld (some s)) = { enc := UTF16, data := s.map (setUnit buggy) } := by
    unfold setString ID3_Field.SetUnicode
    simp only [henc, true_or, if_true, Option.getD_some]
    rw [takeWhile_append_zero]
    intro c hc
    obtain ⟨a, ha, rfl⟩ := List.mem_map.mp hc
    exact setUnit_ne_zero buggy a (hs a ha).2 (hs a ha).1
  rw [hdata]
  unfold getString ID3_Field.Size
  simp only [true_or, if_true, List.length_map]
  have hlen : 2 * s.length / 2 = s.length := by omega
  rw [hlen]
  by_cases h0 : s.length = 0
  · have : s = [] := List.length_eq_zero.mp h0
    simp [this]
  · simp only [ne_eq, h0, not_false_eq_true, if_true]
    rw [List.take_of_length_le (by simp), List.map_map]
    congr 1
    conv_rhs => rw [← List.map_id s]
    apply List.map_congr_left
    intro c hc
    exact getUnit_setUnit buggy c (hs c hc).2

theorem map_latin1_eq_self (s : List Nat) (hs : ∀ c ∈ s, c ≤ 0xff) :
    s.map (fun c => if 0xff < c then 63 else c) = s := by
  induction s with
  | nil => rfl
  | cons a l ih =>
    have ha := hs a (List.mem_cons_self a l)
    simp only [List.map_cons]
    rw [if_neg (by omega), ih (fun c hc => hs c (List.mem_cons_of_mem a hc))]

theorem needsUnicode_false_iff (s : List Nat) :
    needsUnicode (some s) = false ↔ ∀ c ∈ s, c ≠ 0 ∧ c ≤ 0xff := by
  unfold needsUnicode QChar.latin1
  simp only [Option.getD_some, List.any_eq_false, beq_iff_eq]
  constructor
  · intro h c hc
    have := h c hc
    by_cases hgt : 0xff < c
    · simp [hgt] at this
    · simp only [hgt, if_false] at this
      exact ⟨this, by omega⟩
  · intro h c hc
    have := h c hc
    rw [if_neg (by omega)]
    exact this.1

theorem new_text (id : ID3_FrameID) (h : id ≠ PICTURE) :
    ID3_Frame.new id
      = { id := id, textenc := some ISO8859_1, text := some { enc := ISO8859_1, data := [] } } := by
  cases id <;> first | rfl | exact absurd rfl h

theorem fillFrame_latin1 (buggy : Bool) (id : ID3_FrameID) (s : List Nat) (allowUnicode : Bool)
    (hid : id ≠ PICTURE) (hs : ∀ c ∈ s, c ≠ 0 ∧ c ≤ 0xff) :
    fillFrame buggy (ID3_Frame.new id) (some s) allowUnicode
      = some { id := id, textenc := some ISO8859_1,
               text := some { enc := ISO8859_1, data := s } } := by
  have hn : needsUnicode (some s) = false := (needsUnicode_false_iff s).mpr hs
  have hmap := map_latin1_eq_self s (fun c hc => (hs c hc).2)
  have hall : ∀ c ∈ s, (fun c => c != 0) c = true := by
    intro c hc; simpa using (hs c hc).1
  rw [new_text id hid]
  unfold fillFrame
  simp only [hn, Bool.and_false, Bool.false_eq_true, if_false]
  unfold setString ID3_Field.SetText QString.latin1
  simp only [reduceCtorEq, or_self, if_false, hmap]
  rw [takeWhile_eq_self_of_all s hall, takeWhile_eq_self_of_all s hall]

theorem fillFrame_reads_back (buggy : Bool) (id : ID3_FrameID) (s : List Nat)
    (allowUnicode : Bool) (hid : id ≠ PICTURE) (hs : ∀ c ∈ s, c ≠ 0 ∧ c < 65536)
    (hu : allowUnicode = true ∨ ∀ c ∈ s, c ≤ 0xff) :
    ∃ fr fld, fillFrame buggy (ID3_Frame.new id) (some s) allowUnicode = some fr ∧
      fr.id = id ∧ fr.text = some fld ∧ getString buggy (some fld) = some s := by
  by_cases hn : needsUnicode (some s) = false
  · have hl := (needsUnicode_false_iff s).mp hn
    exact ⟨_, _, fillFrame_latin1 buggy id s allowUnicode hid hl, rfl, rfl, by simp [getString]⟩
  · have hn1 : needsUnicode (some s) = true := by simpa using hn
    have ha : allowUnicode = true := by
      rcases hu with h | h
      · exact h
      · exact absurd ((needsUnicode_false_iff s).mpr (fun c hc => ⟨(hs c hc).1, h c hc⟩)) hn
    refine ⟨{ id := id, textenc := some UTF16,
              text := some (setString buggy
                (ID3_Field.SetEncoding { enc := ISO8859_1, data := [] } UTF16) (some s)) },
      setString buggy (ID3_Field.SetEncoding { enc := ISO8859_1, data := [] } UTF16)
      (some s), ?_, ?_, rfl, ?_⟩
    · rw [new_text id hid]
      unfold fillFrame
      simp only [ha, hn1, decide_True, Bool.and_self, if_true]
      rfl
    · rfl
    · exact getString_setString_utf16 buggy _ s rfl hs

theorem find_attach (t : ID3_Tag) (id : ID3_FrameID) (fr : ID3_Frame)
    (h : ID3_Tag.Find t id = none) (hid : fr.id = id) :
    ID3_Tag.Find (ID3_Tag.AttachFrame t fr) id = some fr := by
  unfold ID3_Tag.Find at *
  unfold ID3_Tag.AttachFrame
  rw [List.find?_append, h]
  simp [hid]

theorem setTextField_write (buggy : Bool) (t : ID3_Tag) (id : ID3_FrameID) (s : List Nat)
    (allowUnicode removeEmpty : Bool) (fr : ID3_Frame) (hne : s ≠ [])
    (hfill : fillFrame buggy (ID3_Frame.new id) (some s) allowUnicode = some fr) :
    setTextField buggy (some t) id (some s) allowUnicode true removeEmpty
      = (true, some (ID3_Tag.AttachFrame (ID3_Tag.RemoveFound t id) fr)) := by
  have he : s.isEmpty = false := by
    cases s with
    | nil => exact absurd rfl hne
    | cons a l => rfl
  simp [setTextField, QString.isNull, QString.isEmpty, he, hfill]

theorem setTextField_reads_back (buggy : Bool) (t : ID3_Tag) (id : ID3_FrameID) (s : List Nat)
    (allowUnicode : Bool) (hid : id ≠ PICTURE)
    (hcount : t.countP (fun f => f.id == id) ≤ 1)
    (hs : ∀ c ∈ s, c ≠ 0 ∧ c < 65536)
    (hu : allowUnicode = true ∨ ∀ c ∈ s, c ≤ 0xff) :
    getTextField buggy (setTextField buggy (some t) id (some s) allowUnicode true true).2 id
      = some s := by
  by_cases hne : s = []
  · subst hne
    rw [setTextField_empty buggy t id allowUnicode]
    exact getTextField_of_find_none buggy _ id (find_removeFound_none id t hcount)
  · obtain ⟨fr, fld, hfill, hfid, htext, hget⟩ :=
      fillFrame_reads_back buggy id s allowUnicode hid hs hu
    rw [setTextField_write buggy t id s allowUnicode true fr hne hfill]
    have hfind := find_attach (ID3_Tag.RemoveFound t id) id fr
      (find_removeFound_none id t hcount) hfid
    simp only [getTextField, hfind, htext]
    exact hget


/-- C4, as stated, fails in two ways.  On a tag with two title frames
`setTitleV2("new")` replaces the first one and appends the new frame behind the
second, so `getTitleV2()` returns the text of the second old frame.  On an
empty tag a string with an embedded NUL character is cut at the NUL, because the
text reaches id3lib as a zero-terminated array. -/
theorem title_round_trip_fails :
    (Mp3File.getTitleV2 true (Mp3File.setTitleV2 true
        (Mp3File.ofTags none (some [latin1Frame TITLE "old", latin1Frame TITLE "other"]))
        (qstr "new")) = qstr "other" ∧ qstr "other" ≠ qstr "new") ∧
    (Mp3File.getTitleV2 true (Mp3File.setTitleV2 true (Mp3File.ofTags none (some []))
        (some [65, 0, 66])) = some [65] ∧ (some [65] : QString) ≠ some [65, 0, 66]) := by
  decide

/-- C4 (amended). For an Mp3File with a present ID3v2 tag and every non-null
string `s` of 16-bit code units that contains no NUL character: when the tag
holds at most one title frame, `setTitleV2(s)` followed by `getTitleV2()`
returns `s`, and likewise for artist, album and comment, whether `s` is stored
as Latin-1 or with the encoding raised to UTF-16. -/
theorem text_round_trip (buggy : Bool) (f : Mp3File) (t : ID3_Tag) (s : List Nat)
    (htag : f.tagV2 = some t) (hs : ∀ c ∈ s, c ≠ 0 ∧ c < 65536) :
    (t.countP (fun x => x.id == TITLE) ≤ 1 →
      (f.setTitleV2 buggy (some s)).getTitleV2 buggy = some s) ∧
    (t.countP (fun x => x.id == LEADARTIST) ≤ 1 →
      (f.setArtistV2 buggy (some s)).getArtistV2 buggy = some s) ∧
    (t.countP (fun x => x.id == ALBUM) ≤ 1 →
      (f.setAlbumV2 buggy (some s)).getAlbumV2 buggy = some s) ∧
    (t.countP (fun x => x.id == COMMENT) ≤ 1 →
      (f.setCommentV2 buggy (some s)).getCommentV2 buggy = some s) := by
  refine ⟨fun h => ?_, fun h => ?_, fun h => ?_, fun h => ?_⟩
  · simp only [Mp3File.setTitleV2, Mp3File.getTitleV2, Mp3File.updateV2, htag, defaultReplace,
      defaultRemoveEmpty]
    exact setTextField_reads_back buggy t TITLE s true (by decide) h hs (Or.inl rfl)
  · simp only [Mp3File.setArtistV2, Mp3File.getArtistV2, Mp3File.updateV2, htag, defaultReplace,
      defaultRemoveEmpty]
    exact setTextField_reads_back buggy t LEADARTIST s true (by decide) h hs (Or.inl rfl)
  · simp only [Mp3File.setAlbumV2, Mp3File.getAlbumV2, Mp3File.updateV2, htag, defaultReplace,
      defaultRemoveEmpty]
    exact setTextField_reads_back buggy t ALBUM s true (by decide) h hs (Or.inl rfl)
  · simp only [Mp3File.setCommentV2, Mp3File.getCommentV2, Mp3File.updateV2, htag,
      defaultReplace, defaultRemoveEmpty]
    exact setTextField_reads_back buggy t COMMENT s true (by decide) h hs (Or.inl rfl)

theorem text_round_trip_witness :
    (Mp3File.ofTags none (some [latin1Frame TITLE "old"])).tagV2
      = some [latin1Frame TITLE "old"] ∧
    (∀ c ∈ [0x4e2d, 65], c ≠ 0 ∧ c < 65536) ∧
    [latin1Frame TITLE "old"].countP (fun x => x.id == TITLE) ≤ 1 ∧
    Mp3File.getTitleV2 true (Mp3File.setTitleV2 true
      (Mp3File.ofTags none (some [latin1Frame TITLE "old"])) (some [0x4e2d, 65]))
      = some [0x4e2d, 65] :=
  ⟨rfl, by decide, by decide,
   (text_round_trip true (Mp3File.ofTags none (some [latin1Frame TITLE "old"]))
     [latin1Frame TITLE "old"] [0x4e2d, 65] rfl (by decide)).1 (by decide)⟩

/-! ## Track number and total -/

theorem digit_bounds (c : Nat) (h : isDigit c = true) : 48 ≤ c ∧ c ≤ 57 := by
  simpa [isDigit] using h

theorem getTrackNum_numerator (buggy : Bool) (tag : Option ID3_Tag) (ds suffix : List Nat)
    (hne : ds ≠ []) (hd : ∀ c ∈ ds, isDigit c = true)
    (hmax : (digitsValue ds : Int) ≤ INT_MAX)
    (htext : getTextField buggy tag TRACKNUM = some (ds ++ 47 :: suffix)) :
    getTrackNum buggy tag = (digitsValue ds : Int) := by
  have hnot : (47 : Nat) ∉ ds := by
    intro hmem
    have := digit_bounds 47 (hd 47 hmem)
    omega
  have hidx : List.indexOf 47 (ds ++ 47 :: suffix) = ds.length := by
    rw [List.indexOf_append_of_not_mem hnot, List.indexOf_cons_self]
    rfl
  have hfind : QString.find (some (ds ++ 47 :: suffix)) 47 0 = (ds.length : Int) := by
    unfold QString.find
    simp only [List.drop_zero, hidx, List.length_append, List.length_cons]
    rw [if_pos (by omega)]
    simp
  have hempty : (ds ++ 47 :: suffix).isEmpty = false := by
    cases ds <;> rfl
  unfold getTrackNum
  simp only [htext, QString.isNull, Option.isNone_some, Bool.false_eq_true, if_false,
    QString.isEmpty, hempty, hfind]
  have hneg : ((ds.length : Int) ≠ -1) := by omega
  simp only [ne_eq, hneg, not_false_eq_true, if_true, Int.toNat_ofNat, QString.truncate,
    List.length_append, List.length_cons]
  rw [if_pos (by omega), List.take_left, toInt_digits ds hne hd hmax]

theorem number_pos (n : Int) (h : 0 < n) : QString.number n = some (decimal n.natAbs) := by
  unfold QString.number
  rw [if_neg (by omega)]

theorem getTextField_attach_latin1 (buggy : Bool) (t : ID3_Tag) (id : ID3_FrameID)
    (s : List Nat) (h : ID3_Tag.Find t id = none) :
    getTextField buggy (some (ID3_Tag.AttachFrame t
      { id := id, textenc := some ISO8859_1, text := some { enc := ISO8859_1, data := s } })) id
      = some s := by
  have hfind := find_attach t id
    { id := id, textenc := some ISO8859_1, text := some { enc := ISO8859_1, data := s } } h rfl
  simp [getTextField, hfind, getString]

theorem track_text_latin1 (a b : Nat) :
    ∀ c ∈ decimal a ++ [47] ++ decimal b, c ≠ 0 ∧ c ≤ 0xff := by
  intro c hc
  simp only [List.mem_append, List.mem_singleton] at hc
  rcases hc with (hc | hc) | hc
  · have := digit_bounds c (decimal_digits a c hc); omega
  · omega
  · have := digit_bounds c (decimal_digits b c hc); omega

/-- C5, as stated, fails on a tag with two track frames: `setTrackNum(tag, 5, 12)`
replaces only the one frame that `Find` yields (on a tag just read the first)
and appends the frame with "5/12" behind the other, so `getTrackNum(tag)`
returns the number of the old frame that stayed. -/
theorem track_join_second_frame_wins :
    (setTrackNum true (some [latin1Frame TRACKNUM "7", latin1Frame TRACKNUM "9"]) 5 12).2
      = some [latin1Frame TRACKNUM "9", latin1Frame TRACKNUM "5/12"] ∧
    getTrackNum true
      (setTrackNum true (some [latin1Frame TRACKNUM "7", latin1Frame TRACKNUM "9"]) 5 12).2
      = 9 := by
  decide

/-- C5 (amended). For every present tag that holds at most one track frame,
every track number `n > 0` (an `int`) and every total `t > 0`,
`setTrackNum(tag, n, t)` returns true and leaves the tag with its frames of
other ids followed by one Latin-1 track frame whose text is the decimal of `n`,
a `'/'` and the decimal of `t`; this is the text `getTextField` reads, and
`getTrackNum(tag)` returns `n`, also after `setTrackNumV2(n)` with the total `t`
enabled.  The frames that stay are the same wherever the search cursor of the
tag stands at the call. -/
theorem track_split_join (buggy : Bool) (t : ID3_Tag) (n total : Int)
    (hn : 0 < n) (hmax : n ≤ INT_MAX) (htotal : 0 < total)
    (hcount : t.countP (fun f => f.id == TRACKNUM) ≤ 1) :
    setTrackNum buggy (some t) n total
      = (true, some (t.filter (fun f => f.id != TRACKNUM) ++
          [{ id := TRACKNUM, textenc := some ISO8859_1,
             text := some { enc := ISO8859_1,
                            data := decimal n.natAbs ++ [47] ++ decimal total.natAbs } }])) ∧
    getTextField buggy (setTrackNum buggy (some t) n total).2 TRACKNUM
      = some (decimal n.natAbs ++ [47] ++ decimal total.natAbs) ∧
    getTrackNum buggy (setTrackNum buggy (some t) n total).2 = n ∧
    (∀ f : Mp3File, f.tagV2 = some t →
      (f.setTrackNumV2 buggy total n).getTrackNumV2 buggy = n ∧
      (f.setTrackNumV2 buggy total n).changedV2 = true) ∧
    (∀ cursor : Nat,
      ID3_Tag.RemoveFoundFrom t cursor TRACKNUM = t.filter (fun f => f.id != TRACKNUM)) := by
  have hset : setTrackNum buggy (some t) n total
      = (true, some (ID3_Tag.AttachFrame (ID3_Tag.RemoveFound t TRACKNUM)
          { id := TRACKNUM, textenc := some ISO8859_1,
            text := some { enc := ISO8859_1,
                           data := decimal n.natAbs ++ [47] ++ decimal total.natAbs } })) := by
    unfold setTrackNum
    have h0 : (0 : Int) ≤ n := by omega
    have h1 : n ≠ 0 := by omega
    simp only [h0, if_true, ne_eq, h1, not_false_eq_true, htotal, number_pos n hn,
      number_pos total htotal, Option.getD_some, defaultReplace]
    apply setTextField_write
    · intro h
      have := congrArg List.length h
      simp at this
    · exact fillFrame_latin1 buggy TRACKNUM _ defaultAllowUnicode (by decide)
        (track_text_latin1 n.natAbs total.natAbs)
  have hfilter := removeFound_eq_filter TRACKNUM t hcount
  have hread : getTextField buggy (setTrackNum buggy (some t) n total).2 TRACKNUM
      = some (decimal n.natAbs ++ [47] ++ decimal total.natAbs) := by
    rw [hset]
    exact getTextField_attach_latin1 buggy _ TRACKNUM _ (find_removeFound_none TRACKNUM t hcount)
  have hval : ((digitsValue (decimal n.natAbs) : Nat) : Int) = n := by
    rw [digitsValue_decimal]; omega
  have hnum : getTrackNum buggy (setTrackNum buggy (some t) n total).2 = n := by
    have := getTrackNum_numerator buggy (setTrackNum buggy (some t) n total).2
      (decimal n.natAbs) (decimal total.natAbs) (decimal_ne_nil _) (decimal_digits _)
      (by rw [hval]; exact hmax) (by rw [hread]; simp)
    rw [this, hval]
  refine ⟨?_, hread, hnum, ?_,
    fun cursor => removeFoundFrom_eq_filter TRACKNUM t cursor hcount⟩
  · rw [hset, ← hfilter]
    rfl
  · intro f hf
    simp only [Mp3File.setTrackNumV2, Mp3File.getTrackNumV2, Mp3File.updateV2, hf]
    exact ⟨hnum, by rw [hset]; rfl⟩

theorem track_split_join_witness :
    (0 : Int) < 5 ∧ (5 : Int) ≤ INT_MAX ∧ (0 : Int) < 12 ∧
    [latin1Frame TITLE "a", latin1Frame TRACKNUM "7"].countP (fun f => f.id == TRACKNUM) ≤ 1 ∧
    getTextField true
      (setTrackNum true (some [latin1Frame TITLE "a", latin1Frame TRACKNUM "7"]) 5 12).2
      TRACKNUM = some (decimal 5 ++ [47] ++ decimal 12) ∧
    getTrackNum true
      (setTrackNum true (some [latin1Frame TITLE "a", latin1Frame TRACKNUM "7"]) 5 12).2 = 5 ∧
    decimal 5 ++ [47] ++ decimal 12 = units "5/12" :=
  ⟨by decide, by decide, by decide, by decide,
   (track_split_join true [latin1Frame TITLE "a", latin1Frame TRACKNUM "7"] 5 12
      (by decide) (by decide) (by decide) (by decide)).2.1,
   (track_split_join true [latin1Frame TITLE "a", latin1Frame TRACKNUM "7"] 5 12
      (by decide) (by decide) (by decide) (by decide)).2.2.1,
   by decide⟩

/-- C6, as stated, fails when the number in front of the `'/'` is no `int`: for
the track text "2147483648/12" the conversion `toInt` fails and `getTrackNum`
returns 0. -/
theorem numerator_beyond_int_reads_zero :
    getTextField true (some [latin1Frame TRACKNUM "2147483648/12"]) TRACKNUM
      = some (decimal 2147483648 ++ [47] ++ units "12") ∧
    getTrackNum true (some [latin1Frame TRACKNUM "2147483648/12"]) = 0 ∧
    getTrackNum true (some [latin1Frame TRACKNUM "2147483648/12"]) ≠ 2147483648 := by
  decide

/-- C6 (amended). For every present tag whose track field holds a text made of
the decimal of a number `N` that is an `int` (`N <= INT_MAX`), then `'/'`, then
any suffix, `getTrackNum` returns `N`: the text is cut at its first `'/'` before
the conversion, so the suffix never influences the result. -/
theorem only_numerator_is_read (buggy : Bool) (t : ID3_Tag) (N : Nat) (suffix : List Nat)
    (hN : (N : Int) ≤ INT_MAX)
    (htext : getTextField buggy (some t) TRACKNUM = some (decimal N ++ [47] ++ suffix)) :
    getTrackNum buggy (some t) = (N : Int) ∧
    QString.find (getTextField buggy (some t) TRACKNUM) 47 0 = ((decimal N).length : Int) := by
  have h := getTrackNum_numerator buggy (some t) (decimal N) suffix (decimal_ne_nil N)
    (decimal_digits N) (by rw [digitsValue_decimal]; exact hN) (by rw [htext]; simp)
  rw [digitsValue_decimal] at h
  refine ⟨h, ?_⟩
  have hnot : (47 : Nat) ∉ decimal N := by
    intro hmem
    have := digit_bounds 47 (decimal_digits N 47 hmem)
    omega
  rw [htext]
  unfold QString.find
  simp only [List.drop_zero, List.append_assoc, List.singleton_append,
    List.indexOf_append_of_not_mem hnot, List.indexOf_cons_self, List.length_append,
    List.length_cons]
  rw [if_pos (by omega)]
  simp

theorem only_numerator_is_read_witness :
    ((5 : Nat) : Int) ≤ INT_MAX ∧
    getTextField true (some [latin1Frame TRACKNUM "5/12 of many"]) TRACKNUM
      = some (decimal 5 ++ [47] ++ units "12 of many") ∧
    getTrackNum true (some [latin1Frame TRACKNUM "5/12 of many"]) = ((5 : Nat) : Int) :=
  ⟨by decide, by decide,
   (only_numerator_is_read true [latin1Frame TRACKNUM "5/12 of many"] 5 (units "12 of many")
     (by decide) (by decide)).1⟩

/-! ## Encoding upgrade -/

theorem needsUnicode_of_wide (text : List Nat) (hc : ∃ c ∈ text, 0xff < c) :
    needsUnicode (some text) = true := by
  obtain ⟨c, hmem, hgt⟩ := hc
  unfold needsUnicode
  simp only [Option.getD_some, List.any_eq_true, beq_iff_eq]
  exact ⟨c, hmem, by simp [QChar.latin1, hgt]⟩

/-- C7. When the block of `setTextField` that fills the new frame runs with
allowUnicode enabled on a frame whose text field is ISO-8859-1 and the text has
a code unit above 0xff, the text-encoding field of the frame (when the frame has
one) and the encoding of the text field are UTF-16 afterwards, and the text was
written by `setString` into the field already switched to UTF-16.  For a call
`setTextField(tag, id, text, true, true, removeEmpty)` on a text frame id the
frame attached to the tag is this UTF-16 frame. -/
theorem encoding_upgrade (buggy : Bool) (text : List Nat) (hc : ∃ c ∈ text, 0xff < c) :
    (∀ (frame : ID3_Frame) (fld : ID3_Field), frame.text = some fld → fld.enc = ISO8859_1 →
      ∃ fr, fillFrame buggy frame (some text) true = some fr ∧
        fr.textenc = frame.textenc.map (fun _ => UTF16) ∧
        fr.text = some (setString buggy (fld.SetEncoding UTF16) (some text)) ∧
        fr.text.map (fun x => x.enc) = some UTF16 ∧
        fr.text.map (fun x => x.data)
          = some ((text.map (setUnit buggy) ++ [0]).takeWhile (fun c => c != 0))) ∧
    (∀ (t : ID3_Tag) (id : ID3_FrameID) (removeEmpty : Bool), id ≠ PICTURE →
      setTextField buggy (some t) id (some text) true true removeEmpty
        = (true, some (t.eraseP (fun f => f.id == id) ++
            [{ id := id, textenc := some UTF16,
               text := some { enc := UTF16,
                              data := (text.map (setUnit buggy) ++ [0]).takeWhile
                                (fun c => c != 0) } }]))) := by
  have hn := needsUnicode_of_wide text hc
  have hblock : ∀ (frame : ID3_Frame) (fld : ID3_Field), frame.text = some fld →
      fld.enc = ISO8859_1 →
      fillFrame buggy frame (some text) true
        = some { frame with
            textenc := frame.textenc.map (fun _ => UTF16)
            text := some { enc := UTF16,
                           data := (text.map (setUnit buggy) ++ [0]).takeWhile
                             (fun c => c != 0) } } := by
    intro frame fld hfld henc
    unfold fillFrame
    simp only [hfld, henc, hn, decide_True, Bool.and_self, if_true]
    simp [setString, ID3_Field.SetEncoding, ID3_Field.SetUnicode]
  have hne : text ≠ [] := by
    obtain ⟨c, hmem, _⟩ := hc
    exact List.ne_nil_of_mem hmem
  refine ⟨?_, ?_⟩
  · intro frame fld hfld henc
    refine ⟨_, hblock frame fld hfld henc, rfl, ?_, rfl, rfl⟩
    simp [setString, ID3_Field.SetEncoding, ID3_Field.SetUnicode]
  · intro t id removeEmpty hid
    have hfill := hblock (ID3_Frame.new id) { enc := ISO8859_1, data := [] }
      (by rw [new_text id hid]) rfl
    rw [setTextField_write buggy t id text true removeEmpty _ hne hfill, new_text id hid]
    rfl

theorem encoding_upgrade_witness :
    (∃ c ∈ [0x4e2d, 65], 0xff < c) ∧
    setTextField false (some [latin1Frame TITLE "old"]) TITLE (some [0x4e2d, 65]) true true true
      = (true, some [{ id := TITLE, textenc := some UTF16,
                       text := some { enc := UTF16, data := [0x4e2d, 65] } }]) :=
  ⟨by decide,
   ((encoding_upgrade false [0x4e2d, 65] (by decide)).2 [latin1Frame TITLE "old"] TITLE true
     (by decide)).trans (by decide)⟩

/-! ## Genre -/

theorem toInt_digits_overflow (ds : List Nat) (hne : ds ≠ []) (hd : ∀ c ∈ ds, isDigit c = true)
    (hmax : INT_MAX < (digitsValue ds : Int)) :
    QString.toInt (some ds) = (0, false) := by
  cases ds with
  | nil => exact absurd rfl hne
  | cons d r =>
    have hd1 := digit_bounds d (hd d (List.mem_cons_self d r))
    have hsp : isSpace d = false := by
      simp [isSpace]; omega
    have hdw : (d :: r).dropWhile isSpace = d :: r := by
      simp [List.dropWhile_cons, hsp]
    have hss : splitSign (d :: r) = (false, d :: r) := by
      unfold splitSign
      split
      · rename_i heq; simp at heq; omega
      · rename_i heq; simp at heq; omega
      · rfl
    unfold QString.toInt
    simp only [hdw, hss, takeWhile_eq_self_of_all (d :: r) hd,
      dropWhile_eq_nil_of_all (d :: r) hd]
    simp [hmax]

theorem getGenreNum_parenthesised (buggy : Bool) (tag : Option ID3_Tag) (ds rest : List Nat)
    (hne : ds ≠ []) (hd : ∀ c ∈ ds, isDigit c = true)
    (htext : getTextField buggy tag CONTENTTYPE = some (40 :: ds ++ 41 :: rest)) :
    getGenreNum buggy tag = if digitsValue ds ≤ 254 then (digitsValue ds : Int) else 0xff := by
  cases ds with
  | nil => exact absurd rfl hne
  | cons d r =>
    have hnot : (41 : Nat) ∉ r := by
      intro hmem
      have := digit_bounds 41 (hd 41 (List.mem_cons_of_mem d hmem))
      omega
    have hfind : QString.find (some (40 :: (d :: r) ++ 41 :: rest)) 41 2
        = ((2 + r.length : Nat) : Int) := by
      unfold QString.find
      simp only [List.cons_append, List.drop_succ_cons, List.drop_zero,
        List.indexOf_append_of_not_mem hnot, List.indexOf_cons_self, List.length_append,
        List.length_cons]
      rw [if_pos (by omega)]
      rfl
    have hmid : QString.mid (some (40 :: (d :: r) ++ 41 :: rest)) 1 (1 + r.length)
        = some (d :: r) := by
      unfold QString.mid
      simp only [List.cons_append, List.isEmpty_cons, Bool.false_or, decide_eq_true_eq]
      rw [if_neg (by simp)]
      simp only [List.drop_succ_cons, List.drop_zero]
      have : (d :: (r ++ 41 :: rest)) = (d :: r) ++ 41 :: rest := rfl
      rw [this, List.take_left' (by simp; omega)]
    have hpos : (((2 + r.length : Nat) : Int) - 1).toNat = 1 + r.length := by omega
    unfold getGenreNum
    simp only [htext, QString.isNull, Option.isNone_some, Bool.false_eq_true, if_false,
      QString.isEmpty, List.cons_append, List.isEmpty_cons, Option.getD_some, List.head?_cons,
      true_and]
    have hfind2 : QString.find (some (40 :: d :: (r ++ 41 :: rest))) 41 2
        = ((2 + r.length : Nat) : Int) := hfind
    have hmid2 : QString.mid (some (40 :: d :: (r ++ 41 :: rest))) 1 (1 + r.length)
        = some (d :: r) := hmid
    rw [hfind2, if_pos (by omega), hpos, hmid2]
    by_cases hmax : (digitsValue (d :: r) : Int) ≤ INT_MAX
    · rw [toInt_digits (d :: r) hne hd hmax]
      by_cases h254 : digitsValue (d :: r) ≤ 254
      · simp only [Bool.not_true, Bool.false_eq_true, false_or, h254, if_true]
        rw [if_neg (by omega)]
      · simp only [Bool.not_true, Bool.false_eq_true, false_or, h254, if_false]
        by_cases h255 : digitsValue (d :: r) = 255
        · rw [if_neg (by omega), h255]; rfl
        · rw [if_pos (by omega)]
    · rw [toInt_digits_overflow (d :: r) hne hd (not_le.mp hmax)]
      have h254 : ¬ digitsValue (d :: r) ≤ 254 := by
        unfold INT_MAX at hmax; omega
      simp [h254]

theorem getGenreNum_free_text (buggy : Bool) (tag : Option ID3_Tag) (text : List Nat)
    (hhead : text.head? ≠ some 40)
    (htext : getTextField buggy tag CONTENTTYPE = some text) :
    getGenreNum buggy tag = 0xff := by
  unfold getGenreNum
  simp only [htext, QString.isNull, Option.isNone_some, Bool.false_eq_true, if_false,
    QString.isEmpty, Option.getD_some, hhead, false_and]
  split <;> rfl

/-- C8. What `getGenreV2` does for a present ID3v2 tag, for every genre name
table `getName`.  When the stored genre text begins with `'('`, the decimal of a
number `n <= 254` and `')'`, the result is `getName n`.  When the text does not
begin with `'('`, or begins with a parenthesised number above 254, the result
is the stored text.  For the stored text "(-5)" the number read is -5 and the
result is `getName (-5)`, not the stored text. -/
theorem genre_read (getName : Int → QString) (buggy : Bool) :
    (∀ (f : Mp3File) (n : Nat) (rest : List Nat), n ≤ 254 →
      getTextField buggy f.tagV2 CONTENTTYPE = some (40 :: decimal n ++ 41 :: rest) →
      f.getGenreV2 getName buggy = getName (n : Int)) ∧
    (∀ (f : Mp3File) (text : List Nat), text.head? ≠ some 40 →
      getTextField buggy f.tagV2 CONTENTTYPE = some text →
      f.getGenreV2 getName buggy = some text) ∧
    (∀ (f : Mp3File) (n : Nat) (rest : List Nat), 254 < n →
      getTextField buggy f.tagV2 CONTENTTYPE = some (40 :: decimal n ++ 41 :: rest) →
      f.getGenreV2 getName buggy = some (40 :: decimal n ++ 41 :: rest)) ∧
    (getTextField buggy (some [latin1Frame CONTENTTYPE "(-5)"]) CONTENTTYPE = qstr "(-5)" ∧
      getGenreNum buggy (some [latin1Frame CONTENTTYPE "(-5)"]) = -5 ∧
      (Mp3File.ofTags none (some [latin1Frame CONTENTTYPE "(-5)"])).getGenreV2 getName buggy
        = getName (-5)) := by
  refine ⟨?_, ?_, ?_, ?_⟩
  · intro f n rest hn htext
    have h := getGenreNum_parenthesised buggy f.tagV2 (decimal n) rest (decimal_ne_nil n)
      (decimal_digits n) htext
    rw [digitsValue_decimal, if_pos hn] at h
    unfold Mp3File.getGenreV2 Mp3File.getGenreNumV2
    simp only [h]
    rw [if_pos (by omega)]
  · intro f text hhead htext
    have h := getGenreNum_free_text buggy f.tagV2 text hhead htext
    unfold Mp3File.getGenreV2 Mp3File.getGenreNumV2
    simp only [h, htext]
    simp
  · intro f n rest hn htext
    have h := getGenreNum_parenthesised buggy f.tagV2 (decimal n) rest (decimal_ne_nil n)
      (decimal_digits n) htext
    rw [digitsValue_decimal, if_neg (by omega)] at h
    unfold Mp3File.getGenreV2 Mp3File.getGenreNumV2
    simp only [h, htext]
    simp
  · have h1 : getGenreNum buggy (some [latin1Frame CONTENTTYPE "(-5)"]) = -5 := by
      cases buggy <;> decide
    refine ⟨by cases buggy <;> decide, h1, ?_⟩
    unfold Mp3File.getGenreV2 Mp3File.getGenreNumV2
    simp only [Mp3File.ofTags, h1]
    rw [if_pos (by omega)]

theorem genre_read_witness :
    (17 : Nat) ≤ 254 ∧
    getTextField true (Mp3File.ofTags none (some [latin1Frame CONTENTTYPE "(17)Rock"])).tagV2
      CONTENTTYPE = some (40 :: decimal 17 ++ 41 :: units "Rock") ∧
    (Mp3File.ofTags none (some [latin1Frame CONTENTTYPE "(17)Rock"])).getGenreV2
      (fun n => some (decimal n.natAbs)) true = some (decimal 17) :=
  ⟨by decide, by decide,
   (genre_read (fun n => some (decimal n.natAbs)) true).1
     (Mp3File.ofTags none (some [latin1Frame CONTENTTYPE "(17)Rock"])) 17 (units "Rock")
     (by decide) (by decide)⟩

/-! ## Null strings and TagLibFile -/

theorem makeTagV1Settable_of_some (m : Bool) (f : TagLibFile) (h : f.m_tagV1.isSome = true) :
    f.makeTagV1Settable m = f := by
  unfold TagLibFile.makeTagV1Settable
  cases hv : f.m_tagV1 with
  | none => rw [hv] at h; exact absurd h (by decide)
  | some t => simp

theorem makeTagV2Settable_of_some (f : TagLibFile) (h : f.m_tagV2.isSome = true) :
    f.makeTagV2Settable = f := by
  unfold TagLibFile.makeTagV2Settable
  cases hv : f.m_tagV2 with
  | none => rw [hv] at h; exact absurd h (by decide)
  | some t => simp

theorem setStringV1_null (m : Bool) (f : TagLibFile) (get : TagLibTag → TString)
    (set : TagLibTag → TString → TagLibTag) :
    f.setStringV1 m none get set = f.makeTagV1Settable m := by
  unfold TagLibFile.setStringV1
  simp only [QString.isNull, Option.isNone_none, Bool.not_true, Bool.false_eq_true, if_false]
  split <;> rfl

theorem setStringV2_null (f : TagLibFile) (always : Bool) (get : TagLibTag → TString)
    (set : TagLibTag → TString → TagLibTag) :
    f.setStringV2 none always get set = f.makeTagV2Settable := by
  unfold TagLibFile.setStringV2
  simp only [QString.isNull, Option.isNone_none, Bool.not_true, Bool.false_eq_true, if_false]
  split <;> rfl

theorem setGenreV2_null (f : TagLibFile) : f.setGenreV2 none = f.makeTagV2Settable := by
  unfold TagLibFile.setGenreV2
  simp only [QString.isNull, Option.isNone_none, Bool.not_true, Bool.false_eq_true, if_false]
  split <;> rfl

/-- C9. What the string setters of `TagLibFile` do with the null string.  When
the tag they write to is present, the file object is unchanged, so every getter
and both change flags keep their values.  When it is absent, the setter still
calls `makeTagV1Settable` (`makeTagV2Settable`) first: for an MPEG file without
an ID3v1 tag `getTitleV1()` returns the null string before `setTitleV1` is
called with the null string and the empty string afterwards, and likewise
`getTitleV2()` around `setTitleV2`; the change flags keep their values. -/
theorem null_string_setter (m : Bool) (getNumber : QString → Int) :
    (∀ f : TagLibFile, f.m_tagV1.isSome = true →
      f.setTitleV1 m none = f ∧ f.setArtistV1 m none = f ∧
      f.setAlbumV1 m none = f ∧ f.setCommentV1 m none = f) ∧
    (∀ f : TagLibFile, f.m_tagV2.isSome = true →
      f.setTitleV2 none = f ∧ f.setArtistV2 none = f ∧ f.setAlbumV2 none = f ∧
      f.setCommentV2 none = f ∧ f.setGenreV2 none = f) ∧
    ((TagLibFile.ofTags TagLibFileType.MPEG none none).getTitleV1 = none ∧
      ((TagLibFile.ofTags TagLibFileType.MPEG none none).setTitleV1 m none).getTitleV1
        = some [] ∧
      (TagLibFile.ofTags TagLibFileType.MPEG none none).getTitleV2 = none ∧
      ((TagLibFile.ofTags TagLibFileType.MPEG none none).setTitleV2 none).getTitleV2
        = some [] ∧
      ((TagLibFile.ofTags TagLibFileType.MPEG none none).setTitleV1 m none).view getNumber
        ≠ (TagLibFile.ofTags TagLibFileType.MPEG none none).view getNumber ∧
      ((TagLibFile.ofTags TagLibFileType.MPEG none none).setTitleV1 m none).changedV1 = false ∧
      ((TagLibFile.ofTags TagLibFileType.MPEG none none).setTitleV1 m none).changedV2
        = false) := by
  refine ⟨?_, ?_, ?_⟩
  · intro f h
    simp only [TagLibFile.setTitleV1, TagLibFile.setArtistV1, TagLibFile.setAlbumV1,
      TagLibFile.setCommentV1, setStringV1_null, makeTagV1Settable_of_some m f h, and_self]
  · intro f h
    simp only [TagLibFile.setTitleV2, TagLibFile.setArtistV2, TagLibFile.setAlbumV2,
      TagLibFile.setCommentV2, setStringV2_null, setGenreV2_null,
      makeTagV2Settable_of_some f h, and_self]
  · have h1 : ((TagLibFile.ofTags TagLibFileType.MPEG none none).setTitleV1 m none).getTitleV1
        = some [] := by
      cases m <;> decide
    refine ⟨rfl, h1, rfl, by decide, ?_, by cases m <;> decide, by cases m <;> decide⟩
    intro hview
    have := congrArg TagLibView.titleV1 hview
    simp only [TagLibFile.view] at this
    rw [h1] at this
    exact absurd this (by decide)

theorem null_string_setter_witness :
    (TagLibFile.ofTags TagLibFileType.MPEG (some (TagLibTag.created TagLibTagType.ID3v1)) none).m_tagV1.isSome
      = true ∧
    (TagLibFile.ofTags TagLibFileType.MPEG (some (TagLibTag.created TagLibTagType.ID3v1)) none).setTitleV1
      false none
      = TagLibFile.ofTags TagLibFileType.MPEG (some (TagLibTag.created TagLibTagType.ID3v1)) none :=
  ⟨rfl, ((null_string_setter false (fun _ => 0)).1
    (TagLibFile.ofTags TagLibFileType.MPEG (some (TagLibTag.created TagLibTagType.ID3v1)) none) rfl).1⟩

/-! ## Filter independence -/

theorem find_filter (t : ID3_Tag) (id : ID3_FrameID) :
    ID3_Tag.Find (t.filter (fun f => f.id == id)) id = ID3_Tag.Find t id := by
  unfold ID3_Tag.Find
  induction t with
  | nil => rfl
  | cons a l ih =>
    by_cases ha : (a.id == id) = true
    · simp [List.filter_cons, ha]
    · simp only [List.filter_cons, ha, Bool.false_eq_true, if_false, List.find?_cons]
      simpa [ha] using ih

theorem getTextField_of_frames (buggy : Bool) (tag tag1 : Option ID3_Tag) (id : ID3_FrameID)
    (h : framesWithId id tag1 = framesWithId id tag) :
    getTextField buggy tag1 id = getTextField buggy tag id := by
  cases tag with
  | none =>
    cases tag1 with
    | none => rfl
    | some t1 => simp [framesWithId] at h
  | some t =>
    cases tag1 with
    | none => simp [framesWithId] at h
    | some t1 =>
      have hf : t1.filter (fun f => f.id == id) = t.filter (fun f => f.id == id) := by
        simpa [framesWithId] using h
      have hfind : ID3_Tag.Find t1 id = ID3_Tag.Find t id := by
        rw [← find_filter t1 id, ← find_filter t id, hf]
      simp only [getTextField, hfind]

theorem filter_removeFound_ne (t : ID3_Tag) (id id1 : ID3_FrameID) (hne : id1 ≠ id) :
    (ID3_Tag.RemoveFound t id1).filter (fun f => f.id == id)
      = t.filter (fun f => f.id == id) := by
  unfold ID3_Tag.RemoveFound
  induction t with
  | nil => rfl
  | cons a l ih =>
    by_cases ha : (a.id == id1) = true
    · have ha1 : a.id = id1 := by simpa using ha
      have ha2 : (a.id == id) = false := by
        simp only [beq_eq_false_iff_ne, ne_eq]
        rw [ha1]; exact hne
      simp [List.eraseP_cons, ha, List.filter_cons, ha2]
    · simp only [List.eraseP_cons, ha, Bool.false_eq_true, cond_false, List.filter_cons, ih]

theorem fillFrame_id (buggy : Bool) (frame fr : ID3_Frame) (text : QString) (a : Bool)
    (h : fillFrame buggy frame text a = some fr) : fr.id = frame.id := by
  unfold fillFrame at h
  cases hft : frame.text with
  | none => simp [hft] at h
  | some fld =>
    simp only [hft] at h
    split at h
    · simp only [Option.some.injEq] at h
      rw [← h]
    · simp only [Option.some.injEq] at h
      rw [← h]

theorem new_id (id : ID3_FrameID) : (ID3_Frame.new id).id = id := by
  cases id <;> rfl

theorem framesWithId_setTextField (buggy : Bool) (tag : Option ID3_Tag) (id id1 : ID3_FrameID)
    (text : QString) (a r e : Bool) (hne : id1 ≠ id) :
    framesWithId id (setTextField buggy tag id1 text a r e).2 = framesWithId id tag := by
  cases tag with
  | none => rfl
  | some t =>
    have hrem := filter_removeFound_ne t id id1 hne
    have hsel : (if (r || (e && text.isEmpty)) = true then ID3_Tag.RemoveFound t id1 else t).filter
        (fun f => f.id == id) = t.filter (fun f => f.id == id) := by
      split
      · exact hrem
      · rfl
    unfold setTextField
    simp only
    by_cases hnull : text.isNull = true
    · simp only [hnull, if_true]
    · simp only [hnull, Bool.false_eq_true, if_false]
      generalize (if (r || (e && text.isEmpty)) = true then ID3_Tag.RemoveFound t id1 else t)
        = t1 at hsel ⊢
      by_cases hcond : (!(e && text.isEmpty) && (r || (ID3_Tag.Find t1 id1).isNone)) = true
      · simp only [hcond, if_true]
        cases hfill : fillFrame buggy (ID3_Frame.new id1) text a with
        | none =>
          simp only [framesWithId, Option.map_some', hsel]
        | some fr =>
          have hid : fr.id = id1 := by
            rw [fillFrame_id buggy _ fr text a hfill, new_id]
          have hfr : (fr.id == id) = false := by
            simp only [beq_eq_false_iff_ne, ne_eq]
            rw [hid]; exact hne
          simp only [framesWithId, Option.map_some', ID3_Tag.AttachFrame, List.filter_append,
            hsel, List.filter_cons, hfr, Bool.false_eq_true, if_false, List.filter_nil,
            List.append_nil]
      · simp only [hcond, Bool.false_eq_true, if_false, framesWithId, Option.map_some', hsel]

theorem framesWithId_setYear (buggy : Bool) (tag : Option ID3_Tag) (id : ID3_FrameID)
    (num : Int) (hne : YEAR ≠ id) :
    framesWithId id (setYear buggy tag num).2 = framesWithId id tag := by
  unfold setYear
  split
  · exact framesWithId_setTextField buggy tag id YEAR _ _ _ _ hne
  · rfl

theorem framesWithId_setTrackNum (buggy : Bool) (tag : Option ID3_Tag) (id : ID3_FrameID)
    (num numTracks : Int) (hne : TRACKNUM ≠ id) :
    framesWithId id (setTrackNum buggy tag num numTracks).2 = framesWithId id tag := by
  unfold setTrackNum
  split
  · exact framesWithId_setTextField buggy tag id TRACKNUM _ _ _ _ hne
  · rfl

theorem framesWithId_setGenreNum (buggy : Bool) (tag : Option ID3_Tag) (id : ID3_FrameID)
    (num : Int) (hne : CONTENTTYPE ≠ id) :
    framesWithId id (setGenreNum buggy tag num).2 = framesWithId id tag := by
  unfold setGenreNum
  split
  · exact framesWithId_setTextField buggy tag id CONTENTTYPE _ _ _ _ hne
  · rfl

theorem comment_frames_setStandardTagsV1 (buggy : Bool) (f : Mp3File) (st : StandardTags)
    (flt : StandardTagsFilter) (hflt : flt.m_enableComment = false) :
    framesWithId COMMENT (f.setStandardTagsV1 buggy st flt).tagV1
      = framesWithId COMMENT f.tagV1 := by
  have hT : ∀ (g : Mp3File) (s : QString),
      framesWithId COMMENT (g.setTitleV1 buggy s).tagV1 = framesWithId COMMENT g.tagV1 :=
    fun g s => framesWithId_setTextField buggy g.tagV1 COMMENT TITLE s _ _ _ (by decide)
  have hA : ∀ (g : Mp3File) (s : QString),
      framesWithId COMMENT (g.setArtistV1 buggy s).tagV1 = framesWithId COMMENT g.tagV1 :=
    fun g s => framesWithId_setTextField buggy g.tagV1 COMMENT LEADARTIST s _ _ _ (by decide)
  have hL : ∀ (g : Mp3File) (s : QString),
      framesWithId COMMENT (g.setAlbumV1 buggy s).tagV1 = framesWithId COMMENT g.tagV1 :=
    fun g s => framesWithId_setTextField buggy g.tagV1 COMMENT ALBUM s _ _ _ (by decide)
  have hY : ∀ (g : Mp3File) (n : Int),
      framesWithId COMMENT (g.setYearV1 buggy n).tagV1 = framesWithId COMMENT g.tagV1 :=
    fun g n => framesWithId_setYear buggy g.tagV1 COMMENT n (by decide)
  have hK : ∀ (g : Mp3File) (n : Int),
      framesWithId COMMENT (g.setTrackNumV1 buggy n).tagV1 = framesWithId COMMENT g.tagV1 :=
    fun g n => framesWithId_setTrackNum buggy g.tagV1 COMMENT n _ (by decide)
  have hG : ∀ (g : Mp3File) (n : Int),
      framesWithId COMMENT (g.setGenreNumV1 buggy n).tagV1 = framesWithId COMMENT g.tagV1 :=
    fun g n => framesWithId_setGenreNum buggy g.tagV1 COMMENT n (by decide)
  unfold Mp3File.setStandardTagsV1
  simp only [hflt, Bool.false_eq_true, if_false]
  cases flt.m_enableTitle <;> cases flt.m_enableArtist <;> cases flt.m_enableAlbum <;>
    cases flt.m_enableYear <;> cases flt.m_enableTrack <;> cases flt.m_enableGenre <;>
    simp only [Bool.false_eq_true, if_false, if_true, hT, hA, hL, hY, hK, hG]

theorem getCommentV1_of_comment (f g : TagLibFile)
    (h : g.m_tagV1.map (fun t => t.comment) = f.m_tagV1.map (fun t => t.comment)) :
    g.getCommentV1 = f.getCommentV1 := by
  unfold TagLibFile.getCommentV1 getTagString
  cases hf : f.m_tagV1 <;> cases hg : g.m_tagV1 <;> simp_all

theorem setStringV1_keeps_comment (m : Bool) (g : TagLibFile) (str : QString)
    (get : TagLibTag → TString) (set : TagLibTag → TString → TagLibTag)
    (hset : ∀ t s, (set t s).comment = t.comment) (hg : g.m_tagV1.isSome = true) :
    (g.setStringV1 m str get set).m_tagV1.isSome = true ∧
    (g.setStringV1 m str get set).m_tagV1.map (fun t => t.comment)
      = g.m_tagV1.map (fun t => t.comment) := by
  unfold TagLibFile.setStringV1
  rw [makeTagV1Settable_of_some m g hg]
  cases hv : g.m_tagV1 with
  | none => rw [hv] at hg; exact absurd hg (by decide)
  | some tag =>
    simp only [hv]
    split_ifs <;> simp [hv, hset]

theorem setNumV1_keeps_comment (m : Bool) (g : TagLibFile) (num : Int)
    (get : TagLibTag → Nat) (set : TagLibTag → Nat → TagLibTag)
    (hset : ∀ t n, (set t n).comment = t.comment) (hg : g.m_tagV1.isSome = true) :
    (g.setNumV1 m num get set).m_tagV1.isSome = true ∧
    (g.setNumV1 m num get set).m_tagV1.map (fun t => t.comment)
      = g.m_tagV1.map (fun t => t.comment) := by
  unfold TagLibFile.setNumV1
  rw [makeTagV1Settable_of_some m g hg]
  cases hv : g.m_tagV1 with
  | none => rw [hv] at hg; exact absurd hg (by decide)
  | some tag =>
    simp only [hv]
    split_ifs <;> simp [hv, hset]

theorem setGenreNumV1_keeps_comment (getName : Int → QString) (m : Bool) (g : TagLibFile)
    (num : Int) (hg : g.m_tagV1.isSome = true) :
    (g.setGenreNumV1 getName m num).m_tagV1.isSome = true ∧
    (g.setGenreNumV1 getName m num).m_tagV1.map (fun t => t.comment)
      = g.m_tagV1.map (fun t => t.comment) := by
  unfold TagLibFile.setGenreNumV1
  rw [makeTagV1Settable_of_some m g hg]
  cases hv : g.m_tagV1 with
  | none => rw [hv] at hg; exact absurd hg (by decide)
  | some tag =>
    simp only [hv]
    split_ifs <;> simp [hv]

theorem comment_setStandardTagsV1_taglib (getName : Int → QString) (m : Bool) (f : TagLibFile)
    (st : StandardTags) (flt : StandardTagsFilter) (hflt : flt.m_enableComment = false)
    (hf : f.m_tagV1.isSome = true) :
    (f.setStandardTagsV1 getName m st flt).m_tagV1.map (fun t => t.comment)
      = f.m_tagV1.map (fun t => t.comment) := by
  have step : ∀ (g : TagLibFile) (b : Bool) (op : TagLibFile → TagLibFile),
      (∀ h : TagLibFile, h.m_tagV1.isSome = true → (op h).m_tagV1.isSome = true ∧
        (op h).m_tagV1.map (fun t => t.comment) = h.m_tagV1.map (fun t => t.comment)) →
      (g.m_tagV1.isSome = true ∧
        g.m_tagV1.map (fun t => t.comment) = f.m_tagV1.map (fun t => t.comment)) →
      ((if b = true then op g else g).m_tagV1.isSome = true ∧
        (if b = true then op g else g).m_tagV1.map (fun t => t.comment)
          = f.m_tagV1.map (fun t => t.comment)) := by
    intro g b op hop hg
    cases b
    · simpa using hg
    · simp only [if_true]
      exact ⟨(hop g hg.1).1, (hop g hg.1).2.trans hg.2⟩
  have h1 := step f flt.m_enableTitle (fun h => h.setTitleV1 m st.title)
    (fun h hh => setStringV1_keeps_comment m h _ _ _ (fun _ _ => rfl) hh) ⟨hf, rfl⟩
  have h2 := step _ flt.m_enableArtist (fun h => h.setArtistV1 m st.artist)
    (fun h hh => setStringV1_keeps_comment m h _ _ _ (fun _ _ => rfl) hh) h1
  have h3 := step _ flt.m_enableAlbum (fun h => h.setAlbumV1 m st.album)
    (fun h hh => setStringV1_keeps_comment m h _ _ _ (fun _ _ => rfl) hh) h2
  have h5 := step _ flt.m_enableYear (fun h => h.setYearV1 m st.year)
    (fun h hh => setNumV1_keeps_comment m h _ _ _ (fun _ _ => rfl) hh) h3
  have h6 := step _ flt.m_enableTrack (fun h => h.setTrackNumV1 m st.track)
    (fun h hh => setNumV1_keeps_comment m h _ _ _ (fun _ _ => rfl) hh) h5
  have h7 := step _ flt.m_enableGenre (fun h => h.setGenreNumV1 getName m st.genre)
    (fun h hh => setGenreNumV1_keeps_comment getName m h _ hh) h6
  unfold TagLibFile.setStandardTagsV1
  simp only [hflt, Bool.false_eq_true, if_false]
  exact h7.2

/-- C10. Filter independence: with a filter that excludes the comment field,
`setStandardTagsV1` leaves the comment frames of tag 1 of an `Mp3File` exactly as
they were, so `getCommentV1()` returns the same value, whatever the passed tags
carry; the same holds for each file `pasteTagsV1` writes the pasted and
formatted tags to, and for the comment of a `TagLibFile` whose tag 1 exists. -/
theorem filter_independence (buggy : Bool) (flt : StandardTagsFilter)
    (hflt : flt.m_enableComment = false) :
    (∀ (f : Mp3File) (st : StandardTags),
      framesWithId COMMENT (f.setStandardTagsV1 buggy st flt).tagV1
        = framesWithId COMMENT f.tagV1 ∧
      (f.setStandardTagsV1 buggy st flt).getCommentV1 buggy = f.getCommentV1 buggy) ∧
    (∀ (m_copyTags : StandardTags) (format : StandardTags → StandardTags)
        (files : List (Mp3File × Bool)),
      (pasteTagsV1 buggy m_copyTags format flt files).map (fun x => x.1.getCommentV1 buggy)
        = files.map (fun x => x.1.getCommentV1 buggy)) ∧
    (∀ (getName : Int → QString) (m : Bool) (f : TagLibFile) (st : StandardTags),
      f.m_tagV1.isSome = true →
      (f.setStandardTagsV1 getName m st flt).getCommentV1 = f.getCommentV1) := by
  have hmp3 : ∀ (f : Mp3File) (st : StandardTags),
      (f.setStandardTagsV1 buggy st flt).getCommentV1 buggy = f.getCommentV1 buggy :=
    fun f st => getTextField_of_frames buggy _ _ COMMENT
      (comment_frames_setStandardTagsV1 buggy f st flt hflt)
  refine ⟨fun f st => ⟨comment_frames_setStandardTagsV1 buggy f st flt hflt, hmp3 f st⟩, ?_, ?_⟩
  · intro m_copyTags format files
    unfold pasteTagsV1
    rw [List.map_map]
    apply List.map_congr_left
    intro x _
    simp only [Function.comp]
    split
    · exact hmp3 x.1 _
    · rfl
  · intro getName m f st hf
    exact getCommentV1_of_comment f _
      (comment_setStandardTagsV1_taglib getName m f st flt hflt hf)

theorem filter_independence_witness :
    ({ m_enableTitle := true, m_enableArtist := true, m_enableAlbum := true,
       m_enableComment := false, m_enableYear := true, m_enableTrack := true,
       m_enableGenre := true } : StandardTagsFilter).m_enableComment = false ∧
    (Mp3File.getCommentV1 true
      (Mp3File.setStandardTagsV1 true
        (Mp3File.ofTags (some [latin1Frame TITLE "old", latin1Frame COMMENT "keep"]) none)
        { title := qstr "new", artist := qstr "x", album := qstr "", comment := qstr "other",
          year := 2005, track := 3, genre := 17, genreStr := none }
        { m_enableTitle := true, m_enableArtist := true, m_enableAlbum := true,
          m_enableComment := false, m_enableYear := true, m_enableTrack := true,
          m_enableGenre := true })
      = Mp3File.getCommentV1 true
        (Mp3File.ofTags (some [latin1Frame TITLE "old", latin1Frame COMMENT "keep"]) none)) ∧
    Mp3File.getCommentV1 true
      (Mp3File.ofTags (some [latin1Frame TITLE "old", latin1Frame COMMENT "keep"]) none)
      = qstr "keep" :=
  ⟨rfl,
   ((filter_independence true
      { m_enableTitle := true, m_enableArtist := true, m_enableAlbum := true,
        m_enableComment := false, m_enableYear := true, m_enableTrack := true,
        m_enableGenre := true } rfl).1
      (Mp3File.ofTags (some [latin1Frame TITLE "old", latin1Frame COMMENT "keep"]) none)
      { title := qstr "new", artist := qstr "x", album := qstr "", comment := qstr "other",
        year := 2005, track := 3, genre := 17, genreStr := none }).2,
   by decide⟩

/-! ## Aggregation over the selected files -/

theorem foldl_clear_closed {β : Type} [DecidableEq β] (c : β) (xs : List β) :
    ∀ x : β, xs.foldl (fun a v => if a ≠ v then c else a) x
      = if ∀ v ∈ xs, v = x then x else c := by
  induction xs with
  | nil => intro x; simp
  | cons v xs ih =>
    intro x
    simp only [List.foldl_cons, List.mem_cons, forall_eq_or_imp]
    by_cases hxv : x = v
    · subst hxv
      simp only [ne_eq, not_true_eq_false, if_false, true_and]
      exact ih x
    · rw [if_pos hxv, ih c]
      have : ¬ (v = x) := fun h => hxv h.symm
      simp only [this, false_and, if_false]
      split <;> rfl

theorem foldl_field {α β : Type} [DecidableEq β] (step : α → α → α) (g : α → β) (c : β)
    (hstep : ∀ a b, g (step a b) = if g a ≠ g b then c else g a) (xs : List α) :
    ∀ x : α, g (xs.foldl step x) = if ∀ v ∈ xs, g v = g x then g x else c := by
  have hfold : ∀ (ys : List α) (x : α),
      g (ys.foldl step x) = (ys.map g).foldl (fun a v => if a ≠ v then c else a) (g x) := by
    intro ys
    induction ys with
    | nil => intro x; rfl
    | cons v ys ih =>
      intro x
      simp only [List.foldl_cons, List.map_cons]
      rw [ih (step x v), hstep]
  intro x
  rw [hfold xs x, foldl_clear_closed c (xs.map g) (g x)]
  simp only [List.mem_map, forall_exists_index, and_imp, forall_apply_eq_imp_iff₂]

theorem closed_form_perm {α β : Type} [DecidableEq β] (g : α → β) (c : β) (x y : α)
    (xs ys : List α) (h : (x :: xs).Perm (y :: ys)) :
    (if ∀ v ∈ xs, g v = g x then g x else c) = (if ∀ v ∈ ys, g v = g y then g y else c) := by
  have key : ∀ (x y : α) (xs ys : List α), (x :: xs).Perm (y :: ys) →
      (∀ v ∈ xs, g v = g x) → (∀ v ∈ ys, g v = g y) ∧ g y = g x := by
    intro x y xs ys h hall
    have hmem : ∀ a, a ∈ y :: ys → g a = g x := by
      intro a ha
      have ha1 : a ∈ x :: xs := h.symm.subset ha
      rcases List.mem_cons.mp ha1 with rfl | ha2
      · rfl
      · exact hall a ha2
    have hy : g y = g x := hmem y (List.mem_cons_self y ys)
    exact ⟨fun v hv => (hmem v (List.mem_cons_of_mem y hv)).trans hy.symm, hy⟩
  by_cases hx : ∀ v ∈ xs, g v = g x
  · obtain ⟨hy, hyx⟩ := key x y xs ys h hx
    rw [if_pos hx, if_pos hy, hyx]
  · have hy : ¬ ∀ v ∈ ys, g v = g y := fun hy => hx (key y x ys xs h.symm hy).1
    rw [if_neg hx, if_neg hy]

theorem updateGuiControlsLoop_counting (xs : List StandardTags) :
    ∀ (a : StandardTags) (n : Nat), n ≠ 0 →
      (xs.foldl (fun (state : StandardTags × Nat) ft =>
        (if state.2 = 0 then ft else state.1.filterDifferent ft, state.2 + 1)) (a, n)).1
      = xs.foldl StandardTags.filterDifferent a := by
  induction xs with
  | nil => intro a n _; rfl
  | cons v xs ih =>
    intro a n hn
    simp only [List.foldl_cons, hn, if_false]
    exact ih _ (n + 1) (by omega)

theorem aggregateTags_cons (x : StandardTags) (xs : List StandardTags) (init : StandardTags) :
    aggregateTags (x :: xs) init = xs.foldl StandardTags.filterDifferent x := by
  unfold aggregateTags updateGuiControlsLoop
  simp only [List.foldl_cons, if_true]
  exact updateGuiControlsLoop_counting xs x 1 (by omega)

theorem StandardTags.eq_of_fields (a b : StandardTags) (h1 : a.title = b.title)
    (h2 : a.artist = b.artist) (h3 : a.album = b.album) (h4 : a.comment = b.comment)
    (h5 : a.year = b.year) (h6 : a.track = b.track) (h7 : a.genre = b.genre)
    (h8 : a.genreStr = b.genreStr) : a = b := by
  cases a
  cases b
  simp_all

/-- C11. Aggregation symmetry: for every non-empty list of per-file standard
tags, the aggregate that `updateGuiControls` computes (the first file's tags,
then `filterDifferent` with each further file's tags in turn) is the same for
every permutation of the list; each field of it is the common value when all
files agree on the field and the cleared value otherwise. -/
theorem aggregation_symmetry (l l1 : List StandardTags) (init : StandardTags)
    (hne : l ≠ []) (hperm : l.Perm l1) :
    aggregateTags l init = aggregateTags l1 init := by
  cases l with
  | nil => exact absurd rfl hne
  | cons x xs =>
    cases l1 with
    | nil => exact absurd hperm.length_eq (by simp)
    | cons y ys =>
      rw [aggregateTags_cons, aggregateTags_cons]
      apply StandardTags.eq_of_fields
      · rw [foldl_field _ (fun s => s.title) none (fun _ _ => rfl) xs x,
          foldl_field _ (fun s => s.title) none (fun _ _ => rfl) ys y]
        exact closed_form_perm (fun s => s.title) none x y xs ys hperm
      · rw [foldl_field _ (fun s => s.artist) none (fun _ _ => rfl) xs x,
          foldl_field _ (fun s => s.artist) none (fun _ _ => rfl) ys y]
        exact closed_form_perm (fun s => s.artist) none x y xs ys hperm
      · rw [foldl_field _ (fun s => s.album) none (fun _ _ => rfl) xs x,
          foldl_field _ (fun s => s.album) none (fun _ _ => rfl) ys y]
        exact closed_form_perm (fun s => s.album) none x y xs ys hperm
      · rw [foldl_field _ (fun s => s.comment) none (fun _ _ => rfl) xs x,
          foldl_field _ (fun s => s.comment) none (fun _ _ => rfl) ys y]
        exact closed_form_perm (fun s => s.comment) none x y xs ys hperm
      · rw [foldl_field _ (fun s => s.year) (-1) (fun _ _ => rfl) xs x,
          foldl_field _ (fun s => s.year) (-1) (fun _ _ => rfl) ys y]
        exact closed_form_perm (fun s => s.year) (-1) x y xs ys hperm
      · rw [foldl_field _ (fun s => s.track) (-1) (fun _ _ => rfl) xs x,
          foldl_field _ (fun s => s.track) (-1) (fun _ _ => rfl) ys y]
        exact closed_form_perm (fun s => s.track) (-1) x y xs ys hperm
      · rw [foldl_field _ (fun s => s.genre) (-1) (fun _ _ => rfl) xs x,
          foldl_field _ (fun s => s.genre) (-1) (fun _ _ => rfl) ys y]
        exact closed_form_perm (fun s => s.genre) (-1) x y xs ys hperm
      · rw [foldl_field _ (fun s => s.genreStr) none (fun _ _ => rfl) xs x,
          foldl_field _ (fun s => s.genreStr) none (fun _ _ => rfl) ys y]
        exact closed_form_perm (fun s => s.genreStr) none x y xs ys hperm

theorem aggregation_symmetry_witness :
    [exampleTags "One" "Muse" 2003, exampleTags "Two" "Muse" 2003,
      exampleTags "Three" "Muse" 2006] ≠ [] ∧
    aggregateTags [exampleTags "One" "Muse" 2003, exampleTags "Two" "Muse" 2003,
      exampleTags "Three" "Muse" 2006] (exampleTags "" "" 0)
      = aggregateTags [exampleTags "Three" "Muse" 2006, exampleTags "One" "Muse" 2003,
        exampleTags "Two" "Muse" 2003] (exampleTags "" "" 0) ∧
    aggregateTags [exampleTags "One" "Muse" 2003, exampleTags "Two" "Muse" 2003,
      exampleTags "Three" "Muse" 2006] (exampleTags "" "" 0)
      = { title := none, artist := qstr "Muse", album := some [], comment := some [],
          year := -1, track := -1, genre := -1, genreStr := none } :=
  ⟨by decide,
   aggregation_symmetry _ _ (exampleTags "" "" 0) (by decide)
     (@List.perm_append_comm _ [exampleTags "One" "Muse" 2003, exampleTags "Two" "Muse" 2003]
       [exampleTags "Three" "Muse" 2006]),
   by decide⟩

/-! ## Pasting the copy buffer -/

/-- C12. `Kid3App::pasteTags` overwrites only fields that are set in the copy
buffer: a destination string field keeps its value when the buffer's string is
null and takes the buffer's value otherwise; year and track keep their value
when the buffer's number is negative and take the buffer's value otherwise;
genre and genre text keep their values when the buffer's genre is negative and
both take the buffer's values otherwise. -/
theorem paste_overwrites_only_set_fields (m_copyTags st : StandardTags) :
    (pasteTags m_copyTags st).title
      = (if m_copyTags.title.isNull then st.title else m_copyTags.title) ∧
    (pasteTags m_copyTags st).artist
      = (if m_copyTags.artist.isNull then st.artist else m_copyTags.artist) ∧
    (pasteTags m_copyTags st).album
      = (if m_copyTags.album.isNull then st.album else m_copyTags.album) ∧
    (pasteTags m_copyTags st).comment
      = (if m_copyTags.comment.isNull then st.comment else m_copyTags.comment) ∧
    (pasteTags m_copyTags st).year
      = (if m_copyTags.year < 0 then st.year else m_copyTags.year) ∧
    (pasteTags m_copyTags st).track
      = (if m_copyTags.track < 0 then st.track else m_copyTags.track) ∧
    (pasteTags m_copyTags st).genre
      = (if m_copyTags.genre < 0 then st.genre else m_copyTags.genre) ∧
    (pasteTags m_copyTags st).genreStr
      = (if m_copyTags.genre < 0 then st.genreStr else m_copyTags.genreStr) := by
  unfold pasteTags
  cases h1 : m_copyTags.title.isNull <;> cases h2 : m_copyTags.artist.isNull <;>
    cases h3 : m_copyTags.album.isNull <;> cases h4 : m_copyTags.comment.isNull <;>
    by_cases h5 : m_copyTags.year < 0 <;> by_cases h6 : m_copyTags.track < 0 <;>
    by_cases h7 : m_copyTags.genre < 0 <;>
    simp [h5, h6, h7, not_le.mpr, not_lt.mp]

/-! ## Saving the directory -/

theorem appendName_getD (e n : QString) :
    ((e.append n).appendChar 10).getD [] = e.getD [] ++ (n.getD [] ++ [10]) := by
  cases e <;> cases n <;> simp [QString.append, QString.appendChar]

theorem saveDirectoryLoop_spec {F : Type} (writeTags : F → Bool × F)
    (getFilename : F → QString) (files : List F) :
    ∀ e : QString,
      (saveDirectoryLoop writeTags getFilename files e).2.2 = files ∧
      (saveDirectoryLoop writeTags getFilename files e).2.1
        = files.map (fun f => (writeTags f).2) ∧
      (saveDirectoryLoop writeTags getFilename files e).1.getD []
        = e.getD [] ++ (((files.map writeTags).filter (fun r => !r.1)).map
            (fun r => (getFilename r.2).getD [] ++ [10])).flatten ∧
      ((∀ f ∈ files, (writeTags f).1 = true) →
        (saveDirectoryLoop writeTags getFilename files e).1 = e) := by
  induction files with
  | nil => intro e; simp [saveDirectoryLoop]
  | cons f rest ih =>
    intro e
    simp only [saveDirectoryLoop, List.map_cons]
    cases hr : (writeTags f).1
    · obtain ⟨h1, h2, h3, _⟩ := ih ((e.append (getFilename (writeTags f).2)).appendChar 10)
      refine ⟨?_, ?_, ?_, ?_⟩
      · simp [h1]
      · simp [h2]
      · simp only [Bool.not_false, if_true, h3, appendName_getD, hr, List.filter_cons,
          List.map_cons, List.flatten_cons, List.append_assoc]
      · intro hall
        have := hall f (List.mem_cons_self f rest)
        rw [hr] at this
        exact absurd this (by decide)
    · obtain ⟨h1, h2, h3, h4⟩ := ih e
      refine ⟨?_, ?_, ?_, ?_⟩
      · simp [h1]
      · simp [h2]
      · simp only [Bool.not_true, Bool.false_eq_true, if_false, h3, hr, List.filter_cons]
      · intro hall
        simp only [Bool.not_true, Bool.false_eq_true, if_false]
        exact h4 (fun g hg => hall g (List.mem_cons_of_mem f hg))

/-- C14. Batch save continues past failures: `saveDirectory` calls `writeTags`
exactly once on every file of the list, in list order, whatever the earlier
calls returned; the error text is the concatenation, in list order, of the file
name followed by a newline for exactly the files whose `writeTags` returned
false (and stays the null string when none did); and the result is true. -/
theorem save_continues_past_failures {F : Type} (writeTags : F → Bool × F)
    (getFilename : F → QString) (files : List F) :
    (saveDirectory writeTags getFilename files).result = true ∧
    (saveDirectory writeTags getFilename files).calls = files ∧
    (saveDirectory writeTags getFilename files).files = files.map (fun f => (writeTags f).2) ∧
    (saveDirectory writeTags getFilename files).errorFiles.getD []
      = (((files.map writeTags).filter (fun r => !r.1)).map
          (fun r => (getFilename r.2).getD [] ++ [10])).flatten ∧
    ((∀ f ∈ files, (writeTags f).1 = true) →
      (saveDirectory writeTags getFilename files).errorFiles = none) := by
  obtain ⟨h1, h2, h3, h4⟩ := saveDirectoryLoop_spec writeTags getFilename files none
  refine ⟨rfl, h1, h2, ?_, h4⟩
  simp only [saveDirectory, h3, Option.getD_none, List.nil_append]

theorem save_continues_past_failures_witness :
    (∀ f ∈ [(qstr "a.mp3", true), (qstr "c.mp3", true)],
      ((fun (x : QString × Bool) => (x.2, x)) f).1 = true) ∧
    (saveDirectory (fun (x : QString × Bool) => (x.2, x)) (fun x => x.1)
      [(qstr "a.mp3", true), (qstr "c.mp3", true)]).errorFiles = none ∧
    (saveDirectory (fun (x : QString × Bool) => (x.2, x)) (fun x => x.1)
      [(qstr "a.mp3", true), (qstr "b.mp3", false), (qstr "c.mp3", true),
        (qstr "d.mp3", false)]).errorFiles = qstr "b.mp3\nd.mp3\n" ∧
    (saveDirectory (fun (x : QString × Bool) => (x.2, x)) (fun x => x.1)
      [(qstr "a.mp3", true), (qstr "b.mp3", false), (qstr "c.mp3", true),
        (qstr "d.mp3", false)]).calls
      = [(qstr "a.mp3", true), (qstr "b.mp3", false), (qstr "c.mp3", true),
        (qstr "d.mp3", false)] :=
  ⟨by decide,
   (save_continues_past_failures (fun (x : QString × Bool) => (x.2, x)) (fun x => x.1)
     [(qstr "a.mp3", true), (qstr "c.mp3", true)]).2.2.2.2 (by decide),
   by decide,
   (save_continues_past_failures (fun (x : QString × Bool) => (x.2, x)) (fun x => x.1)
     [(qstr "a.mp3", true), (qstr "b.mp3", false), (qstr "c.mp3", true),
       (qstr "d.mp3", false)]).2.1⟩

/-! ## Whole-tag removal -/

theorem foldl_erase_self {α : Type} [DecidableEq α] (l : List α) :
    l.foldl (fun t a => t.erase a) l = [] := by
  induction l with
  | nil => rfl
  | cons a l ih =>
    simp only [List.foldl_cons, List.erase_cons_head]
    exact ih

theorem removeEveryFrame_eq_nil (tag : ID3_Tag) : removeEveryFrame tag = [] :=
  foldl_erase_self tag

theorem foldl_removeFrame_inv (P : TagLibTag → Prop) (x : TagLibFrameRef)
    (hpres : ∀ (u : TagLibTag) (fr : TagLibFrameRef), P u → P (u.removeFrame fr))
    (hset : ∀ u : TagLibTag, P (u.removeFrame x)) (l : List TagLibFrameRef) :
    ∀ u : TagLibTag, (x ∈ l ∨ P u) → P (l.foldl TagLibTag.removeFrame u) := by
  induction l with
  | nil =>
    intro u h
    rcases h with h | h
    · exact absurd h (List.not_mem_nil x)
    · exact h
  | cons a l ih =>
    intro u h
    simp only [List.foldl_cons]
    apply ih
    rcases h with h | h
    · rcases List.mem_cons.mp h with rfl | h1
      · exact Or.inr (hset u)
      · exact Or.inl h1
    · exact Or.inr (hpres u a h)

theorem foldl_removeFrame_others (items : List TagLibItem) :
    ∀ u : TagLibTag,
      ((items.map TagLibFrameRef.other).foldl TagLibTag.removeFrame u).others
        = items.foldl (fun o i => o.erase i) u.others := by
  induction items with
  | nil => intro u; rfl
  | cons i items ih =>
    intro u
    simp only [List.map_cons, List.foldl_cons]
    rw [ih]
    rfl

theorem foldl_removeFrame_std_others (l : List TagLibFrameRef)
    (hl : ∀ fr ∈ l, ∀ i, fr ≠ TagLibFrameRef.other i) :
    ∀ u : TagLibTag, (l.foldl TagLibTag.removeFrame u).others = u.others := by
  induction l with
  | nil => intro u; rfl
  | cons a l ih =>
    intro u
    simp only [List.foldl_cons]
    rw [ih (fun fr hfr => hl fr (List.mem_cons_of_mem a hfr))]
    have ha := hl a (List.mem_cons_self a l)
    cases a <;> first | rfl | exact absurd rfl (ha _)

theorem removeEveryFrame_others (t : TagLibTag) : t.removeEveryFrame.others = [] := by
  unfold TagLibTag.removeEveryFrame TagLibTag.frameList
  rw [List.foldl_append, foldl_removeFrame_others, foldl_removeFrame_std_others]
  · exact foldl_erase_self t.others
  · intro fr hfr i
    simp only [List.mem_append] at hfr
    rcases hfr with (((((hfr | hfr) | hfr) | hfr) | hfr) | hfr) | hfr <;>
      (split at hfr <;> simp at hfr; subst hfr; simp)

theorem removeEveryFrame_frameList (t : TagLibTag) : t.removeEveryFrame.frameList = [] := by
  have h1 : (t.removeEveryFrame.title.getD []).isEmpty = true := by
    apply foldl_removeFrame_inv (fun u => (u.title.getD []).isEmpty = true) TagLibFrameRef.title
    · intro u fr hu; cases fr <;> first | exact hu | rfl
    · intro u; rfl
    · by_cases h : (t.title.getD []).isEmpty = true
      · exact Or.inr h
      · left; simp [TagLibTag.frameList, h]
  have h2 : (t.removeEveryFrame.artist.getD []).isEmpty = true := by
    apply foldl_removeFrame_inv (fun u => (u.artist.getD []).isEmpty = true)
      TagLibFrameRef.artist
    · intro u fr hu; cases fr <;> first | exact hu | rfl
    · intro u; rfl
    · by_cases h : (t.artist.getD []).isEmpty = true
      · exact Or.inr h
      · left; simp [TagLibTag.frameList, h]
  have h3 : (t.removeEveryFrame.album.getD []).isEmpty = true := by
    apply foldl_removeFrame_inv (fun u => (u.album.getD []).isEmpty = true) TagLibFrameRef.album
    · intro u fr hu; cases fr <;> first | exact hu | rfl
    · intro u; rfl
    · by_cases h : (t.album.getD []).isEmpty = true
      · exact Or.inr h
      · left; simp [TagLibTag.frameList, h]
  have h4 : (t.removeEveryFrame.comment.getD []).isEmpty = true := by
    apply foldl_removeFrame_inv (fun u => (u.comment.getD []).isEmpty = true)
      TagLibFrameRef.comment
    · intro u fr hu; cases fr <;> first | exact hu | rfl
    · intro u; rfl
    · by_cases h : (t.comment.getD []).isEmpty = true
      · exact Or.inr h
      · left; simp [TagLibTag.frameList, h]
  have h5 : (t.removeEveryFrame.genre.getD []).isEmpty = true := by
    apply foldl_removeFrame_inv (fun u => (u.genre.getD []).isEmpty = true) TagLibFrameRef.genre
    · intro u fr hu; cases fr <;> first | exact hu | rfl
    · intro u; rfl
    · by_cases h : (t.genre.getD []).isEmpty = true
      · exact Or.inr h
      · left; simp [TagLibTag.frameList, h]
  have h6 : t.removeEveryFrame.year = 0 := by
    apply foldl_removeFrame_inv (fun u => u.year = 0) TagLibFrameRef.year
    · intro u fr hu; cases fr <;> first | exact hu | rfl
    · intro u; rfl
    · by_cases h : t.year = 0
      · exact Or.inr h
      · left; simp [TagLibTag.frameList, h]
  have h7 : t.removeEveryFrame.track = 0 := by
    apply foldl_removeFrame_inv (fun u => u.track = 0) TagLibFrameRef.track
    · intro u fr hu; cases fr <;> first | exact hu | rfl
    · intro u; rfl
    · by_cases h : t.track = 0
      · exact Or.inr h
      · left; simp [TagLibTag.frameList, h]
  have h8 := removeEveryFrame_others t
  simp [TagLibTag.frameList, h1, h2, h3, h4, h5, h6, h7, h8]

theorem foldl_removeFrame_type (l : List TagLibFrameRef) :
    ∀ u : TagLibTag, (l.foldl TagLibTag.removeFrame u).type = u.type := by
  induction l with
  | nil => intro u; rfl
  | cons a l ih =>
    intro u
    simp only [List.foldl_cons]
    rw [ih]
    cases a <;> rfl

/-- C13, counterexample. A Musepack file whose second tag is the combined tag of
the file (neither an ID3v2 tag, a Xiph comment nor an APE tag) and holds one
item beside the standard fields: `TagLibFile::removeTagsV2` with the all-true
filter leaves the item in the tag and does not mark the tag changed. -/
theorem all_true_filter_keeps_item :
    (TagLibFile.removeTagsV2 TagLibFile.removeStandardTagsV2
        (TagLibFile.ofTags TagLibFileType.MPC none
          (some { TagLibTag.created TagLibTagType.OTHER with
                  others := [{ key := units "REPLAYGAIN", value := units "1" }] }))
        StandardTagsFilter.allTrue)
      = TagLibFile.ofTags TagLibFileType.MPC none
          (some { TagLibTag.created TagLibTagType.OTHER with
                  others := [{ key := units "REPLAYGAIN", value := units "1" }] }) ∧
    ((TagLibFile.removeTagsV2 TagLibFile.removeStandardTagsV2
        (TagLibFile.ofTags TagLibFileType.MPC none
          (some { TagLibTag.created TagLibTagType.OTHER with
                  others := [{ key := units "REPLAYGAIN", value := units "1" }] }))
        StandardTagsFilter.allTrue).m_tagV2.map TagLibTag.frameList)
      = some [TagLibFrameRef.other { key := units "REPLAYGAIN", value := units "1" }] ∧
    (TagLibFile.removeTagsV2 TagLibFile.removeStandardTagsV2
        (TagLibFile.ofTags TagLibFileType.MPC none
          (some { TagLibTag.created TagLibTagType.OTHER with
                  others := [{ key := units "REPLAYGAIN", value := units "1" }] }))
        StandardTagsFilter.allTrue).changedV2 = false := by
  decide

/-- C13, amended. For a present tag and the all-true filter, `Mp3File::removeTagsV1`
and `Mp3File::removeTagsV2` leave the tag with zero frames and mark it changed,
and so does `TagLibFile::removeTagsV2` when the second tag is an ID3v2 tag, a
Xiph comment or an APE tag; for a second tag of another type
`TagLibFile::removeTagsV2` only calls `removeStandardTagsV2` with the filter.
With any other filter the three functions only call `removeStandardTagsV1/V2`
with that filter. -/
theorem whole_tag_removal (rs1 rs2 : Mp3File → StandardTagsFilter → Mp3File)
    (rsT : TagLibFile → StandardTagsFilter → TagLibFile) (f : Mp3File) (g : TagLibFile)
    (tag1 tag2 : ID3_Tag) (tagT : TagLibTag) (flt : StandardTagsFilter)
    (h1 : f.tagV1 = some tag1) (h2 : f.tagV2 = some tag2) (hT : g.m_tagV2 = some tagT) :
    (flt.areAllTrue = true →
      Mp3File.removeTagsV1 rs1 f flt = { f with tagV1 := some [], changedV1 := true } ∧
      Mp3File.removeTagsV2 rs2 f flt = { f with tagV2 := some [], changedV2 := true } ∧
      (tagT.type = TagLibTagType.ID3v2 ∨ tagT.type = TagLibTagType.XiphComment ∨
          tagT.type = TagLibTagType.APE →
        TagLibFile.removeTagsV2 rsT g flt
          = { g with m_tagV2 := some tagT.removeEveryFrame, changedV2 := true } ∧
        tagT.removeEveryFrame.frameList = [] ∧
        tagT.removeEveryFrame.isEmpty = true ∧
        tagT.removeEveryFrame.type = tagT.type) ∧
      (tagT.type = TagLibTagType.ID3v1 ∨ tagT.type = TagLibTagType.OTHER →
        TagLibFile.removeTagsV2 rsT g flt = rsT g flt)) ∧
    (flt.areAllTrue = false →
      Mp3File.removeTagsV1 rs1 f flt = rs1 f flt ∧
      Mp3File.removeTagsV2 rs2 f flt = rs2 f flt ∧
      TagLibFile.removeTagsV2 rsT g flt = rsT g flt) := by
  have htype : tagT.removeEveryFrame.type = tagT.type :=
    foldl_removeFrame_type tagT.frameList tagT
  have hfl := removeEveryFrame_frameList tagT
  have hemp : tagT.removeEveryFrame.isEmpty = true := by
    unfold TagLibTag.isEmpty
    simp only [TagLibTag.frameList] at hfl
    simp only [List.append_eq_nil, List.map_eq_nil_iff] at hfl
    obtain ⟨⟨⟨⟨⟨⟨⟨a1, a2⟩, a3⟩, a4⟩, a5⟩, a6⟩, a7⟩, a8⟩ := hfl
    have b1 : (tagT.removeEveryFrame.title.getD []).isEmpty = true := by
      by_contra hc; simp [hc] at a1
    have b2 : (tagT.removeEveryFrame.artist.getD []).isEmpty = true := by
      by_contra hc; simp [hc] at a2
    have b3 : (tagT.removeEveryFrame.album.getD []).isEmpty = true := by
      by_contra hc; simp [hc] at a3
    have b4 : (tagT.removeEveryFrame.comment.getD []).isEmpty = true := by
      by_contra hc; simp [hc] at a4
    have b5 : (tagT.removeEveryFrame.genre.getD []).isEmpty = true := by
      by_contra hc; simp [hc] at a5
    have b6 : tagT.removeEveryFrame.year = 0 := by
      by_contra hc; simp [hc] at a6
    have b7 : tagT.removeEveryFrame.track = 0 := by
      by_contra hc; simp [hc] at a7
    split <;> simp [TagLibTag.frameList, b1, b2, b3, b4, b5, b6, b7, a8]
  constructor
  · intro hall
    refine ⟨?_, ?_, ?_, ?_⟩
    · simp only [Mp3File.removeTagsV1, h1, hall, if_true, removeEveryFrame_eq_nil]
    · simp only [Mp3File.removeTagsV2, h2, hall, if_true, removeEveryFrame_eq_nil]
    · intro hty
      refine ⟨?_, hfl, hemp, htype⟩
      rcases hty with hty | hty | hty <;>
        simp only [TagLibFile.removeTagsV2, hT, hall, if_true, hty]
    · intro hty
      rcases hty with hty | hty <;>
        simp only [TagLibFile.removeTagsV2, hT, hall, if_true, hty]
  · intro hall
    refine ⟨?_, ?_, ?_⟩
    · simp [Mp3File.removeTagsV1, h1, hall]
    · simp [Mp3File.removeTagsV2, h2, hall]
    · simp [TagLibFile.removeTagsV2, hT, hall]

theorem whole_tag_removal_witness :
    StandardTagsFilter.allTrue.areAllTrue = true ∧
    Mp3File.removeTagsV1 (fun f _ => f)
        (Mp3File.ofTags (some [latin1Frame TITLE "T", latin1Frame COMMENT "c"])
          (some [latin1Frame TITLE "T", ID3_Frame.new PICTURE, ID3_Frame.new PICTURE]))
        StandardTagsFilter.allTrue
      = { Mp3File.ofTags (some [latin1Frame TITLE "T", latin1Frame COMMENT "c"])
            (some [latin1Frame TITLE "T", ID3_Frame.new PICTURE, ID3_Frame.new PICTURE]) with
          tagV1 := some [], changedV1 := true } ∧
    Mp3File.removeTagsV2 (fun f _ => f)
        (Mp3File.ofTags (some [latin1Frame TITLE "T", latin1Frame COMMENT "c"])
          (some [latin1Frame TITLE "T", ID3_Frame.new PICTURE, ID3_Frame.new PICTURE]))
        StandardTagsFilter.allTrue
      = { Mp3File.ofTags (some [latin1Frame TITLE "T", latin1Frame COMMENT "c"])
            (some [latin1Frame TITLE "T", ID3_Frame.new PICTURE, ID3_Frame.new PICTURE]) with
          tagV2 := some [], changedV2 := true } ∧
    ({ TagLibTag.created TagLibTagType.ID3v2 with
        title := some (units "T"), year := 2001,
        others := [{ key := units "TXXX", value := units "x" }] } : TagLibTag).removeEveryFrame.frameList
      = [] :=
  ⟨by decide,
   ((whole_tag_removal (fun f _ => f) (fun f _ => f) TagLibFile.removeStandardTagsV2
      (Mp3File.ofTags (some [latin1Frame TITLE "T", latin1Frame COMMENT "c"])
        (some [latin1Frame TITLE "T", ID3_Frame.new PICTURE, ID3_Frame.new PICTURE]))
      (TagLibFile.ofTags TagLibFileType.MPEG none
        (some { TagLibTag.created TagLibTagType.ID3v2 with
                title := some (units "T"), year := 2001,
                others := [{ key := units "TXXX", value := units "x" }] }))
      [latin1Frame TITLE "T", latin1Frame COMMENT "c"]
      [latin1Frame TITLE "T", ID3_Frame.new PICTURE, ID3_Frame.new PICTURE]
      { TagLibTag.created TagLibTagType.ID3v2 with
        title := some (units "T"), year := 2001,
        others := [{ key := units "TXXX", value := units "x" }] }
      StandardTagsFilter.allTrue rfl rfl rfl).1 (by decide)).1,
   ((whole_tag_removal (fun f _ => f) (fun f _ => f) TagLibFile.removeStandardTagsV2
      (Mp3File.ofTags (some [latin1Frame TITLE "T", latin1Frame COMMENT "c"])
        (some [latin1Frame TITLE "T", ID3_Frame.new PICTURE, ID3_Frame.new PICTURE]))
      (TagLibFile.ofTags TagLibFileType.MPEG none
        (some { TagLibTag.created TagLibTagType.ID3v2 with
                title := some (units "T"), year := 2001,
                others := [{ key := units "TXXX", value := units "x" }] }))
      [latin1Frame TITLE "T", latin1Frame COMMENT "c"]
      [latin1Frame TITLE "T", ID3_Frame.new PICTURE, ID3_Frame.new PICTURE]
      { TagLibTag.created TagLibTagType.ID3v2 with
        title := some (units "T"), year := 2001,
        others := [{ key := units "TXXX", value := units "x" }] }
      StandardTagsFilter.allTrue rfl rfl rfl).1 (by decide)).2.1,
   (((whole_tag_removal (fun f _ => f) (fun f _ => f) TagLibFile.removeStandardTagsV2
      (Mp3File.ofTags (some [latin1Frame TITLE "T", latin1Frame COMMENT "c"])
        (some [latin1Frame TITLE "T", ID3_Frame.new PICTURE, ID3_Frame.new PICTURE]))
      (TagLibFile.ofTags TagLibFileType.MPEG none
        (some { TagLibTag.created TagLibTagType.ID3v2 with
                title := some (units "T"), year := 2001,
                others := [{ key := units "TXXX", value := units "x" }] }))
      [latin1Frame TITLE "T", latin1Frame COMMENT "c"]
      [latin1Frame TITLE "T", ID3_Frame.new PICTURE, ID3_Frame.new PICTURE]
      { TagLibTag.created TagLibTagType.ID3v2 with
        title := some (units "T"), year := 2001,
        others := [{ key := units "TXXX", value := units "x" }] }
      StandardTagsFilter.allTrue rfl rfl rfl).1 (by decide)).2.2.1 (Or.inl rfl)).2.1⟩

/-! ## Reading and writing tags -/

theorem mp3_stripTagV1_keeps (env : WriteEnv) (force : Bool) (s : Mp3File × Disk ID3_Tag) :
    (Mp3File.stripTagV1 env force s).1.filename = s.1.filename ∧
    (Mp3File.stripTagV1 env force s).1.new_filename = s.1.new_filename ∧
    (env.saveOk = false → (Mp3File.stripTagV1 env force s).2 = s.2) := by
  unfold Mp3File.stripTagV1
  split
  · split_ifs <;> simp_all
  · simp

theorem mp3_stripTagV2_keeps (env : WriteEnv) (force : Bool) (s : Mp3File × Disk ID3_Tag) :
    (Mp3File.stripTagV2 env force s).1.filename = s.1.filename ∧
    (Mp3File.stripTagV2 env force s).1.new_filename = s.1.new_filename ∧
    (env.saveOk = false → (Mp3File.stripTagV2 env force s).2 = s.2) := by
  unfold Mp3File.stripTagV2
  split
  · split_ifs <;> simp_all
  · simp

theorem mp3_writeTagV1_keeps (env : WriteEnv) (force : Bool) (s : Mp3File × Disk ID3_Tag) :
    (Mp3File.writeTagV1 env force s).1.filename = s.1.filename ∧
    (Mp3File.writeTagV1 env force s).1.new_filename = s.1.new_filename ∧
    (env.saveOk = false → (Mp3File.writeTagV1 env force s).2 = s.2) := by
  unfold Mp3File.writeTagV1
  split
  · split_ifs <;> simp_all
  · simp

theorem mp3_writeTagV2_keeps (env : WriteEnv) (force : Bool) (s : Mp3File × Disk ID3_Tag) :
    (Mp3File.writeTagV2 env force s).1.filename = s.1.filename ∧
    (Mp3File.writeTagV2 env force s).1.new_filename = s.1.new_filename ∧
    (env.saveOk = false → (Mp3File.writeTagV2 env force s).2 = s.2) := by
  unfold Mp3File.writeTagV2
  split
  · split_ifs <;> simp_all
  · simp

theorem mp3_saveTags_keeps (env : WriteEnv) (disk : Disk ID3_Tag) (force : Bool)
    (f : Mp3File) :
    (f.saveTags env disk force).1.filename = f.filename ∧
    (f.saveTags env disk force).1.new_filename = f.new_filename ∧
    (env.saveOk = false → (f.saveTags env disk force).2 = disk) := by
  unfold Mp3File.saveTags
  obtain ⟨a1, a2, a3⟩ := mp3_stripTagV1_keeps env force (f, disk)
  obtain ⟨b1, b2, b3⟩ := mp3_stripTagV2_keeps env force (Mp3File.stripTagV1 env force (f, disk))
  obtain ⟨c1, c2, c3⟩ := mp3_writeTagV1_keeps env force
    (Mp3File.stripTagV2 env force (Mp3File.stripTagV1 env force (f, disk)))
  obtain ⟨d1, d2, d3⟩ := mp3_writeTagV2_keeps env force (Mp3File.writeTagV1 env force
    (Mp3File.stripTagV2 env force (Mp3File.stripTagV1 env force (f, disk))))
  refine ⟨?_, ?_, ?_⟩
  · rw [d1, c1, b1, a1]
  · rw [d2, c2, b2, a2]
  · intro h
    rw [d3 h, c3 h, b3 h, a3 h]

theorem taglib_stripTagV1_keeps (env : WriteEnv) (force : Bool)
    (s : TagLibFile × Disk TagLibTag) :
    (TagLibFile.stripTagV1 env force s).1.filename = s.1.filename ∧
    (TagLibFile.stripTagV1 env force s).1.new_filename = s.1.new_filename ∧
    (env.saveOk = false → (TagLibFile.stripTagV1 env force s).2 = s.2) := by
  unfold TagLibFile.stripTagV1
  split
  · split_ifs <;> simp_all
  · simp

theorem taglib_stripTagV2_keeps (env : WriteEnv) (force : Bool)
    (s : TagLibFile × Disk TagLibTag) :
    (TagLibFile.stripTagV2 env force s).1.filename = s.1.filename ∧
    (TagLibFile.stripTagV2 env force s).1.new_filename = s.1.new_filename ∧
    (env.saveOk = false → (TagLibFile.stripTagV2 env force s).2 = s.2) := by
  unfold TagLibFile.stripTagV2
  split
  · split_ifs <;> simp_all
  · simp

theorem taglib_saveMasked_keeps (env : WriteEnv) (force : Bool)
    (s : TagLibFile × Disk TagLibTag) :
    (TagLibFile.saveMasked env force s).1.filename = s.1.filename ∧
    (TagLibFile.saveMasked env force s).1.new_filename = s.1.new_filename ∧
    (env.saveOk = false → (TagLibFile.saveMasked env force s) = s) := by
  unfold TagLibFile.saveMasked
  simp only
  split_ifs <;> simp_all

theorem taglib_saveWhole_keeps (MPC_ID3V1 : Bool) (env : WriteEnv) (force : Bool)
    (type : TagLibFileType) (s : TagLibFile × Disk TagLibTag) :
    (TagLibFile.saveWhole MPC_ID3V1 env force type s).1.filename = s.1.filename ∧
    (TagLibFile.saveWhole MPC_ID3V1 env force type s).1.new_filename = s.1.new_filename ∧
    (env.saveOk = false → (TagLibFile.saveWhole MPC_ID3V1 env force type s) = s) := by
  unfold TagLibFile.saveWhole
  split_ifs <;> simp_all

theorem taglib_saveTags_keeps (MPC_ID3V1 : Bool) (env : WriteEnv) (disk : Disk TagLibTag)
    (force : Bool) (f : TagLibFile) :
    (f.saveTags MPC_ID3V1 env disk force).1.filename = f.filename ∧
    (f.saveTags MPC_ID3V1 env disk force).1.new_filename = f.new_filename ∧
    (env.saveOk = false → (f.saveTags MPC_ID3V1 env disk force).2 = disk) := by
  unfold TagLibFile.saveTags
  split
  · simp
  · obtain ⟨a1, a2, a3⟩ := taglib_stripTagV1_keeps env force (f, disk)
    obtain ⟨b1, b2, b3⟩ :=
      taglib_stripTagV2_keeps env force (TagLibFile.stripTagV1 env force (f, disk))
    obtain ⟨c1, c2, c3⟩ := taglib_saveMasked_keeps env force
      (TagLibFile.stripTagV2 env force (TagLibFile.stripTagV1 env force (f, disk)))
    refine ⟨?_, ?_, ?_⟩
    · rw [c1, b1, a1]
    · rw [c2, b2, a2]
    · intro h
      rw [c3 h, b3 h, a3 h]
  · obtain ⟨a1, a2, a3⟩ := taglib_saveWhole_keeps MPC_ID3V1 env force ‹_› (f, disk)
    exact ⟨a1, a2, fun h => by rw [a3 h]⟩

theorem renameStep_same {F T : Type} (env : WriteEnv) (filename new_filename : QString)
    (renamed : Bool) (file : F) (disk : Disk T) (h : new_filename.ne filename = false) :
    renameStep env filename new_filename renamed file disk
      = { result := true, renamed := renamed, file := file, disk := disk } := by
  simp [renameStep, h]

theorem mp3_readTags_forced (diskV1 diskV2 : ID3_Tag) (f : Mp3File) :
    Mp3File.readTags diskV1 diskV2 true f
      = { f with tagV1 := some diskV1, tagV2 := some diskV2, changedV1 := false,
                 changedV2 := false, new_filename := f.filename } := by
  unfold Mp3File.readTags
  cases h1 : f.tagV1 <;> cases h2 : f.tagV2 <;> simp [h1, h2]

theorem taglib_adoptTags_flags (f : TagLibFile) (v1 v2 : Option TagLibTag)
    (h1 : f.changedV1 = false) (h2 : f.changedV2 = false) :
    (f.adoptTags v1 v2).changedV1 = false ∧ (f.adoptTags v1 v2).changedV2 = false ∧
    (f.adoptTags v1 v2).filename = f.filename := by
  unfold TagLibFile.adoptTags
  simp only
  split_ifs <;> simp_all

theorem taglib_adoptTag_flags (f : TagLibFile) (tag : Option TagLibTag)
    (h2 : f.changedV2 = false) :
    (f.adoptTag tag).changedV1 = false ∧ (f.adoptTag tag).changedV2 = false ∧
    (f.adoptTag tag).filename = f.filename := by
  unfold TagLibFile.adoptTag
  simp only
  split_ifs <;> simp_all

theorem taglib_readTags_forced (MPC_ID3V1 : Bool) (opened : Option TagLibFileType)
    (tags : TagLibFileTags) (f : TagLibFile) :
    (TagLibFile.readTags MPC_ID3V1 opened tags true f).changedV1 = false ∧
    (TagLibFile.readTags MPC_ID3V1 opened tags true f).changedV2 = false ∧
    (TagLibFile.readTags MPC_ID3V1 opened tags true f).new_filename
      = (TagLibFile.readTags MPC_ID3V1 opened tags true f).filename ∧
    (TagLibFile.readTags MPC_ID3V1 opened tags true f).filename = f.filename := by
  unfold TagLibFile.readTags
  simp only [Bool.true_or, if_true]
  cases opened with
  | none => simp
  | some type =>
    cases type
    · have h := taglib_adoptTags_flags
        { f with m_fileRef := some TagLibFileType.MPEG, m_tagV1 := none, m_tagV2 := none,
                 changedV1 := false, changedV2 := false, m_fileRead := true }
        tags.ID3v1Tag tags.ID3v2Tag rfl rfl
      exact ⟨h.1, h.2.1, trivial, h.2.2⟩
    · have h := taglib_adoptTags_flags
        { f with m_fileRef := some TagLibFileType.FLAC, m_tagV1 := none, m_tagV2 := none,
                 changedV1 := false, changedV2 := false, m_fileRead := true }
        tags.ID3v1Tag tags.xiphComment rfl rfl
      exact ⟨h.1, h.2.1, trivial, h.2.2⟩
    · cases MPC_ID3V1
      · have h := taglib_adoptTag_flags
          { f with m_fileRef := some TagLibFileType.MPC, m_tagV1 := none, m_tagV2 := none,
                   changedV1 := false, changedV2 := false, m_fileRead := true }
          tags.tag rfl
        exact ⟨h.1, h.2.1, trivial, h.2.2⟩
      · have h := taglib_adoptTags_flags
          { f with m_fileRef := some TagLibFileType.MPC, m_tagV1 := none, m_tagV2 := none,
                   changedV1 := false, changedV2 := false, m_fileRead := true }
          tags.ID3v1Tag tags.APETag rfl rfl
        exact ⟨h.1, h.2.1, trivial, h.2.2⟩
    · have h := taglib_adoptTag_flags
        { f with m_fileRef := some TagLibFileType.OTHER, m_tagV1 := none, m_tagV2 := none,
                 changedV1 := false, changedV2 := false, m_fileRead := true }
        tags.tag rfl
      exact ⟨h.1, h.2.1, trivial, h.2.2⟩

theorem slotFileRevert_mem {F : Type} (readTags : Bool → F → F) (P : F → Prop)
    (hP : ∀ f, P (readTags true f)) (numFilesSelected : Nat) (files : List (F × Bool))
    (x : F × Bool) (hx : x ∈ slotFileRevert readTags numFilesSelected files)
    (hsel : numFilesSelected = 0 ∨ x.2 = true) : P x.1 := by
  unfold slotFileRevert at hx
  simp only [List.mem_map] at hx
  obtain ⟨y, _, hy⟩ := hx
  by_cases hc : ((numFilesSelected == 0) || y.2) = true
  · rw [if_pos hc] at hy
    rw [← hy]
    exact hP y.1
  · rw [if_neg hc] at hy
    subst hy
    exfalso
    apply hc
    rcases hsel with h | h
    · simp [h]
    · simp [h]

/-- C15. What `writeTags` does when the tag library fails to write: for a writable
file that needs no renaming, `Mp3File::writeTags` and `TagLibFile::writeTags`
return true whatever the library calls report, and when they fail the tags on
disk are what they were before the call. -/
theorem write_result_ignores_library_failure (MPC_ID3V1 : Bool)
    (isChangedM : Mp3File → Bool) (isChangedT : TagLibFile → Bool) (env : WriteEnv)
    (diskM : Disk ID3_Tag) (diskT : Disk TagLibTag) (force renamed : Bool)
    (f : Mp3File) (g : TagLibFile) (hw : env.isWritable = true)
    (hf : f.new_filename.ne f.filename = false) (hg : g.new_filename.ne g.filename = false) :
    (Mp3File.writeTags isChangedM env diskM force renamed f).result = true ∧
    (TagLibFile.writeTags MPC_ID3V1 isChangedT env diskT force renamed g).result = true ∧
    (env.saveOk = false →
      (Mp3File.writeTags isChangedM env diskM force renamed f).disk = diskM ∧
      (TagLibFile.writeTags MPC_ID3V1 isChangedT env diskT force renamed g).disk = diskT) := by
  obtain ⟨a1, a2, a3⟩ := mp3_saveTags_keeps env diskM force f
  obtain ⟨b1, b2, b3⟩ := taglib_saveTags_keeps MPC_ID3V1 env diskT force g
  have hM : Mp3File.writeTags isChangedM env diskM force renamed f
      = { result := true, renamed := renamed, file := (f.saveTags env diskM force).1,
          disk := (f.saveTags env diskM force).2 } := by
    unfold Mp3File.writeTags
    simp only [hw, Bool.not_true, Bool.and_false, Bool.false_eq_true, if_false]
    exact renameStep_same env _ _ renamed _ _ (by rw [a1, a2]; exact hf)
  have hT : TagLibFile.writeTags MPC_ID3V1 isChangedT env diskT force renamed g
      = { result := true, renamed := renamed, file := (g.saveTags MPC_ID3V1 env diskT force).1,
          disk := (g.saveTags MPC_ID3V1 env diskT force).2 } := by
    unfold TagLibFile.writeTags
    simp only [hw, Bool.not_true, Bool.and_false, Bool.false_eq_true, if_false]
    exact renameStep_same env _ _ renamed _ _ (by rw [b1, b2]; exact hg)
  rw [hM, hT]
  exact ⟨rfl, rfl, fun h => ⟨a3 h, b3 h⟩⟩

theorem write_result_ignores_library_failure_witness :
    (Mp3File.writeTags (fun f => f.changedV1 || f.changedV2 || f.new_filename.ne f.filename)
        { isWritable := true, saveOk := false, renameOk := true }
        { v1 := none, v2 := some [latin1Frame TITLE "Old"] } false false
        { Mp3File.ofTags (some []) (some [latin1Frame TITLE "New"]) with
          changedV2 := true }).result = true ∧
    (TagLibFile.writeTags false
        (fun f => f.changedV1 || f.changedV2 || f.new_filename.ne f.filename)
        { isWritable := true, saveOk := false, renameOk := true }
        { v1 := none,
          v2 := some { TagLibTag.created TagLibTagType.ID3v2 with title := some (units "Old") } }
        false false
        { TagLibFile.ofTags TagLibFileType.MPEG none
            (some { TagLibTag.created TagLibTagType.ID3v2 with title := some (units "New") }) with
          changedV2 := true }).result = true ∧
    (Mp3File.writeTags (fun f => f.changedV1 || f.changedV2 || f.new_filename.ne f.filename)
        { isWritable := true, saveOk := false, renameOk := true }
        { v1 := none, v2 := some [latin1Frame TITLE "Old"] } false false
        { Mp3File.ofTags (some []) (some [latin1Frame TITLE "New"]) with
          changedV2 := true }).disk = { v1 := none, v2 := some [latin1Frame TITLE "Old"] } ∧
    (Mp3File.writeTags (fun f => f.changedV1 || f.changedV2 || f.new_filename.ne f.filename)
        { isWritable := true, saveOk := false, renameOk := true }
        { v1 := none, v2 := some [latin1Frame TITLE "Old"] } false false
        { Mp3File.ofTags (some []) (some [latin1Frame TITLE "New"]) with
          changedV2 := true }).file.changedV2 = false ∧
    (TagLibFile.writeTags false
        (fun f => f.changedV1 || f.changedV2 || f.new_filename.ne f.filename)
        { isWritable := true, saveOk := false, renameOk := true }
        { v1 := none,
          v2 := some { TagLibTag.created TagLibTagType.ID3v2 with title := some (units "Old") } }
        false false
        { TagLibFile.ofTags TagLibFileType.MPEG none
            (some { TagLibTag.created TagLibTagType.ID3v2 with title := some (units "New") }) with
          changedV2 := true }).file.changedV2 = true :=
  ⟨(write_result_ignores_library_failure false
      (fun f => f.changedV1 || f.changedV2 || f.new_filename.ne f.filename)
      (fun f => f.changedV1 || f.changedV2 || f.new_filename.ne f.filename)
      { isWritable := true, saveOk := false, renameOk := true }
      { v1 := none, v2 := some [latin1Frame TITLE "Old"] }
      { v1 := none,
        v2 := some { TagLibTag.created TagLibTagType.ID3v2 with title := some (units "Old") } }
      false false
      { Mp3File.ofTags (some []) (some [latin1Frame TITLE "New"]) with changedV2 := true }
      { TagLibFile.ofTags TagLibFileType.MPEG none
          (some { TagLibTag.created TagLibTagType.ID3v2 with title := some (units "New") }) with
        changedV2 := true }
      rfl (by decide) (by decide)).1,
   (write_result_ignores_library_failure false
      (fun f => f.changedV1 || f.changedV2 || f.new_filename.ne f.filename)
      (fun f => f.changedV1 || f.changedV2 || f.new_filename.ne f.filename)
      { isWritable := true, saveOk := false, renameOk := true }
      { v1 := none, v2 := some [latin1Frame TITLE "Old"] }
      { v1 := none,
        v2 := some { TagLibTag.created TagLibTagType.ID3v2 with title := some (units "Old") } }
      false false
      { Mp3File.ofTags (some []) (some [latin1Frame TITLE "New"]) with changedV2 := true }
      { TagLibFile.ofTags TagLibFileType.MPEG none
          (some { TagLibTag.created TagLibTagType.ID3v2 with title := some (units "New") }) with
        changedV2 := true }
      rfl (by decide) (by decide)).2.1,
   ((write_result_ignores_library_failure false
      (fun f => f.changedV1 || f.changedV2 || f.new_filename.ne f.filename)
      (fun f => f.changedV1 || f.changedV2 || f.new_filename.ne f.filename)
      { isWritable := true, saveOk := false, renameOk := true }
      { v1 := none, v2 := some [latin1Frame TITLE "Old"] }
      { v1 := none,
        v2 := some { TagLibTag.created TagLibTagType.ID3v2 with title := some (units "Old") } }
      false false
      { Mp3File.ofTags (some []) (some [latin1Frame TITLE "New"]) with changedV2 := true }
      { TagLibFile.ofTags TagLibFileType.MPEG none
          (some { TagLibTag.created TagLibTagType.ID3v2 with title := some (units "New") }) with
        changedV2 := true }
      rfl (by decide) (by decide)).2.2 rfl).1,
   by decide, by decide⟩

/-- C16. Revert discards unsaved edits: after `Mp3File::readTags(true)` and after
`TagLibFile::readTags(true)`, whatever the state of the file object was,
`changedV1` and `changedV2` are false and the new file name equals the file
name, which is the one the file had; an `Mp3File` holds the two tags as read
from the file.  `Kid3App::slotFileRevert` brings every file it acts on (all
files when none is selected, else the selected ones) into that state. -/
theorem revert_discards_edits (MPC_ID3V1 : Bool) (diskV1 diskV2 : ID3_Tag)
    (opened : Option TagLibFileType) (tags : TagLibFileTags) (f : Mp3File) (g : TagLibFile)
    (disk : Mp3File → ID3_Tag × ID3_Tag) (numFilesSelected : Nat)
    (files : List (Mp3File × Bool)) :
    ((Mp3File.readTags diskV1 diskV2 true f).changedV1 = false ∧
      (Mp3File.readTags diskV1 diskV2 true f).changedV2 = false ∧
      (Mp3File.readTags diskV1 diskV2 true f).new_filename
        = (Mp3File.readTags diskV1 diskV2 true f).filename ∧
      (Mp3File.readTags diskV1 diskV2 true f).filename = f.filename ∧
      (Mp3File.readTags diskV1 diskV2 true f).tagV1 = some diskV1 ∧
      (Mp3File.readTags diskV1 diskV2 true f).tagV2 = some diskV2) ∧
    ((TagLibFile.readTags MPC_ID3V1 opened tags true g).changedV1 = false ∧
      (TagLibFile.readTags MPC_ID3V1 opened tags true g).changedV2 = false ∧
      (TagLibFile.readTags MPC_ID3V1 opened tags true g).new_filename
        = (TagLibFile.readTags MPC_ID3V1 opened tags true g).filename ∧
      (TagLibFile.readTags MPC_ID3V1 opened tags true g).filename = g.filename) ∧
    (∀ x ∈ slotFileRevert
        (fun force file => Mp3File.readTags (disk file).1 (disk file).2 force file)
        numFilesSelected files,
      numFilesSelected = 0 ∨ x.2 = true →
        x.1.changedV1 = false ∧ x.1.changedV2 = false ∧ x.1.new_filename = x.1.filename) := by
  refine ⟨?_, taglib_readTags_forced MPC_ID3V1 opened tags g, ?_⟩
  · rw [mp3_readTags_forced]
    exact ⟨rfl, rfl, rfl, rfl, rfl, rfl⟩
  · intro x hx hsel
    refine slotFileRevert_mem
      (fun force file => Mp3File.readTags (disk file).1 (disk file).2 force file)
      (fun y => y.changedV1 = false ∧ y.changedV2 = false ∧ y.new_filename = y.filename)
      ?_ numFilesSelected files x hx hsel
    intro y
    simp only [mp3_readTags_forced]
    exact ⟨trivial, trivial, trivial⟩

theorem revert_discards_edits_witness :
    ((1 : Nat) = 0 ∨
      ((Mp3File.readTags [latin1Frame TITLE "Old"] [] true
          { Mp3File.ofTags (some [latin1Frame TITLE "New"]) (some []) with
            changedV1 := true, new_filename := qstr "b.mp3" }, true) : Mp3File × Bool).2
        = true) ∧
    (Mp3File.readTags [latin1Frame TITLE "Old"] [] true
        { Mp3File.ofTags (some [latin1Frame TITLE "New"]) (some []) with
          changedV1 := true, new_filename := qstr "b.mp3" }).changedV1 = false ∧
    (Mp3File.readTags [latin1Frame TITLE "Old"] [] true
        { Mp3File.ofTags (some [latin1Frame TITLE "New"]) (some []) with
          changedV1 := true, new_filename := qstr "b.mp3" }).changedV2 = false ∧
    (Mp3File.readTags [latin1Frame TITLE "Old"] [] true
        { Mp3File.ofTags (some [latin1Frame TITLE "New"]) (some []) with
          changedV1 := true, new_filename := qstr "b.mp3" }).new_filename
      = (Mp3File.readTags [latin1Frame TITLE "Old"] [] true
          { Mp3File.ofTags (some [latin1Frame TITLE "New"]) (some []) with
            changedV1 := true, new_filename := qstr "b.mp3" }).filename :=
  ⟨Or.inr rfl,
   (revert_discards_edits false [] [] none
      { ID3v1Tag := none, ID3v2Tag := none, xiphComment := none, APETag := none, tag := none }
      (Mp3File.ofTags none none) (TagLibFile.ofTags TagLibFileType.MPEG none none)
      (fun _ => ([latin1Frame TITLE "Old"], [])) 1
      [({ Mp3File.ofTags (some [latin1Frame TITLE "New"]) (some []) with
          changedV1 := true, new_filename := qstr "b.mp3" }, true),
       ({ Mp3File.ofTags (some []) (some [latin1Frame TITLE "Kept"]) with
          changedV2 := true }, false)]).2.2
     (Mp3File.readTags [latin1Frame TITLE "Old"] [] true
        { Mp3File.ofTags (some [latin1Frame TITLE "New"]) (some []) with
          changedV1 := true, new_filename := qstr "b.mp3" }, true)
     (by decide) (Or.inr rfl)⟩

/-! ## Format codes -/

theorem eqLit_false_of_ne (name : QString) (lit : String) (hn : name.isNull = false)
    (h : name ≠ qstr lit) : name.eqLit lit = false := by
  cases name with
  | none => simp [QString.isNull] at hn
  | some l =>
    simp only [QString.eqLit, Option.getD_some, beq_eq_false_iff_ne, ne_eq]
    intro heq
    exact h (by rw [heq]; rfl)

theorem lookupShortCode_none (table : List (Char × String)) (c : Nat)
    (h : ∀ e ∈ table, e.1.toNat ≠ c) : lookupShortCode table c = none := by
  unfold lookupShortCode
  have hf : table.find? (fun e => e.1.toNat == c) = none := by
    rw [List.find?_eq_none]
    intro e he
    simp [h e he]
  rw [hf]

theorem codeName_not_listed (table : List (Char × String)) (code : QString)
    (hz : ∀ e ∈ table, e.1.toNat ≠ 0) (h : code ∉ listedCodes table) :
    codeName table code = none ∨
      (codeName table code = code ∧ code.isNull = false ∧ ∀ e ∈ table, code ≠ qstr e.2) := by
  have hshort : ∀ e ∈ table, code ≠ some [e.1.toNat] := by
    intro e he heq
    apply h
    simp only [listedCodes, List.mem_append, List.mem_map]
    exact Or.inl ⟨e, he, heq.symm⟩
  have hlong : ∀ e ∈ table, code ≠ qstr e.2 := by
    intro e he heq
    apply h
    simp only [listedCodes, List.mem_append, List.mem_map]
    exact Or.inr ⟨e, he, heq.symm⟩
  unfold codeName
  by_cases h1 : code.length = 1
  · left
    rw [if_pos h1]
    cases code with
    | none => simp [QString.length] at h1
    | some l =>
      match l, h1 with
      | [u], _ =>
        apply lookupShortCode_none
        intro e he
        simp only [Option.getD_some, List.headD_cons, QChar.toLatin1]
        split_ifs with hu
        · exact hz e he
        · intro heq
          exact hshort e he (by rw [heq])
  · rw [if_neg h1]
    by_cases h2 : 1 < code.length
    · right
      rw [if_pos h2]
      refine ⟨rfl, ?_, hlong⟩
      cases code with
      | none => simp [QString.length] at h2
      | some l => rfl
    · left
      rw [if_neg h2]

theorem track_replaceName_unlisted (env : ReplacerEnv) (t : TrackData)
    (name result : QString) (hn : name.isNull = false)
    (h : ∀ e ∈ TrackDataFormatReplacer.shortToLong, name ≠ qstr e.2) :
    TrackDataFormatReplacer.replaceName env t name result = result := by
  have e1 := eqLit_false_of_ne name "file" hn
    (h ('f', "file") (by simp [TrackDataFormatReplacer.shortToLong]))
  have e2 := eqLit_false_of_ne name "filepath" hn
    (h ('p', "filepath") (by simp [TrackDataFormatReplacer.shortToLong]))
  have e3 := eqLit_false_of_ne name "url" hn
    (h ('u', "url") (by simp [TrackDataFormatReplacer.shortToLong]))
  have e4 := eqLit_false_of_ne name "duration" hn
    (h ('d', "duration") (by simp [TrackDataFormatReplacer.shortToLong]))
  have e5 := eqLit_false_of_ne name "seconds" hn
    (h ('D', "seconds") (by simp [TrackDataFormatReplacer.shortToLong]))
  have e6 := eqLit_false_of_ne name "tracks" hn
    (h ('n', "tracks") (by simp [TrackDataFormatReplacer.shortToLong]))
  have e7 := eqLit_false_of_ne name "extension" hn
    (h ('e', "extension") (by simp [TrackDataFormatReplacer.shortToLong]))
  have e8 := eqLit_false_of_ne name "tag1" hn
    (h ('O', "tag1") (by simp [TrackDataFormatReplacer.shortToLong]))
  have e9 := eqLit_false_of_ne name "tag2" hn
    (h ('o', "tag2") (by simp [TrackDataFormatReplacer.shortToLong]))
  have e10 := eqLit_false_of_ne name "bitrate" hn
    (h ('b', "bitrate") (by simp [TrackDataFormatReplacer.shortToLong]))
  have e11 := eqLit_false_of_ne name "vbr" hn
    (h ('v', "vbr") (by simp [TrackDataFormatReplacer.shortToLong]))
  have e12 := eqLit_false_of_ne name "samplerate" hn
    (h ('r', "samplerate") (by simp [TrackDataFormatReplacer.shortToLong]))
  have e13 := eqLit_false_of_ne name "mode" hn
    (h ('m', "mode") (by simp [TrackDataFormatReplacer.shortToLong]))
  have e14 := eqLit_false_of_ne name "channels" hn
    (h ('h', "channels") (by simp [TrackDataFormatReplacer.shortToLong]))
  have e15 := eqLit_false_of_ne name "codec" hn
    (h ('k', "codec") (by simp [TrackDataFormatReplacer.shortToLong]))
  simp only [TrackDataFormatReplacer.replaceName, e1, e2, e3, e4, e5, e6, e7, e8, e9, e10,
    e11, e12, e13, e14, e15, Bool.false_eq_true, if_false]

theorem command_replaceName_unlisted (env : ReplacerEnv)
    (files : List QString) (isDir : Bool) (name result : QString) (hn : name.isNull = false)
    (h : ∀ e ∈ CommandFormatReplacer.shortToLong, name ≠ qstr e.2)
    (hurl : name ≠ qstr "url") :
    CommandFormatReplacer.replaceName env files isDir name result = some result := by
  have e1 := eqLit_false_of_ne name "file" hn
    (h ('f', "file") (by simp [CommandFormatReplacer.shortToLong]))
  have e2 := eqLit_false_of_ne name "directory" hn
    (h ('d', "directory") (by simp [CommandFormatReplacer.shortToLong]))
  have e3 := eqLit_false_of_ne name "browser" hn
    (h ('b', "browser") (by simp [CommandFormatReplacer.shortToLong]))
  have e4 := eqLit_false_of_ne name "url" hn hurl
  simp only [CommandFormatReplacer.replaceName, e1, e2, e3, e4, Bool.false_eq_true, if_false]

theorem command_url_replacement (env : ReplacerEnv) (files : List QString) (isDir : Bool)
    (hbase : env.base (qstr "url") = none) :
    CommandFormatReplacer.getReplacement env files isDir (qstr "url")
      = match files.head? with
        | some front => some (env.fileUrl front)
        | none => some none := by
  have hname : codeName CommandFormatReplacer.shortToLong (qstr "url") = qstr "url" := by
    decide
  have e1 : (qstr "url").eqLit "file" = false := by decide
  have e2 : (qstr "url").eqLit "directory" = false := by decide
  have e3 : (qstr "url").eqLit "browser" = false := by decide
  have e4 : (qstr "url").eqLit "url" = true := by decide
  have nurl : (qstr "url").isNull = false := rfl
  have hnull : QString.isNull none = true := rfl
  unfold CommandFormatReplacer.getReplacement
  simp only [hbase, hnull, hname, nurl, Bool.not_false, if_true,
    CommandFormatReplacer.replaceName, e1, e2, e3, e4, Bool.false_eq_true, if_false]

/-- C17, counterexample. The name `url` is none of the codes `f`, `d`, `b`, `file`,
`directory`, `browser` that `CommandFormatReplacer::getReplacement` lists, and
the base class yields null for it, but with a file in the list the result is
the URL of the file, not the null string. -/
theorem command_url_is_replaced :
    qstr "url" ∉ listedCodes CommandFormatReplacer.shortToLong ∧
    exampleEnv.base (qstr "url") = none ∧
    CommandFormatReplacer.getReplacement exampleEnv [qstr "/music/a.mp3"] false (qstr "url")
      = some (qstr "file:///music/a.mp3") := by
  decide

/-- C17, amended. Unknown format codes are not an error: for every code for which
the base `FrameFormatReplacer` yields null and which is none of the fifteen
single characters and fifteen long names of `TrackDataFormatReplacer`,
`TrackDataFormatReplacer::getReplacement` returns the null string; and for
every such code that is none of `f`, `d`, `b`, `file`, `directory`, `browser`
and not `url` either, `CommandFormatReplacer::getReplacement` returns the null
string.  For the name `url`, when the base yields null for it,
`CommandFormatReplacer::getReplacement` returns the file URL of the first file
of every non-empty list of files, and the null string for the empty list. -/
theorem unknown_code_is_null (env : ReplacerEnv) (t : TrackData) (files : List QString)
    (isDir : Bool) (code : QString) (hbase : env.base code = none) :
    (code ∉ listedCodes TrackDataFormatReplacer.shortToLong →
      TrackDataFormatReplacer.getReplacement env t code = none) ∧
    (code ∉ listedCodes CommandFormatReplacer.shortToLong → code ≠ qstr "url" →
      CommandFormatReplacer.getReplacement env files isDir code = some none) ∧
    (env.base (qstr "url") = none →
      (∀ (front : QString) (rest : List QString),
        CommandFormatReplacer.getReplacement env (front :: rest) isDir (qstr "url")
          = some (env.fileUrl front)) ∧
      CommandFormatReplacer.getReplacement env [] isDir (qstr "url") = some none) := by
  refine ⟨?_, ?_, fun hurl =>
    ⟨fun front rest => command_url_replacement env (front :: rest) isDir hurl,
     command_url_replacement env [] isDir hurl⟩⟩
  · intro h
    unfold TrackDataFormatReplacer.getReplacement
    simp only [hbase, QString.isNull, Option.isNone_none, if_true]
    rcases codeName_not_listed TrackDataFormatReplacer.shortToLong code (by decide) h with
      h1 | ⟨h1, h2, h3⟩
    · simp [h1]
    · rw [h1]
      have h2b : code.isNone = false := h2
      simp only [h2b, Bool.not_false, if_true]
      exact track_replaceName_unlisted env t code none h2 h3
  · intro h hurl
    unfold CommandFormatReplacer.getReplacement
    simp only [hbase, QString.isNull, Option.isNone_none, if_true]
    rcases codeName_not_listed CommandFormatReplacer.shortToLong code (by decide) h with
      h1 | ⟨h1, h2, h3⟩
    · simp [h1]
    · rw [h1]
      have h2b : code.isNone = false := h2
      simp only [h2b, Bool.not_false, if_true]
      exact command_replaceName_unlisted env files isDir code none h2 h3 hurl

theorem unknown_code_is_null_witness :
    exampleEnv.base (qstr "nonexistent") = none ∧
    qstr "nonexistent" ∉ listedCodes TrackDataFormatReplacer.shortToLong ∧
    qstr "nonexistent" ∉ listedCodes CommandFormatReplacer.shortToLong ∧
    qstr "nonexistent" ≠ qstr "url" ∧
    TrackDataFormatReplacer.getReplacement exampleEnv (exampleTrack "/music/a.mp3")
      (qstr "nonexistent") = none ∧
    CommandFormatReplacer.getReplacement exampleEnv [qstr "/music/a.mp3"] false
      (qstr "nonexistent") = some none ∧
    exampleEnv.base (qstr "url") = none ∧
    CommandFormatReplacer.getReplacement exampleEnv [qstr "/music/b.mp3", qstr "/music/c.mp3"]
      false (qstr "url") = some (exampleEnv.fileUrl (qstr "/music/b.mp3")) :=
  ⟨rfl, by decide, by decide, by decide,
   (unknown_code_is_null exampleEnv (exampleTrack "/music/a.mp3") [qstr "/music/a.mp3"] false
      (qstr "nonexistent") rfl).1 (by decide),
   (unknown_code_is_null exampleEnv (exampleTrack "/music/a.mp3") [qstr "/music/a.mp3"] false
      (qstr "nonexistent") rfl).2.1 (by decide) (by decide),
   rfl,
   ((unknown_code_is_null exampleEnv (exampleTrack "/music/a.mp3") [qstr "/music/a.mp3"] false
      (qstr "nonexistent") rfl).2.2 rfl).1 (qstr "/music/b.mp3") [qstr "/music/c.mp3"]⟩

theorem track_codeName_table :
    ∀ e ∈ TrackDataFormatReplacer.shortToLong,
      codeName TrackDataFormatReplacer.shortToLong (some [e.1.toNat]) = qstr e.2 ∧
      codeName TrackDataFormatReplacer.shortToLong (qstr e.2) = qstr e.2 := by
  decide

theorem command_codeName_table :
    ∀ e ∈ CommandFormatReplacer.shortToLong,
      codeName CommandFormatReplacer.shortToLong (some [e.1.toNat]) = qstr e.2 ∧
      codeName CommandFormatReplacer.shortToLong (qstr e.2) = qstr e.2 := by
  decide

/-- C18. Single-character and long codes are interchangeable: for each entry of
the table of `TrackDataFormatReplacer` (f/file, p/filepath, u/url, d/duration,
D/seconds, n/tracks, e/extension, O/tag1, o/tag2, b/bitrate, v/vbr,
r/samplerate, m/mode, h/channels, k/codec) and every track for which the base
`FrameFormatReplacer` yields null for both forms, `getReplacement` of the
character equals `getReplacement` of the long name; the same holds for f/file,
d/directory and b/browser in `CommandFormatReplacer`, where with a non-empty
list of files both results are defined. -/
theorem short_and_long_codes_agree (env : ReplacerEnv) (t : TrackData)
    (files : List QString) (isDir : Bool) (e : Char × String)
    (hshort : env.base (some [e.1.toNat]) = none) (hlong : env.base (qstr e.2) = none) :
    (e ∈ TrackDataFormatReplacer.shortToLong →
      TrackDataFormatReplacer.getReplacement env t (some [e.1.toNat])
        = TrackDataFormatReplacer.getReplacement env t (qstr e.2)) ∧
    (e ∈ CommandFormatReplacer.shortToLong →
      CommandFormatReplacer.getReplacement env files isDir (some [e.1.toNat])
        = CommandFormatReplacer.getReplacement env files isDir (qstr e.2) ∧
      (files ≠ [] →
        (CommandFormatReplacer.getReplacement env files isDir (qstr e.2)).isSome = true)) := by
  constructor
  · intro he
    obtain ⟨h1, h2⟩ := track_codeName_table e he
    unfold TrackDataFormatReplacer.getReplacement
    simp only [hshort, hlong, h1, h2]
  · intro he
    obtain ⟨h1, h2⟩ := command_codeName_table e he
    constructor
    · unfold CommandFormatReplacer.getReplacement
      simp only [hshort, hlong, h1, h2]
    · intro hne
      unfold CommandFormatReplacer.getReplacement
      simp only [hlong, h2]
      cases files with
      | nil => exact absurd rfl hne
      | cons a l =>
        simp only [CommandFormatReplacer.replaceName, List.head?_cons]
        simp only [QString.isNull, Option.isNone_none, if_true]
        split_ifs <;> simp

theorem short_and_long_codes_agree_witness :
    exampleEnv.base (some [('f').toNat]) = none ∧ exampleEnv.base (qstr "file") = none ∧
    ('f', "file") ∈ TrackDataFormatReplacer.shortToLong ∧
    ('f', "file") ∈ CommandFormatReplacer.shortToLong ∧
    TrackDataFormatReplacer.getReplacement exampleEnv (exampleTrack "/music/a.mp3")
        (some [('f').toNat])
      = TrackDataFormatReplacer.getReplacement exampleEnv (exampleTrack "/music/a.mp3")
          (qstr "file") ∧
    TrackDataFormatReplacer.getReplacement exampleEnv (exampleTrack "/music/a.mp3")
        (qstr "file") = qstr "a.mp3" ∧
    CommandFormatReplacer.getReplacement exampleEnv [qstr "/music/a.mp3"] false
        (some [('f').toNat])
      = CommandFormatReplacer.getReplacement exampleEnv [qstr "/music/a.mp3"] false
          (qstr "file") ∧
    CommandFormatReplacer.getReplacement exampleEnv [qstr "/music/a.mp3"] false (qstr "file")
      = some (qstr "/music/a.mp3") :=
  ⟨rfl, rfl, by decide, by decide,
   (short_and_long_codes_agree exampleEnv (exampleTrack "/music/a.mp3")
      [qstr "/music/a.mp3"] false ('f', "file") rfl rfl).1 (by decide),
   by decide,
   ((short_and_long_codes_agree exampleEnv (exampleTrack "/music/a.mp3")
      [qstr "/music/a.mp3"] false ('f', "file") rfl rfl).2 (by decide)).1,
   by decide⟩

/-! ## Format entry points -/

theorem requestsSeparators_flag (isDirname : Bool) :
    requestsSeparators (if isDirname then FSF_ReplaceSeparators else 0) = isDirname := by
  cases isDirname <;> decide

/-- C19. Separator replacement is limited to directory mode:
`TrackData::formatFilenameFromTags` makes one call of `replacePercentCodes`, on
the replacer built from the prepared string, and its flags request the
replacement of separators exactly when `isDirname` is true;
`TrackData::formatString` makes one call of `replacePercentCodes`, with flags
that do not request it.  This holds for the recorded calls, and the results
are composed accordingly for every implementation of the replacer. -/
theorem separators_only_in_directory_mode {S : Type} (ops : FormatReplacerOps S)
    (t : TrackData) (str format : QString) (isDirname : Bool) :
    (∃ flags, t.formatFilenameFromTagsFmt recordingOps str isDirname
        = [ReplacerCall.create t (t.filenameFormat str isDirname),
           ReplacerCall.replacePercentCodes flags] ∧
      requestsSeparators flags = isDirname) ∧
    (∃ flags, t.formatStringFmt recordingOps format
        = [ReplacerCall.create t format, ReplacerCall.replaceEscapedChars,
           ReplacerCall.replacePercentCodes flags] ∧
      requestsSeparators flags = false) ∧
    t.formatFilenameFromTags ops str true
      = ops.getString (ops.replacePercentCodes FSF_ReplaceSeparators (ops.create t str)) ∧
    t.formatFilenameFromTags ops str false
      = ops.getString (ops.replacePercentCodes 0 (ops.create t (t.filenameFormat str false))) ∧
    requestsSeparators FSF_ReplaceSeparators = true ∧ requestsSeparators 0 = false := by
  refine ⟨⟨if isDirname then FSF_ReplaceSeparators else 0, rfl,
    requestsSeparators_flag isDirname⟩, ⟨defaultFlags, rfl, by decide⟩, rfl, rfl,
    by decide, by decide⟩

/-- C21. The read-side correction of mirrored UTF-16 text undoes the write-side
one: for every 16-bit code unit `u` and either value of the flag
`UNICODE_SUPPORT_BUGGY`, the conversion `Mp3File::getString` applies to a stored
unit and the conversion `Mp3File::setString` applies are inverse to each other;
with the flag set both swap the two bytes of `u`, with it clear both are the
identity; and the flag is set exactly when
`(major << 16) + (minor << 8) + patch <= 0x030803`. -/
theorem mirror_correction_is_inverse (buggy : Bool) (u major minor patch : Nat)
    (hu : u < 65536) :
    getUnit buggy (setUnit buggy u) = u ∧ setUnit buggy (getUnit buggy u) = u ∧
    getUnit true u = (u % 256) * 256 + u / 256 ∧
    setUnit true u = (u % 256) * 256 + u / 256 ∧
    getUnit false u = u ∧ setUnit false u = u ∧
    (UNICODE_SUPPORT_BUGGY major minor patch = true ↔
      (major <<< 16) + (minor <<< 8) + patch ≤ 0x030803) := by
  have hm : u % 65536 = u := Nat.mod_eq_of_lt hu
  have hd : u / 256 % 256 = u / 256 := Nat.mod_eq_of_lt (by omega)
  have hmm : mirror u % 65536 = mirror u := Nat.mod_eq_of_lt (mirror_lt u)
  refine ⟨getUnit_setUnit buggy u hu, ?_, ?_, ?_, ?_, ?_, ?_⟩
  · cases buggy
    · simp [getUnit, setUnit, hm]
    · simp [getUnit, setUnit, hmm, mirror_mirror u hu]
  · simp [getUnit, mirror_eq, hd]
  · simp [setUnit, hm, mirror_eq, hd]
  · simp [getUnit, hm]
  · simp [setUnit, hm]
  · simp [UNICODE_SUPPORT_BUGGY]

theorem mirror_correction_is_inverse_witness :
    (0x1234 : Nat) < 65536 ∧
    getUnit true (setUnit true 0x1234) = 0x1234 ∧ setUnit true 0x1234 = 0x3412 ∧
    getUnit false (setUnit false 0x1234) = 0x1234 ∧
    UNICODE_SUPPORT_BUGGY 3 8 3 = true ∧ UNICODE_SUPPORT_BUGGY 3 8 4 = false :=
  ⟨by decide,
   (mirror_correction_is_inverse true 0x1234 3 8 3 (by decide)).1,
   by decide,
   (mirror_correction_is_inverse false 0x1234 3 8 3 (by decide)).1,
   by decide, by decide⟩

/-! ## Genre number round trip -/

theorem number_nonneg (n : Int) (h : 0 ≤ n) : QString.number n = some (decimal n.natAbs) := by
  unfold QString.number
  rw [if_neg (by omega)]

theorem genre_text_latin1 (a : Nat) : ∀ c ∈ [40] ++ decimal a ++ [41], c ≠ 0 ∧ c ≤ 0xff := by
  intro c hc
  simp only [List.mem_append, List.mem_singleton] at hc
  rcases hc with (hc | hc) | hc
  · omega
  · have := digit_bounds c (decimal_digits a c hc); omega
  · omega

/-- C22, counterexample. On a tag with two genre frames `setGenreNum(tag, 5)`
replaces only the one frame that `Find` yields (on a tag just read the first)
and appends the frame with "(5)" behind the other, so `getGenreNum(tag)` returns
the number of the old frame that stayed; and `setGenreNum(tag, 0xff)` removes
only one frame, so `getGenreNum` returns the number of the other and not
0xff. -/
theorem genre_set_second_frame_wins :
    (setGenreNum true (some [latin1Frame CONTENTTYPE "(1)", latin1Frame CONTENTTYPE "(2)"])
        5).2
      = some [latin1Frame CONTENTTYPE "(2)", latin1Frame CONTENTTYPE "(5)"] ∧
    getGenreNum true
      (setGenreNum true (some [latin1Frame CONTENTTYPE "(1)", latin1Frame CONTENTTYPE "(2)"])
        5).2 = 2 ∧
    getGenreNum true
      (setGenreNum true (some [latin1Frame CONTENTTYPE "(1)", latin1Frame CONTENTTYPE "(2)"])
        0xff).2 = 2 := by
  decide

/-- C22, amended. Genre number round trip: for every present tag that holds at
most one genre frame and every genre number `n` with `0 <= n <= 254`,
`setGenreNum(tag, n)` returns true and stores the text "(n)", and a following
`getGenreNum(tag)` returns `n`; `setGenreNum(tag, 0xff)` returns true and
leaves in the tag exactly its frames with other ids, so that `getGenreNum`
returns 0xff.  The frames that stay are the same wherever the search cursor of
the tag stands at the call. -/
theorem genre_number_round_trip (buggy : Bool) (t : ID3_Tag) (n : Int)
    (hcount : t.countP (fun f => f.id == CONTENTTYPE) ≤ 1) (h0 : 0 ≤ n) (h254 : n ≤ 254) :
    (setGenreNum buggy (some t) n).1 = true ∧
    getTextField buggy (setGenreNum buggy (some t) n).2 CONTENTTYPE
      = some ([40] ++ decimal n.natAbs ++ [41]) ∧
    getGenreNum buggy (setGenreNum buggy (some t) n).2 = n ∧
    setGenreNum buggy (some t) 0xff
      = (true, some (t.filter (fun f => f.id != CONTENTTYPE))) ∧
    getTextField buggy (setGenreNum buggy (some t) 0xff).2 CONTENTTYPE = some [] ∧
    getGenreNum buggy (setGenreNum buggy (some t) 0xff).2 = 0xff ∧
    (∀ cursor : Nat,
      ID3_Tag.RemoveFoundFrom t cursor CONTENTTYPE
        = t.filter (fun f => f.id != CONTENTTYPE)) := by
  have hne : [40] ++ decimal n.natAbs ++ [41] ≠ [] := by simp
  have hset : setGenreNum buggy (some t) n
      = (true, some (ID3_Tag.AttachFrame (ID3_Tag.RemoveFound t CONTENTTYPE)
          { id := CONTENTTYPE, textenc := some ISO8859_1,
            text := some { enc := ISO8859_1, data := [40] ++ decimal n.natAbs ++ [41] } })) := by
    unfold setGenreNum
    have h1 : n ≠ 0xff := by omega
    simp only [h0, if_true, ne_eq, h1, not_false_eq_true, number_nonneg n h0,
      Option.getD_some, defaultReplace]
    exact setTextField_write buggy t CONTENTTYPE _ defaultAllowUnicode defaultRemoveEmpty _ hne
      (fillFrame_latin1 buggy CONTENTTYPE _ defaultAllowUnicode (by decide)
        (genre_text_latin1 n.natAbs))
  have hread : getTextField buggy (setGenreNum buggy (some t) n).2 CONTENTTYPE
      = some ([40] ++ decimal n.natAbs ++ [41]) := by
    rw [hset]
    exact getTextField_attach_latin1 buggy _ CONTENTTYPE _
      (find_removeFound_none CONTENTTYPE t hcount)
  have hnum : getGenreNum buggy (setGenreNum buggy (some t) n).2 = n := by
    have := getGenreNum_parenthesised buggy (setGenreNum buggy (some t) n).2
      (decimal n.natAbs) [] (decimal_ne_nil _) (decimal_digits _) (by rw [hread]; simp)
    rw [this, digitsValue_decimal]
    have : n.natAbs ≤ 254 := by omega
    simp only [this, if_true]
    omega
  have hrem : setGenreNum buggy (some t) 0xff
      = (true, some (ID3_Tag.RemoveFound t CONTENTTYPE)) := by
    unfold setGenreNum
    simp only [show (0 : Int) ≤ 0xff by decide, if_true, ne_eq, not_true_eq_false, if_false,
      defaultReplace, defaultRemoveEmpty]
    exact setTextField_empty buggy t CONTENTTYPE defaultAllowUnicode
  have hremread : getTextField buggy (setGenreNum buggy (some t) 0xff).2 CONTENTTYPE
      = some [] := by
    rw [hrem]
    exact getTextField_of_find_none buggy _ CONTENTTYPE
      (find_removeFound_none CONTENTTYPE t hcount)
  refine ⟨by rw [hset], hread, hnum,
    by rw [hrem, removeFound_eq_filter CONTENTTYPE t hcount], hremread, ?_,
    fun cursor => removeFoundFrom_eq_filter CONTENTTYPE t cursor hcount⟩
  unfold getGenreNum
  simp [hremread, QString.isNull, QString.isEmpty]

theorem genre_number_round_trip_witness :
    ([latin1Frame TITLE "T", latin1Frame CONTENTTYPE "(1)"] : ID3_Tag).countP
        (fun f => f.id == CONTENTTYPE) ≤ 1 ∧
    (0 : Int) ≤ 17 ∧ (17 : Int) ≤ 254 ∧
    getTextField true
        (setGenreNum true (some [latin1Frame TITLE "T", latin1Frame CONTENTTYPE "(1)"]) 17).2
        CONTENTTYPE = qstr "(17)" ∧
    getGenreNum true
        (setGenreNum true (some [latin1Frame TITLE "T", latin1Frame CONTENTTYPE "(1)"]) 17).2
      = 17 ∧
    getGenreNum true
        (setGenreNum true (some [latin1Frame TITLE "T", latin1Frame CONTENTTYPE "(1)"]) 0xff).2
      = 0xff :=
  ⟨by decide, by decide, by decide, by decide,
   (genre_number_round_trip true [latin1Frame TITLE "T", latin1Frame CONTENTTYPE "(1)"] 17
      (by decide) (by decide) (by decide)).2.2.1,
   (genre_number_round_trip true [latin1Frame TITLE "T", latin1Frame CONTENTTYPE "(1)"] 17
      (by decide) (by decide) (by decide)).2.2.2.2.2.1⟩
/-! ## Result of `setTextField` -/

theorem changed_result_of_branches (fill : Option ID3_Frame) (t : ID3_Tag) (id : ID3_FrameID)
    (replace e : Bool) :
    (if (!e && (replace ||
          (ID3_Tag.Find (if replace || e then ID3_Tag.RemoveFound t id else t) id).isNone)) = true
      then
        match fill with
        | some frame =>
          (true, some (ID3_Tag.AttachFrame
            (if replace || e then ID3_Tag.RemoveFound t id else t) frame))
        | none => (true, some (if replace || e then ID3_Tag.RemoveFound t id else t))
      else (replace || e, some (if replace || e then ID3_Tag.RemoveFound t id else t))).1
      = (replace || e || (ID3_Tag.Find t id).isNone) := by
  cases fill <;> cases replace <;> cases e <;> cases hf : (ID3_Tag.Find t id).isNone <;>
    simp [hf]

/-- C23. What `Mp3File::setTextField` returns for a present tag and a string that
is not null: true when `replace` is set, when the string is empty and
`removeEmpty` is set, or when the tag holds no frame with the id, whether or
not the frames of the tag are different afterwards.  Removing an absent title
from an empty tag and setting a title to the text it already holds both return
true with the frames as they were, and `setTitleV1` then marks the tag
changed. -/
theorem setTextField_result (buggy : Bool) (t : ID3_Tag) (id : ID3_FrameID) (s : List Nat)
    (allowUnicode replace removeEmpty : Bool) :
    (setTextField buggy (some t) id (some s) allowUnicode replace removeEmpty).1
      = (replace || (removeEmpty && s.isEmpty) || (ID3_Tag.Find t id).isNone) ∧
    setTextField buggy (some []) TITLE (some []) defaultAllowUnicode defaultReplace
      defaultRemoveEmpty = (true, some []) ∧
    setTextField buggy (some [latin1Frame TITLE "a"]) TITLE (qstr "a") defaultAllowUnicode
      defaultReplace defaultRemoveEmpty = (true, some [latin1Frame TITLE "a"]) ∧
    (Mp3File.setTitleV1 buggy (Mp3File.ofTags (some []) none) (some [])).tagV1 = some [] ∧
    (Mp3File.setTitleV1 buggy (Mp3File.ofTags (some []) none) (some [])).changedV1 = true := by
  refine ⟨?_, ?_, ?_, ?_, ?_⟩
  · unfold setTextField
    simp only [QString.isNull, Option.isNone_some, Bool.false_eq_true, if_false,
      QString.isEmpty]
    exact changed_result_of_branches _ t id replace _
  · cases buggy <;> decide
  · cases buggy <;> decide
  · cases buggy <;> decide
  · cases buggy <;> decide

/-! ## Sentinel values -/

theorem toInt_nonneg_of_no_minus (s : List Nat) (h : 45 ∉ s) :
    0 ≤ (QString.toInt (some s)).1 := by
  have hsub : ∀ c ∈ s.dropWhile isSpace, c ∈ s :=
    fun c hc => (List.dropWhile_suffix isSpace).subset hc
  unfold QString.toInt
  simp only
  have hsign : (splitSign (s.dropWhile isSpace)).1 = false := by
    unfold splitSign
    split
    · rename_i r heq
      exact absurd (hsub 45 (by rw [heq]; exact List.mem_cons_self 45 r)) h
    · rfl
    · rfl
  rw [hsign]
  simp only [Bool.false_eq_true, if_false]
  split_ifs <;> simp

theorem toInt_none : QString.toInt none = (0, false) := rfl

theorem truncate_mid_toInt_nonneg (str : QString) (s : List Nat) (hstr : str = some s)
    (h : 45 ∉ s) (pos len : Nat) :
    0 ≤ (str.truncate pos).toInt.1 ∧ 0 ≤ (str.mid pos len).toInt.1 := by
  subst hstr
  constructor
  · unfold QString.truncate
    simp only
    split_ifs
    · exact toInt_nonneg_of_no_minus _ (fun hm => h (List.mem_of_mem_take hm))
    · exact toInt_nonneg_of_no_minus _ h
  · unfold QString.mid
    simp only
    split_ifs
    · rw [toInt_none]
    · exact toInt_nonneg_of_no_minus _
        (fun hm => h (List.mem_of_mem_drop (List.mem_of_mem_take hm)))

/-- C26. Where the results of the number getters come from, for a present tag:
when the text of the year, track or genre field holds no minus sign,
`Mp3File::getYear` and `getTrackNum` return a number that is not negative and
`getGenreNum` returns a number between 0 and 0xff.  A text with a minus sign
is read as a negative number: the year "-1", the track "-1/5" and the genre
"(-1)" make the three getters return -1, the value documented for missing
tags. -/
theorem sentinel_needs_minus_sign (buggy : Bool) (t : ID3_Tag) (year track genre : List Nat)
    (hyear : getTextField buggy (some t) YEAR = some year) (hy : 45 ∉ year)
    (htrack : getTextField buggy (some t) TRACKNUM = some track) (ht : 45 ∉ track)
    (hgenre : getTextField buggy (some t) CONTENTTYPE = some genre) (hg : 45 ∉ genre) :
    0 ≤ getYear buggy (some t) ∧ 0 ≤ getTrackNum buggy (some t) ∧
    0 ≤ getGenreNum buggy (some t) ∧ getGenreNum buggy (some t) ≤ 0xff ∧
    getYear buggy (some [latin1Frame YEAR "-1"]) = -1 ∧
    getTrackNum buggy (some [latin1Frame TRACKNUM "-1/5"]) = -1 ∧
    getGenreNum buggy (some [latin1Frame CONTENTTYPE "(-1)"]) = -1 := by
  refine ⟨?_, ?_, ?_, ?_, ?_, ?_, ?_⟩
  · unfold getYear
    simp only [hyear]
    split_ifs
    · simp [QString.isNull] at *
    · exact le_refl 0
    · exact toInt_nonneg_of_no_minus year hy
  · unfold getTrackNum
    simp only [hyear, htrack]
    split_ifs
    · simp [QString.isNull] at *
    · exact le_refl 0
    · exact (truncate_mid_toInt_nonneg (some track) track rfl ht _ 0).1
    · exact toInt_nonneg_of_no_minus track ht
  · unfold getGenreNum
    simp only [hgenre]
    split_ifs
    · simp [QString.isNull] at *
    · decide
    · decide
    · exact (truncate_mid_toInt_nonneg (some genre) genre rfl hg 1 _).2
    · decide
  · unfold getGenreNum
    simp only [hgenre]
    split_ifs with h1 h2 h3 h4
    · simp [QString.isNull] at *
    · exact le_refl _
    · exact le_refl _
    · simp only [Bool.not_eq_true, not_or, not_lt] at h4
      exact h4.2
    · exact le_refl _
  · cases buggy <;> decide
  · cases buggy <;> decide
  · cases buggy <;> decide

theorem sentinel_needs_minus_sign_witness :
    getTextField true (some [latin1Frame YEAR "2001", latin1Frame TRACKNUM "3/12",
        latin1Frame CONTENTTYPE "(17)"]) YEAR = some (units "2001") ∧
    45 ∉ units "2001" ∧ 45 ∉ units "3/12" ∧ 45 ∉ units "(17)" ∧
    0 ≤ getYear true (some [latin1Frame YEAR "2001", latin1Frame TRACKNUM "3/12",
        latin1Frame CONTENTTYPE "(17)"]) ∧
    getGenreNum true (some [latin1Frame YEAR "2001", latin1Frame TRACKNUM "3/12",
        latin1Frame CONTENTTYPE "(17)"]) ≤ 0xff ∧
    getGenreNum true (some [latin1Frame CONTENTTYPE "(-1)"]) = -1 :=
  ⟨by decide, by decide, by decide, by decide,
   (sentinel_needs_minus_sign true [latin1Frame YEAR "2001", latin1Frame TRACKNUM "3/12",
      latin1Frame CONTENTTYPE "(17)"] (units "2001") (units "3/12") (units "(17)")
      (by decide) (by decide) (by decide) (by decide) (by decide) (by decide)).1,
   (sentinel_needs_minus_sign true [latin1Frame YEAR "2001", latin1Frame TRACKNUM "3/12",
      latin1Frame CONTENTTYPE "(17)"] (units "2001") (units "3/12") (units "(17)")
      (by decide) (by decide) (by decide) (by decide) (by decide) (by decide)).2.2.2.1,
   by decide⟩

/-! ## Scheduled rename actions -/

theorem QString.isEmpty_eq (s : QString) : s.isEmpty = (s.getD []).isEmpty := by
  cases s <;> rfl

theorem not_conflict_iff (src dest : QString) (a : RenameAction) :
    actionConflicts src dest a = false ↔
      ¬(src.getD [] ≠ [] ∧ a.m_src.getD [] = src.getD []) ∧
      ¬(dest.getD [] ≠ [] ∧ a.m_dest.getD [] = dest.getD []) := by
  unfold actionConflicts
  simp only [QString.isEmpty_eq, QString.eq, Bool.or_eq_false_iff, Bool.and_eq_false_imp,
    Bool.not_eq_true', List.isEmpty_eq_false, beq_eq_false_iff_ne, ne_eq, not_and]

theorem addAction_of_conflict (d : RenDirDialog) (type : RenameActionType) (src dest : QString)
    (a : RenameAction) (ha : a ∈ d.m_actions) (hc : actionConflicts src dest a = true) :
    d.addAction type src dest = d := by
  unfold RenDirDialog.addAction
  rw [if_pos (List.any_eq_true.mpr ⟨a, ha, hc⟩)]

theorem addAction_of_no_conflict (d : RenDirDialog) (type : RenameActionType)
    (src dest : QString) (h : ∀ a ∈ d.m_actions, actionConflicts src dest a = false) :
    d.addAction type src dest
      = { d with m_actions := d.m_actions ++ [{ m_type := type, m_src := src, m_dest := dest }] }
      := by
  unfold RenDirDialog.addAction
  rw [if_neg]
  rw [List.any_eq_true]
  rintro ⟨a, ha, hc⟩
  rw [h a ha] at hc
  exact Bool.false_ne_true hc

theorem uniqueNames_addAction (d : RenDirDialog) (type : RenameActionType) (src dest : QString)
    (h : uniqueNames d.m_actions) : uniqueNames (d.addAction type src dest).m_actions := by
  by_cases hany : d.m_actions.any (actionConflicts src dest) = true
  · unfold RenDirDialog.addAction
    rw [if_pos hany]
    exact h
  · have hno : ∀ a ∈ d.m_actions, actionConflicts src dest a = false := by
      intro a ha
      by_contra hc
      exact hany (List.any_eq_true.mpr ⟨a, ha, by simpa using hc⟩)
    rw [addAction_of_no_conflict d type src dest hno]
    unfold uniqueNames
    rw [List.pairwise_append]
    refine ⟨h, List.pairwise_singleton _ _, ?_⟩
    intro a ha b hb
    rw [List.mem_singleton] at hb
    subst hb
    obtain ⟨h1, h2⟩ := (not_conflict_iff src dest a).mp (hno a ha)
    simp only [QString.isEmpty_eq, QString.eq, List.isEmpty_eq_false, beq_eq_false_iff_ne,
      ne_eq] at *
    constructor
    · intro hne heq
      exact h1 ⟨by rw [← heq]; exact hne, heq⟩
    · intro hne heq
      exact h2 ⟨by rw [← heq]; exact hne, heq⟩

theorem uniqueNames_run (ops : List RenDirOp) :
    ∀ d : RenDirDialog, uniqueNames d.m_actions → uniqueNames (d.run ops).m_actions := by
  induction ops with
  | nil => intro d h; exact h
  | cons op ops ih =>
    intro d h
    unfold RenDirDialog.run
    rw [List.foldl_cons]
    apply ih
    cases op with
    | clearActions => exact List.Pairwise.nil
    | addAction type src dest => exact uniqueNames_addAction d type src dest h

/-- C24. In every state of the action list reachable from the empty list through
`clearActions` and `addAction`, no two scheduled actions have the same
non-empty source and no two have the same non-empty destination; and an
`addAction` call whose non-empty source is the source of a scheduled action, or
whose non-empty destination is the destination of one, leaves the list, and
the dialog, unchanged. -/
theorem scheduled_names_are_unique (ops : List RenDirOp) (aborted : Bool) (d : RenDirDialog)
    (type : RenameActionType) (src dest : QString) :
    (RenDirDialog.run { m_actions := [], m_aborted := aborted } ops).m_actions.Pairwise
      (fun a b =>
        (a.m_src.isEmpty = false → a.m_src.eq b.m_src = false) ∧
        (a.m_dest.isEmpty = false → a.m_dest.eq b.m_dest = false)) ∧
    ((src.isEmpty = false ∧ ∃ a ∈ d.m_actions, a.m_src.eq src = true) ∨
      (dest.isEmpty = false ∧ ∃ a ∈ d.m_actions, a.m_dest.eq dest = true) →
      d.addAction type src dest = d) := by
  refine ⟨uniqueNames_run ops _ List.Pairwise.nil, ?_⟩
  rintro (⟨hs, a, ha, heq⟩ | ⟨hd, a, ha, heq⟩)
  · exact addAction_of_conflict d type src dest a ha (by simp [actionConflicts, hs, heq])
  · exact addAction_of_conflict d type src dest a ha (by simp [actionConflicts, hd, heq])

theorem scheduled_names_are_unique_witness :
    ((qstr "/m/a").isEmpty = false ∧
      ∃ a ∈ (RenDirDialog.run { m_actions := [], m_aborted := false }
          [RenDirOp.addAction RenameActionType.RenameDirectory (qstr "/m/a") (qstr "/m/b"),
           RenDirOp.addAction RenameActionType.CreateDirectory none (qstr "/m/c")]).m_actions,
        a.m_src.eq (qstr "/m/a") = true) ∧
    (RenDirDialog.run { m_actions := [], m_aborted := false }
        [RenDirOp.addAction RenameActionType.RenameDirectory (qstr "/m/a") (qstr "/m/b"),
         RenDirOp.addAction RenameActionType.CreateDirectory none (qstr "/m/c")]).addAction
        RenameActionType.RenameDirectory (qstr "/m/a") (qstr "/m/d")
      = RenDirDialog.run { m_actions := [], m_aborted := false }
        [RenDirOp.addAction RenameActionType.RenameDirectory (qstr "/m/a") (qstr "/m/b"),
         RenDirOp.addAction RenameActionType.CreateDirectory none (qstr "/m/c")] ∧
    (RenDirDialog.run { m_actions := [], m_aborted := false }
        [RenDirOp.addAction RenameActionType.RenameDirectory (qstr "/m/a") (qstr "/m/b"),
         RenDirOp.addAction RenameActionType.CreateDirectory none (qstr "/m/c"),
         RenDirOp.addAction RenameActionType.CreateDirectory none (qstr "/m/c")]).m_actions
      = [{ m_type := RenameActionType.RenameDirectory, m_src := qstr "/m/a",
           m_dest := qstr "/m/b" },
         { m_type := RenameActionType.CreateDirectory, m_src := none, m_dest := qstr "/m/c" }] :=
  ⟨by decide,
   (scheduled_names_are_unique [] false
      (RenDirDialog.run { m_actions := [], m_aborted := false }
        [RenDirOp.addAction RenameActionType.RenameDirectory (qstr "/m/a") (qstr "/m/b"),
         RenDirOp.addAction RenameActionType.CreateDirectory none (qstr "/m/c")])
      RenameActionType.RenameDirectory (qstr "/m/a") (qstr "/m/d")).2 (Or.inl (by decide)),
   by decide⟩

theorem findRename_eq_none_iff (actions : List RenameAction) (r : QString) :
    findRename actions r = none ↔
      ∀ a ∈ actions,
        ¬(a.m_type = RenameActionType.RenameDirectory ∧ a.m_src.eq r = true) := by
  unfold findRename
  simp only [Option.map_eq_none', List.find?_eq_none, Bool.and_eq_true, decide_eq_true_eq]

theorem replaceLoop_end_or_full (actions : List RenameAction) :
    ∀ (n : Nat) (src : QString),
      findRename actions (replaceLoop actions n src) = none ∨
        followRenames actions n src = some (replaceLoop actions n src) := by
  intro n
  induction n with
  | zero => intro src; exact Or.inr rfl
  | succ n ih =>
    intro src
    cases h : findRename actions src with
    | none =>
      left
      simp only [replaceLoop, h]
    | some dest =>
      simp only [replaceLoop, followRenames, h]
      exact ih dest

theorem replaceLoop_of_chain_end (actions : List RenameAction) :
    ∀ (k n : Nat) (src r : QString), k ≤ n → followRenames actions k src = some r →
      findRename actions r = none → replaceLoop actions n src = r := by
  intro k
  induction k with
  | zero =>
    intro n src r _ hf hend
    simp only [followRenames, Option.some.injEq] at hf
    subst hf
    cases n with
    | zero => rfl
    | succ m => simp only [replaceLoop, hend]
  | succ k ih =>
    intro n src r hkn hf hend
    cases n with
    | zero => omega
    | succ m =>
      cases h : findRename actions src with
      | none => simp [followRenames, h] at hf
      | some dest =>
        simp only [followRenames, h] at hf
        simp only [replaceLoop, h]
        exact ih m dest r (by omega) hf hend

theorem replaceLoop_of_full_chain (actions : List RenameAction) :
    ∀ (n : Nat) (src r : QString), followRenames actions n src = some r →
      replaceLoop actions n src = r := by
  intro n
  induction n with
  | zero =>
    intro src r hf
    simp only [followRenames, Option.some.injEq] at hf
    exact hf
  | succ n ih =>
    intro src r hf
    cases h : findRename actions src with
    | none => simp [followRenames, h] at hf
    | some dest =>
      simp only [followRenames, h] at hf
      simp only [replaceLoop, h]
      exact ih dest r hf

/-- C29, counterexample. With six directory renames scheduled in a chain
`/d0 -> /d1 -> ... -> /d6`, `replaceIfAlreadyRenamed` turns `/d0` into `/d5`, the
source of the sixth action; with the two renames `/a -> /b` and `/b -> /a` it
turns `/a` into `/b`, the source of the second. -/
theorem rename_chain_cut_after_five_links :
    (RenDirDialog.run { m_actions := [], m_aborted := false }
        [RenDirOp.addAction RenameActionType.RenameDirectory (qstr "/d0") (qstr "/d1"),
         RenDirOp.addAction RenameActionType.RenameDirectory (qstr "/d1") (qstr "/d2"),
         RenDirOp.addAction RenameActionType.RenameDirectory (qstr "/d2") (qstr "/d3"),
         RenDirOp.addAction RenameActionType.RenameDirectory (qstr "/d3") (qstr "/d4"),
         RenDirOp.addAction RenameActionType.RenameDirectory (qstr "/d4") (qstr "/d5"),
         RenDirOp.addAction RenameActionType.RenameDirectory (qstr "/d5") (qstr "/d6")]
      ).replaceIfAlreadyRenamed (qstr "/d0") = qstr "/d5" ∧
    { m_type := RenameActionType.RenameDirectory, m_src := qstr "/d5", m_dest := qstr "/d6" }
      ∈ (RenDirDialog.run { m_actions := [], m_aborted := false }
        [RenDirOp.addAction RenameActionType.RenameDirectory (qstr "/d0") (qstr "/d1"),
         RenDirOp.addAction RenameActionType.RenameDirectory (qstr "/d1") (qstr "/d2"),
         RenDirOp.addAction RenameActionType.RenameDirectory (qstr "/d2") (qstr "/d3"),
         RenDirOp.addAction RenameActionType.RenameDirectory (qstr "/d3") (qstr "/d4"),
         RenDirOp.addAction RenameActionType.RenameDirectory (qstr "/d4") (qstr "/d5"),
         RenDirOp.addAction RenameActionType.RenameDirectory (qstr "/d5") (qstr "/d6")]
      ).m_actions ∧
    (RenDirDialog.run { m_actions := [], m_aborted := false }
        [RenDirOp.addAction RenameActionType.RenameDirectory (qstr "/a") (qstr "/b"),
         RenDirOp.addAction RenameActionType.RenameDirectory (qstr "/b") (qstr "/a")]
      ).replaceIfAlreadyRenamed (qstr "/a") = qstr "/b" ∧
    { m_type := RenameActionType.RenameDirectory, m_src := qstr "/b", m_dest := qstr "/a" }
      ∈ (RenDirDialog.run { m_actions := [], m_aborted := false }
        [RenDirOp.addAction RenameActionType.RenameDirectory (qstr "/a") (qstr "/b"),
         RenDirOp.addAction RenameActionType.RenameDirectory (qstr "/b") (qstr "/a")]
      ).m_actions := by
  decide

/-- C29, amended. `RenDirDialog::replaceIfAlreadyRenamed` follows the chain of
scheduled directory renames for at most five links: when the chain that starts
at the name ends after at most five renames, the result is the end of the
chain and no scheduled `RenameDirectory` action has it as its source;
otherwise the result is the name five renames along the chain, and whenever
the chain has five links the result is the name five renames along it. -/
theorem rename_chain_followed_five_links (d : RenDirDialog) (src : QString) :
    ((∀ a ∈ d.m_actions, ¬(a.m_type = RenameActionType.RenameDirectory ∧
          a.m_src.eq (d.replaceIfAlreadyRenamed src) = true)) ∨
      followRenames d.m_actions 5 src = some (d.replaceIfAlreadyRenamed src)) ∧
    (∀ (k : Nat) (r : QString), k ≤ 5 → followRenames d.m_actions k src = some r →
      (∀ a ∈ d.m_actions,
        ¬(a.m_type = RenameActionType.RenameDirectory ∧ a.m_src.eq r = true)) →
      d.replaceIfAlreadyRenamed src = r) ∧
    (∀ r : QString, followRenames d.m_actions 5 src = some r →
      d.replaceIfAlreadyRenamed src = r) := by
  refine ⟨?_, ?_, ?_⟩
  · rcases replaceLoop_end_or_full d.m_actions 5 src with h | h
    · exact Or.inl ((findRename_eq_none_iff _ _).mp h)
    · exact Or.inr h
  · intro k r hk hf hend
    exact replaceLoop_of_chain_end d.m_actions k 5 src r hk hf
      ((findRename_eq_none_iff _ _).mpr hend)
  · intro r hf
    exact replaceLoop_of_full_chain d.m_actions 5 src r hf

theorem rename_chain_followed_five_links_witness :
    (2 : Nat) ≤ 5 ∧
    followRenames
      [{ m_type := RenameActionType.RenameDirectory, m_src := qstr "/a", m_dest := qstr "/b" },
       { m_type := RenameActionType.CreateDirectory, m_src := none, m_dest := qstr "/x" },
       { m_type := RenameActionType.RenameDirectory, m_src := qstr "/b", m_dest := qstr "/c" }]
      2 (qstr "/a") = some (qstr "/c") ∧
    RenDirDialog.replaceIfAlreadyRenamed
      { m_actions :=
          [{ m_type := RenameActionType.RenameDirectory, m_src := qstr "/a",
             m_dest := qstr "/b" },
           { m_type := RenameActionType.CreateDirectory, m_src := none, m_dest := qstr "/x" },
           { m_type := RenameActionType.RenameDirectory, m_src := qstr "/b",
             m_dest := qstr "/c" }],
        m_aborted := false } (qstr "/a") = qstr "/c" ∧
    followRenames
      [{ m_type := RenameActionType.RenameDirectory, m_src := qstr "/a", m_dest := qstr "/b" },
       { m_type := RenameActionType.RenameDirectory, m_src := qstr "/b", m_dest := qstr "/a" }]
      5 (qstr "/a") = some (qstr "/b") ∧
    RenDirDialog.replaceIfAlreadyRenamed
      { m_actions :=
          [{ m_type := RenameActionType.RenameDirectory, m_src := qstr "/a",
             m_dest := qstr "/b" },
           { m_type := RenameActionType.RenameDirectory, m_src := qstr "/b",
             m_dest := qstr "/a" }],
        m_aborted := false } (qstr "/a") = qstr "/b" :=
  ⟨by decide, by decide,
   (rename_chain_followed_five_links
      { m_actions :=
          [{ m_type := RenameActionType.RenameDirectory, m_src := qstr "/a",
             m_dest := qstr "/b" },
           { m_type := RenameActionType.CreateDirectory, m_src := none, m_dest := qstr "/x" },
           { m_type := RenameActionType.RenameDirectory, m_src := qstr "/b",
             m_dest := qstr "/c" }],
        m_aborted := false } (qstr "/a")).2.1 2 (qstr "/c") (by decide) (by decide)
      (by decide),
   by decide,
   (rename_chain_followed_five_links
      { m_actions :=
          [{ m_type := RenameActionType.RenameDirectory, m_src := qstr "/a",
             m_dest := qstr "/b" },
           { m_type := RenameActionType.RenameDirectory, m_src := qstr "/b",
             m_dest := qstr "/a" }],
        m_aborted := false } (qstr "/a")).2.2 (qstr "/b") (by decide)⟩

/-! ## Scheduling new directory levels -/

theorem joinSlash_cons (c : List Nat) (rest : List (List Nat)) :
    joinSlash (c :: rest) = 47 :: c ++ joinSlash rest := by
  simp [joinSlash]

theorem startsWith_append (pre tail : List Nat) (h : tail ≠ []) :
    QString.startsWith (some (pre ++ tail)) (some pre) = true := by
  unfold QString.startsWith
  have hne : (pre ++ tail).isEmpty = false := by
    cases pre <;> cases tail <;> simp_all
  simp [hne, QString.length]

theorem midFrom_append (pre tail : List Nat) :
    QString.midFrom (some (pre ++ tail)) (QString.length (some pre)) = some tail := by
  unfold QString.midFrom
  simp [QString.length]

theorem find_slash_last (c : List Nat) (hc : 47 ∉ c) :
    QString.find (some (47 :: c)) 47 1 = -1 := by
  unfold QString.find
  have hi : List.indexOf 47 c = c.length := List.indexOf_eq_length.mpr hc
  simp [hi]

theorem find_slash_more (c tail : List Nat) (hc : 47 ∉ c) :
    QString.find (some (47 :: c ++ 47 :: tail)) 47 1 = ((1 + c.length : Nat) : Int) := by
  unfold QString.find
  have hi : List.indexOf 47 (c ++ 47 :: tail) = c.length := by
    rw [List.indexOf_append_of_not_mem hc, List.indexOf_cons_self]
    rfl
  simp only [List.cons_append, List.drop_succ_cons, List.drop_zero, hi, List.length_append,
    List.length_cons]
  rw [if_pos (by omega)]

theorem createDirLoop_stop (filename dirWithFiles newDirname currentDirname : QString)
    (d : RenDirDialog) (n : Nat) :
    createDirLoop filename dirWithFiles newDirname n false currentDirname d
      = (currentDirname, d) := by
  cases n <;> simp [createDirLoop]

theorem createDirLoop_more (filename dirWithFiles : QString) (pre c c2 : List Nat)
    (rest : List (List Nat)) (n : Nat) (d : RenDirDialog) (hc : 47 ∉ c) (hc2 : c2 ≠ []) :
    createDirLoop filename dirWithFiles (some (pre ++ joinSlash (c :: c2 :: rest))) (n + 1) true
        (some pre) d
      = createDirLoop filename dirWithFiles (some (pre ++ joinSlash (c :: c2 :: rest))) n true
          (some (pre ++ 47 :: c))
          (d.addActionDest RenameActionType.CreateDirectory (some (pre ++ 47 :: c))) := by
  have hj : joinSlash (c :: c2 :: rest) = 47 :: c ++ 47 :: (c2 ++ joinSlash rest) := by
    simp [joinSlash_cons]
  have hs := startsWith_append pre (joinSlash (c :: c2 :: rest)) (by rw [hj]; simp)
  have hm := midFrom_append pre (joinSlash (c :: c2 :: rest))
  have hfind := find_slash_more c (c2 ++ joinSlash rest) hc
  have hlen2 : 1 ≤ c2.length := by
    cases c2 with
    | nil => exact absurd rfl hc2
    | cons a l => simp
  have h47 : ('/').toNat = 47 := rfl
  rw [createDirLoop]
  simp only [hs, Bool.and_self, if_true, hm, h47]
  rw [hj, hfind]
  have hsplit : decide (((1 + c.length : Nat) : Int) ≠ -1 ∧
      ((1 + c.length : Nat) : Int)
        ≠ ((QString.length (some (47 :: c ++ 47 :: (c2 ++ joinSlash rest))) : Nat) : Int) - 1)
      = true := by
    simp only [QString.length, List.cons_append, List.length_cons, List.length_append,
      decide_eq_true_eq]
    constructor <;> omega
  have htr : QString.truncate (some (47 :: c ++ 47 :: (c2 ++ joinSlash rest)))
      (((1 + c.length : Nat) : Int)).toNat = some (47 :: c) := by
    unfold QString.truncate
    simp only [Int.toNat_ofNat, List.cons_append, List.length_cons, List.length_append]
    rw [if_pos (by omega)]
    have : 1 + c.length = (47 :: c).length := by simp; omega
    rw [this]
    simp [List.take_left']
  simp only [hsplit, if_true, htr, Bool.not_true, Bool.false_eq_true, if_false,
    QString.append, Option.getD_some]

theorem createDirLoop_last (filename dirWithFiles : QString) (pre c : List Nat) (n : Nat)
    (d : RenDirDialog) (hc : 47 ∉ c) :
    createDirLoop filename dirWithFiles (some (pre ++ joinSlash [c])) (n + 1) true (some pre) d
      = (some (pre ++ 47 :: c),
          (d.addActionDest RenameActionType.CreateDirectory (some (pre ++ 47 :: c))).addAction
            RenameActionType.RenameFile
            ((dirWithFiles.appendChar 47).append filename)
            (some (pre ++ 47 :: c ++ 47 :: filename.getD []))) := by
  have hj : joinSlash [c] = 47 :: c := by simp [joinSlash]
  have hs := startsWith_append pre (joinSlash [c]) (by rw [hj]; simp)
  have hm := midFrom_append pre (joinSlash [c])
  have hfind := find_slash_last c hc
  have h47 : ('/').toNat = 47 := rfl
  rw [createDirLoop]
  simp only [hs, Bool.and_self, if_true, hm, h47]
  rw [hj, hfind]
  simp only [ne_eq, not_true_eq_false, false_and, decide_False, Bool.false_eq_true, if_false,
    Bool.not_false, if_true, createDirLoop_stop]
  congr 2
  cases filename <;> simp [QString.append, QString.appendChar]

theorem addActionDest_fresh (d : RenDirDialog) (pre tail : List Nat) (htail : tail ≠ [])
    (hfresh : ∀ a ∈ d.m_actions,
      a.m_src.getD [] = [] ∧ (a.m_dest.getD []).length ≤ pre.length) :
    d.addActionDest RenameActionType.CreateDirectory (some (pre ++ tail))
      = { d with m_actions := d.m_actions ++
            [{ m_type := RenameActionType.CreateDirectory, m_src := none,
               m_dest := some (pre ++ tail) }] } := by
  unfold RenDirDialog.addActionDest
  apply addAction_of_no_conflict
  intro a ha
  rw [not_conflict_iff]
  have hlen : 1 ≤ tail.length := by
    cases tail with
    | nil => exact absurd rfl htail
    | cons x l => simp
  constructor
  · simp
  · rintro ⟨_, heq⟩
    have h1 := (hfresh a ha).2
    rw [heq] at h1
    simp only [Option.getD_some, List.length_append] at h1
    omega

theorem addAction_rename_fresh (d : RenDirDialog) (src : QString) (pre tail : List Nat)
    (hsrc : src.getD [] ≠ []) (htail : tail ≠ [])
    (hfresh : ∀ a ∈ d.m_actions,
      a.m_src.getD [] = [] ∧ (a.m_dest.getD []).length ≤ pre.length) :
    d.addAction RenameActionType.RenameFile src (some (pre ++ tail))
      = { d with m_actions := d.m_actions ++
            [{ m_type := RenameActionType.RenameFile, m_src := src,
               m_dest := some (pre ++ tail) }] } := by
  apply addAction_of_no_conflict
  intro a ha
  rw [not_conflict_iff]
  have hlen : 1 ≤ tail.length := by
    cases tail with
    | nil => exact absurd rfl htail
    | cons x l => simp
  constructor
  · rintro ⟨_, heq⟩
    rw [(hfresh a ha).1] at heq
    exact hsrc heq.symm
  · rintro ⟨_, heq⟩
    have h1 := (hfresh a ha).2
    rw [heq] at h1
    simp only [Option.getD_some, List.length_append] at h1
    omega

theorem createDirLoop_levels (filename dirWithFiles : QString) (comps : List (List Nat)) :
    ∀ (n : Nat) (pre : List Nat) (d : RenDirDialog), comps ≠ [] → comps.length ≤ n →
      (∀ c ∈ comps, c ≠ [] ∧ 47 ∉ c) →
      (∀ a ∈ d.m_actions, a.m_src.getD [] = [] ∧ (a.m_dest.getD []).length ≤ pre.length) →
      createDirLoop filename dirWithFiles (some (pre ++ joinSlash comps)) n true (some pre) d
        = (some (pre ++ joinSlash comps),
            { d with m_actions := d.m_actions ++ createActions pre comps ++
                [{ m_type := RenameActionType.RenameFile,
                   m_src := (dirWithFiles.appendChar 47).append filename,
                   m_dest := some (pre ++ joinSlash comps ++ 47 :: filename.getD []) }] }) := by
  induction comps with
  | nil => intro n pre d hne; exact absurd rfl hne
  | cons c tl ih =>
    intro n pre d _ hlen hwf hfresh
    have hc := hwf c (List.mem_cons_self c tl)
    cases n with
    | zero => simp at hlen
    | succ m =>
      have hsrc : ((dirWithFiles.appendChar 47).append filename).getD [] ≠ [] := by
        cases filename <;> simp [QString.append, QString.appendChar]
      cases tl with
      | nil =>
        rw [createDirLoop_last filename dirWithFiles pre c m d hc.2]
        rw [addActionDest_fresh d pre (47 :: c) (by simp) hfresh]
        have hj : joinSlash [c] = 47 :: c := by simp [joinSlash]
        have hassoc : pre ++ 47 :: c ++ 47 :: filename.getD []
            = (pre ++ 47 :: c) ++ 47 :: filename.getD [] := by simp
        rw [hassoc, addAction_rename_fresh _ _ (pre ++ 47 :: c) (47 :: filename.getD []) hsrc
          (by simp)]
        · simp [createActions, hj]
        · intro a ha
          simp only [List.mem_append, List.mem_singleton] at ha
          rcases ha with ha | ha
          · have := hfresh a ha
            exact ⟨this.1, by simp; omega⟩
          · subst ha
            simp
      | cons c2 rest =>
        have hc2 := hwf c2 (List.mem_cons_of_mem c (List.mem_cons_self c2 rest))
        rw [createDirLoop_more filename dirWithFiles pre c c2 rest m d hc.2 hc2.1]
        rw [addActionDest_fresh d pre (47 :: c) (by simp) hfresh]
        have hnew : pre ++ joinSlash (c :: c2 :: rest)
            = (pre ++ 47 :: c) ++ joinSlash (c2 :: rest) := by
          rw [joinSlash_cons c (c2 :: rest)]
          simp
        rw [hnew]
        rw [ih m (pre ++ 47 :: c) _ (by simp) (by simpa using hlen)
          (fun x hx => hwf x (List.mem_cons_of_mem c hx))]
        · simp [createActions]
        · intro a ha
          simp only [List.mem_append, List.mem_singleton] at ha
          rcases ha with ha | ha
          · have := hfresh a ha
            exact ⟨this.1, by simp; omega⟩
          · subst ha
            simp

theorem createDirLoop_cut (filename dirWithFiles : QString) (comps : List (List Nat)) :
    ∀ (n : Nat) (pre : List Nat) (d : RenDirDialog), n < comps.length →
      (∀ c ∈ comps, c ≠ [] ∧ 47 ∉ c) →
      (∀ a ∈ d.m_actions, a.m_src.getD [] = [] ∧ (a.m_dest.getD []).length ≤ pre.length) →
      createDirLoop filename dirWithFiles (some (pre ++ joinSlash comps)) n true (some pre) d
        = (some (pre ++ joinSlash (comps.take n)),
            { d with m_actions := d.m_actions ++ createActions pre (comps.take n) }) := by
  induction comps with
  | nil => intro n pre d hlen; simp at hlen
  | cons c tl ih =>
    intro n pre d hlen hwf hfresh
    have hc := hwf c (List.mem_cons_self c tl)
    cases n with
    | zero => simp [createDirLoop, joinSlash, createActions]
    | succ m =>
      have hm : m < tl.length := by simpa using hlen
      cases tl with
      | nil => simp at hm
      | cons c2 rest =>
        have hc2 := hwf c2 (List.mem_cons_of_mem c (List.mem_cons_self c2 rest))
        rw [createDirLoop_more filename dirWithFiles pre c c2 rest m d hc.2 hc2.1]
        rw [addActionDest_fresh d pre (47 :: c) (by simp) hfresh]
        have hnew : pre ++ joinSlash (c :: c2 :: rest)
            = (pre ++ 47 :: c) ++ joinSlash (c2 :: rest) := by
          rw [joinSlash_cons c (c2 :: rest)]
          simp
        rw [hnew]
        rw [ih m (pre ++ 47 :: c) _ hm (fun x hx => hwf x (List.mem_cons_of_mem c hx))]
        · rw [List.take_succ_cons, joinSlash_cons c]
          simp [createActions]
        · intro a ha
          simp only [List.mem_append, List.mem_singleton] at ha
          rcases ha with ha | ha
          · have := hfresh a ha
            exact ⟨this.1, by simp; omega⟩
          · subst ha
            simp

theorem createActions_length (comps : List (List Nat)) :
    ∀ pre : List Nat, (createActions pre comps).length = comps.length := by
  induction comps with
  | nil => intro pre; rfl
  | cons c tl ih => intro pre; simp [createActions, ih]

theorem createActions_type (comps : List (List Nat)) :
    ∀ (pre : List Nat), ∀ a ∈ createActions pre comps,
      a.m_type = RenameActionType.CreateDirectory := by
  induction comps with
  | nil => intro pre a ha; simp [createActions] at ha
  | cons c tl ih =>
    intro pre a ha
    simp only [createActions, List.mem_cons] at ha
    rcases ha with ha | ha
    · rw [ha]
    · exact ih _ a ha

/-- C30, counterexample. With the current directory `/m`, the new directory
`/m/a/b/c/d/e/f` (six new levels) and an empty action list, `scheduleAction`
schedules the `CreateDirectory` actions for the first five levels only, and no
`RenameFile` action. -/
theorem six_levels_schedule_no_move :
    (RenDirDialog.scheduleAction (fun _ => false) (qstr "New directory name is too different\n")
        (qstr "x.mp3") (qstr "/m/a/b/c/d/e/f") (qstr "/m")
        { m_actions := [], m_aborted := false }).m_actions
      = [{ m_type := RenameActionType.CreateDirectory, m_src := none, m_dest := qstr "/m/a" },
         { m_type := RenameActionType.CreateDirectory, m_src := none, m_dest := qstr "/m/a/b" },
         { m_type := RenameActionType.CreateDirectory, m_src := none,
           m_dest := qstr "/m/a/b/c" },
         { m_type := RenameActionType.CreateDirectory, m_src := none,
           m_dest := qstr "/m/a/b/c/d" },
         { m_type := RenameActionType.CreateDirectory, m_src := none,
           m_dest := qstr "/m/a/b/c/d/e" }] := by
  decide

/-- C30, amended. When the new directory name is the current one followed by
further path levels `/c1/.../cn` (each a non-empty name without `/`),
`RenDirDialog::scheduleAction`, starting from an empty action list, schedules
for one to five new levels one `CreateDirectory` action for each level,
outermost first, and then one `RenameFile` action that moves the file from the
current directory into the deepest new directory; for more than five new levels
it schedules the `CreateDirectory` actions of the first five levels and nothing
else, so no `RenameFile` action. -/
theorem new_levels_are_scheduled (isDir : QString → Bool) (tooDifferent filename : QString)
    (cur : List Nat) (comps : List (List Nat)) (aborted : Bool)
    (hne : comps ≠ []) (hwf : ∀ c ∈ comps, c ≠ [] ∧ 47 ∉ c) :
    (comps.length ≤ 5 →
      RenDirDialog.scheduleAction isDir tooDifferent filename (some (cur ++ joinSlash comps))
          (some cur) { m_actions := [], m_aborted := aborted }
        = { m_actions := createActions cur comps ++
              [{ m_type := RenameActionType.RenameFile,
                 m_src := some (cur ++ 47 :: filename.getD []),
                 m_dest := some (cur ++ joinSlash comps ++ 47 :: filename.getD []) }],
            m_aborted := aborted }) ∧
    (5 < comps.length →
      RenDirDialog.scheduleAction isDir tooDifferent filename (some (cur ++ joinSlash comps))
          (some cur) { m_actions := [], m_aborted := aborted }
        = { m_actions := createActions cur (comps.take 5), m_aborted := aborted } ∧
      (createActions cur (comps.take 5)).length = 5 ∧
      ∀ a ∈ createActions cur (comps.take 5),
        a.m_type = RenameActionType.CreateDirectory) := by
  obtain ⟨c, tl, rfl⟩ := List.exists_cons_of_ne_nil hne
  have hc := hwf c (List.mem_cons_self c tl)
  have h47 : ('/').toNat = 47 := rfl
  have hrep : RenDirDialog.replaceIfAlreadyRenamed { m_actions := [], m_aborted := aborted }
      (some cur) = some cur := by
    simp [RenDirDialog.replaceIfAlreadyRenamed, replaceLoop, findRename]
  have hneq : QString.ne (some (cur ++ joinSlash (c :: tl))) (some cur) = true := by
    simp [QString.ne, joinSlash_cons]
  have hstart : QString.startsWith (some (cur ++ joinSlash (c :: tl)))
      (QString.appendChar (some cur) 47) = true := by
    have : cur ++ joinSlash (c :: tl) = (cur ++ [47]) ++ (c ++ joinSlash tl) := by
      simp [joinSlash_cons]
    rw [this]
    have hs := startsWith_append (cur ++ [47]) (c ++ joinSlash tl) (by simp [hc.1])
    simpa [QString.appendChar] using hs
  have hsrc : (QString.appendChar (some cur) 47).append filename
      = some (cur ++ 47 :: filename.getD []) := by
    cases filename <;> simp [QString.append, QString.appendChar]
  constructor
  · intro hlen
    have hloop := createDirLoop_levels filename (some cur) (c :: tl) 5 cur
      { m_actions := [], m_aborted := aborted } (by simp) hlen hwf (by simp)
    unfold RenDirDialog.scheduleAction scheduleRound
    simp only [hrep, hneq, if_true, h47, hstart, hloop, hsrc, Bool.not_false, List.nil_append]
  · intro hlen
    have hloop := createDirLoop_cut filename (some cur) (c :: tl) 5 cur
      { m_actions := [], m_aborted := aborted } hlen hwf (by simp)
    refine ⟨?_, ?_, createActions_type _ cur⟩
    · unfold RenDirDialog.scheduleAction scheduleRound
      simp only [hrep, hneq, if_true, h47, hstart, hloop, Bool.not_false, List.nil_append]
    · rw [createActions_length, List.length_take]
      omega

theorem new_levels_are_scheduled_witness :
    [units "a", units "b"] ≠ [] ∧ [units "a", units "b"].length ≤ 5 ∧
    (∀ c ∈ [units "a", units "b"], c ≠ [] ∧ 47 ∉ c) ∧
    RenDirDialog.scheduleAction (fun _ => false) (qstr "error") (qstr "x.mp3")
        (some (units "/m" ++ joinSlash [units "a", units "b"])) (some (units "/m"))
        { m_actions := [], m_aborted := false }
      = { m_actions := createActions (units "/m") [units "a", units "b"] ++
            [{ m_type := RenameActionType.RenameFile,
               m_src := some (units "/m" ++ 47 :: (qstr "x.mp3").getD []),
               m_dest := some (units "/m" ++ joinSlash [units "a", units "b"] ++
                 47 :: (qstr "x.mp3").getD []) }],
          m_aborted := false } ∧
    createActions (units "/m") [units "a", units "b"] ++
        [{ m_type := RenameActionType.RenameFile,
           m_src := some (units "/m" ++ 47 :: (qstr "x.mp3").getD []),
           m_dest := some (units "/m" ++ joinSlash [units "a", units "b"] ++
             47 :: (qstr "x.mp3").getD []) }]
      = [{ m_type := RenameActionType.CreateDirectory, m_src := none, m_dest := qstr "/m/a" },
         { m_type := RenameActionType.CreateDirectory, m_src := none, m_dest := qstr "/m/a/b" },
         { m_type := RenameActionType.RenameFile, m_src := qstr "/m/x.mp3",
           m_dest := qstr "/m/a/b/x.mp3" }] ∧
    5 < [units "a", units "b", units "c", units "d", units "e", units "f", units "g"].length ∧
    RenDirDialog.scheduleAction (fun _ => false) (qstr "error") (qstr "x.mp3")
        (some (units "/m" ++ joinSlash
          [units "a", units "b", units "c", units "d", units "e", units "f", units "g"]))
        (some (units "/m")) { m_actions := [], m_aborted := false }
      = { m_actions := createActions (units "/m")
            ([units "a", units "b", units "c", units "d", units "e", units "f",
              units "g"].take 5),
          m_aborted := false } :=
  ⟨by decide, by decide, by decide,
   (new_levels_are_scheduled (fun _ => false) (qstr "error") (qstr "x.mp3") (units "/m")
     [units "a", units "b"] false (by decide) (by decide)).1 (by decide),
   by decide, by decide,
   ((new_levels_are_scheduled (fun _ => false) (qstr "error") (qstr "x.mp3") (units "/m")
     [units "a", units "b", units "c", units "d", units "e", units "f", units "g"] false
     (by decide) (by decide)).2 (by decide)).1⟩

/-! ## First element of the file list -/

theorem command_codeName_cases (code : QString) :
    codeName CommandFormatReplacer.shortToLong code = none ∨
    codeName CommandFormatReplacer.shortToLong code = qstr "browser" ∨
    (codeName CommandFormatReplacer.shortToLong code = code ∧ 1 < code.length) ∨
    (code = some [102] ∧ codeName CommandFormatReplacer.shortToLong code = qstr "file") ∨
    (code = some [100] ∧ codeName CommandFormatReplacer.shortToLong code = qstr "directory") := by
  unfold codeName
  by_cases h1 : code.length = 1
  · rw [if_pos h1]
    cases code with
    | none => simp [QString.length] at h1
    | some l =>
      match l, h1 with
      | [u], _ =>
        simp only [Option.getD_some, List.headD_cons, QChar.toLatin1]
        by_cases hu : 0xff < u
        · left
          rw [if_pos hu]
          decide
        · rw [if_neg hu]
          by_cases hf : u = 102
          · subst hf; right; right; right; left; exact ⟨rfl, by decide⟩
          · by_cases hd : u = 100
            · subst hd; right; right; right; right; exact ⟨rfl, by decide⟩
            · by_cases hb : u = 98
              · subst hb; right; left; decide
              · left
                apply lookupShortCode_none
                intro e he
                simp only [CommandFormatReplacer.shortToLong, List.mem_cons, List.mem_singleton,
                  List.not_mem_nil, or_false] at he
                rcases he with rfl | rfl | rfl
                · exact fun h => hf h.symm
                · exact fun h => hd h.symm
                · exact fun h => hb h.symm
  · rw [if_neg h1]
    by_cases h2 : 1 < code.length
    · rw [if_pos h2]
      exact Or.inr (Or.inr (Or.inl ⟨rfl, h2⟩))
    · rw [if_neg h2]
      exact Or.inl rfl

theorem eqLit_iff_of_long (code : QString) (lit : String) (h : 1 < code.length) :
    code.eqLit lit = true ↔ code = qstr lit := by
  cases code with
  | none => simp [QString.length] at h
  | some l =>
    simp only [QString.eqLit, Option.getD_some, beq_iff_eq, qstr, Option.some.injEq]

/-- C27. Where `CommandFormatReplacer::getReplacement` has a defined result: with
a non-empty list of files always; with the empty list for every code except
`f`, `file`, `d` and `directory`.  For these four codes, when the base
`FrameFormatReplacer` yields null, the function reads `m_files.front()` of the
empty list, where the result is not defined; the name `url` tests the list
first and yields the null string. -/
theorem front_of_empty_list_is_read (env : ReplacerEnv) (files : List QString) (isDir : Bool)
    (code : QString) :
    (files ≠ [] → (CommandFormatReplacer.getReplacement env files isDir code).isSome = true) ∧
    (env.base code = none →
      code ∈ [some [102], qstr "file", some [100], qstr "directory"] →
      CommandFormatReplacer.getReplacement env [] isDir code = none) ∧
    (code ∉ [some [102], qstr "file", some [100], qstr "directory"] →
      (CommandFormatReplacer.getReplacement env [] isDir code).isSome = true) ∧
    (env.base (qstr "url") = none →
      CommandFormatReplacer.getReplacement env [] isDir (qstr "url") = some none) := by
  have efile : (qstr "file").eqLit "file" = true := by decide
  have edir1 : (qstr "directory").eqLit "file" = false := by decide
  have edir2 : (qstr "directory").eqLit "directory" = true := by decide
  have nfile : (qstr "file").isNull = false := rfl
  have ndir : (qstr "directory").isNull = false := rfl
  have hnull : QString.isNull none = true := rfl
  refine ⟨?_, ?_, ?_, ?_⟩
  · intro hne
    unfold CommandFormatReplacer.getReplacement
    cases files with
    | nil => exact absurd rfl hne
    | cons a l =>
      simp only [CommandFormatReplacer.replaceName, List.head?_cons]
      split_ifs <;> simp
  · intro hbase hmem
    have hname : codeName CommandFormatReplacer.shortToLong code = qstr "file" ∨
        codeName CommandFormatReplacer.shortToLong code = qstr "directory" := by
      simp only [List.mem_cons, List.mem_singleton, List.not_mem_nil, or_false] at hmem
      rcases hmem with rfl | rfl | rfl | rfl
      · left; decide
      · left; decide
      · right; decide
      · right; decide
    unfold CommandFormatReplacer.getReplacement
    rcases hname with h | h
    · simp only [hbase, hnull, h, nfile, Bool.not_false, if_true,
        CommandFormatReplacer.replaceName, efile, List.head?_nil]
    · simp only [hbase, hnull, h, ndir, Bool.not_false, if_true,
        CommandFormatReplacer.replaceName, edir1, edir2, Bool.false_eq_true, if_false,
        List.head?_nil]
  · intro hnot
    simp only [List.mem_cons, List.mem_singleton, List.not_mem_nil, or_false, not_or] at hnot
    obtain ⟨n1, n2, n3, n4⟩ := hnot
    unfold CommandFormatReplacer.getReplacement
    simp only
    split_ifs with hb hn
    · have hfalse : (codeName CommandFormatReplacer.shortToLong code).eqLit "file" = false ∧
          (codeName CommandFormatReplacer.shortToLong code).eqLit "directory" = false := by
        rcases command_codeName_cases code with h | h | ⟨h, hl⟩ | ⟨h, _⟩ | ⟨h, _⟩
        · rw [h] at hn; simp [QString.isNull] at hn
        · rw [h]; exact ⟨by decide, by decide⟩
        · rw [h]
          constructor
          · by_contra hc
            exact n2 ((eqLit_iff_of_long code "file" hl).mp (by simpa using hc))
          · by_contra hc
            exact n4 ((eqLit_iff_of_long code "directory" hl).mp (by simpa using hc))
        · exact absurd h n1
        · exact absurd h n3
      simp only [CommandFormatReplacer.replaceName, hfalse.1, hfalse.2, Bool.false_eq_true,
        if_false, List.head?_nil]
      split_ifs <;> simp
    · rfl
    · rfl
  · intro hbase
    have hname : codeName CommandFormatReplacer.shortToLong (qstr "url") = qstr "url" := by
      decide
    have e1 : (qstr "url").eqLit "file" = false := by decide
    have e2 : (qstr "url").eqLit "directory" = false := by decide
    have e3 : (qstr "url").eqLit "browser" = false := by decide
    have e4 : (qstr "url").eqLit "url" = true := by decide
    have nurl : (qstr "url").isNull = false := rfl
    unfold CommandFormatReplacer.getReplacement
    simp only [hbase, hnull, hname, nurl, Bool.not_false, if_true,
      CommandFormatReplacer.replaceName, e1, e2, e3, e4, Bool.false_eq_true, if_false,
      List.head?_nil]

theorem front_of_empty_list_is_read_witness :
    exampleEnv.base (qstr "file") = none ∧
    qstr "file" ∈ [some [102], qstr "file", some [100], qstr "directory"] ∧
    CommandFormatReplacer.getReplacement exampleEnv [] false (qstr "file") = none ∧
    ([qstr "/music/a.mp3"] : List QString) ≠ [] ∧
    (CommandFormatReplacer.getReplacement exampleEnv [qstr "/music/a.mp3"] false
      (qstr "file")).isSome = true ∧
    CommandFormatReplacer.getReplacement exampleEnv [] false (qstr "url") = some none :=
  ⟨rfl, by decide,
   (front_of_empty_list_is_read exampleEnv [] false (qstr "file")).2.1 rfl (by decide),
   by decide,
   (front_of_empty_list_is_read exampleEnv [qstr "/music/a.mp3"] false (qstr "file")).1
     (by decide),
   (front_of_empty_list_is_read exampleEnv [] false (qstr "file")).2.2.2 rfl⟩

/-! ## Frames of imported tracks -/

/-- C28. Where `ImportTrackDataVector::getFrame` has a defined result: for an empty
vector it is the null string; when the first track has a value of its own for
the type, it is that value; when it has none and a tagged file is associated,
the value comes from the tagged file.  When the first track has no own value
and no tagged file (`getTaggedFile` returns 0), the function calls
`getAllFramesV2` through the null pointer and the result is not defined, where
`isTagV1Supported` tests the pointer and returns true. -/
theorem getFrame_reads_missing_tagged_file {FC FT : Type} (getValue : FC → FT → QString)
    (emptyFrames : FC) (trackData : ImportTrackData FC) (rest : List (ImportTrackData FC))
    (type : FT) :
    ImportTrackDataVector.getFrame getValue emptyFrames [] type = some none ∧
    ((getValue trackData.frames type).isEmpty = false →
      ImportTrackDataVector.getFrame getValue emptyFrames (trackData :: rest) type
        = some (getValue trackData.frames type)) ∧
    (trackData.getTaggedFile.isSome = true →
      (ImportTrackDataVector.getFrame getValue emptyFrames (trackData :: rest) type).isSome
        = true) ∧
    ((getValue trackData.frames type).isEmpty = true → trackData.getTaggedFile.isNone = true →
      ImportTrackDataVector.getFrame getValue emptyFrames (trackData :: rest) type = none ∧
      ImportTrackDataVector.isTagV1Supported (trackData :: rest) = true) := by
  refine ⟨rfl, ?_, ?_, ?_⟩
  · intro h
    simp [ImportTrackDataVector.getFrame, h]
  · intro h
    unfold ImportTrackDataVector.getFrame
    cases htf : trackData.getTaggedFile with
    | none => simp [htf] at h
    | some tf =>
      simp only [htf]
      split_ifs <;> rfl
  · intro h1 h2
    cases htf : trackData.getTaggedFile with
    | none => simp [ImportTrackDataVector.getFrame, ImportTrackDataVector.isTagV1Supported, h1, htf]
    | some tf => simp [htf] at h2

theorem getFrame_reads_missing_tagged_file_witness :
    (((fun (fc : Nat → QString) (t : Nat) => fc t)
        ({ frames := fun _ => none, getTaggedFile := none } :
          ImportTrackData (Nat → QString)).frames 0).isEmpty = true) ∧
    ({ frames := fun _ => none, getTaggedFile := none } :
      ImportTrackData (Nat → QString)).getTaggedFile.isNone = true ∧
    ImportTrackDataVector.getFrame (fun (fc : Nat → QString) (t : Nat) => fc t)
        (fun _ => none) [{ frames := fun _ => none, getTaggedFile := none }] 0 = none ∧
    ImportTrackDataVector.isTagV1Supported
        [({ frames := fun _ => none, getTaggedFile := none } :
          ImportTrackData (Nat → QString))] = true ∧
    ImportTrackDataVector.getFrame (fun (fc : Nat → QString) (t : Nat) => fc t)
        (fun _ => none)
        [{ frames := fun _ => none,
           getTaggedFile := some { isTagV1Supported := true,
                                   getAllFramesV1 := fun _ _ => qstr "Artist",
                                   getAllFramesV2 := fun _ _ => none } }] 0
      = some (qstr "Artist") :=
  ⟨rfl, rfl,
   ((getFrame_reads_missing_tagged_file (fun (fc : Nat → QString) (t : Nat) => fc t)
      (fun _ => none) { frames := fun _ => none, getTaggedFile := none } [] 0).2.2.2
      rfl rfl).1,
   ((getFrame_reads_missing_tagged_file (fun (fc : Nat → QString) (t : Nat) => fc t)
      (fun _ => none) { frames := fun _ => none, getTaggedFile := none } [] 0).2.2.2
      rfl rfl).2,
   by decide⟩
/-! ## Change flags and tag objects of a `TagLibFile` -/

theorem inv_makeTagV1Settable (MPC_ID3V1 : Bool) (f : TagLibFile)
    (h : f.flagsHaveTags MPC_ID3V1) : (f.makeTagV1Settable MPC_ID3V1).flagsHaveTags MPC_ID3V1 := by
  rcases f with ⟨ref, t1, t2, fr, c1, c2, fn, nfn⟩
  rcases ref with _ | (_ | _ | _ | _) <;> cases t1 <;> cases t2 <;> cases MPC_ID3V1 <;>
    cases c1 <;> cases c2 <;>
    simp_all [TagLibFile.makeTagV1Settable, TagLibFile.flagsHaveTags, noFirstTag]

theorem inv_makeTagV2Settable (MPC_ID3V1 : Bool) (f : TagLibFile)
    (h : f.flagsHaveTags MPC_ID3V1) : f.makeTagV2Settable.flagsHaveTags MPC_ID3V1 := by
  rcases f with ⟨ref, t1, t2, fr, c1, c2, fn, nfn⟩
  rcases ref with _ | (_ | _ | _ | _) <;> cases t1 <;> cases t2 <;> cases c1 <;> cases c2 <;>
    simp_all [TagLibFile.makeTagV2Settable, TagLibFile.flagsHaveTags, noFirstTag]

theorem inv_setTagV1 (MPC_ID3V1 : Bool) (f : TagLibFile) (tag t : TagLibTag)
    (h : f.flagsHaveTags MPC_ID3V1) (htag : f.m_tagV1 = some tag) :
    TagLibFile.flagsHaveTags MPC_ID3V1 { f with m_tagV1 := some t, changedV1 := true } := by
  obtain ⟨h1, h2, h3, h4⟩ := h
  refine ⟨fun _ => rfl, h2, ?_, ?_⟩
  · intro hno
    have := h3 hno
    rw [htag] at this
    exact absurd this (by simp)
  · intro hno
    have := (h4 hno).1
    rw [htag] at this
    exact absurd this (by simp)

theorem inv_setTagV2 (MPC_ID3V1 : Bool) (f : TagLibFile) (tag t : TagLibTag)
    (h : f.flagsHaveTags MPC_ID3V1) (htag : f.m_tagV2 = some tag) :
    TagLibFile.flagsHaveTags MPC_ID3V1 { f with m_tagV2 := some t, changedV2 := true } := by
  obtain ⟨h1, h2, h3, h4⟩ := h
  refine ⟨h1, fun _ => rfl, h3, ?_⟩
  intro hno
  have := (h4 hno).2
  rw [htag] at this
  exact absurd this (by simp)

theorem inv_setStringV1 (MPC_ID3V1 : Bool) (f : TagLibFile) (str : QString)
    (get : TagLibTag → TString) (set : TagLibTag → TString → TagLibTag)
    (h : f.flagsHaveTags MPC_ID3V1) :
    (f.setStringV1 MPC_ID3V1 str get set).flagsHaveTags MPC_ID3V1 := by
  have h1 := inv_makeTagV1Settable MPC_ID3V1 f h
  unfold TagLibFile.setStringV1
  simp only
  generalize f.makeTagV1Settable MPC_ID3V1 = f1 at h1 ⊢
  split
  · rename_i tag htag
    split_ifs
    all_goals first | exact h1 | exact inv_setTagV1 MPC_ID3V1 f1 tag _ h1 htag
  · exact h1

theorem inv_setNumV1 (MPC_ID3V1 : Bool) (f : TagLibFile) (num : Int)
    (get : TagLibTag → Nat) (set : TagLibTag → Nat → TagLibTag)
    (h : f.flagsHaveTags MPC_ID3V1) :
    (f.setNumV1 MPC_ID3V1 num get set).flagsHaveTags MPC_ID3V1 := by
  have h1 := inv_makeTagV1Settable MPC_ID3V1 f h
  unfold TagLibFile.setNumV1
  simp only
  generalize f.makeTagV1Settable MPC_ID3V1 = f1 at h1 ⊢
  split
  · rename_i tag htag
    split_ifs
    all_goals first | exact h1 | exact inv_setTagV1 MPC_ID3V1 f1 tag _ h1 htag
  · exact h1

theorem inv_setGenreNumV1 (MPC_ID3V1 : Bool) (getName : Int → QString) (f : TagLibFile)
    (num : Int) (h : f.flagsHaveTags MPC_ID3V1) :
    (f.setGenreNumV1 getName MPC_ID3V1 num).flagsHaveTags MPC_ID3V1 := by
  have h1 := inv_makeTagV1Settable MPC_ID3V1 f h
  unfold TagLibFile.setGenreNumV1
  simp only
  generalize f.makeTagV1Settable MPC_ID3V1 = f1 at h1 ⊢
  split
  · rename_i tag htag
    split_ifs
    all_goals first | exact h1 | exact inv_setTagV1 MPC_ID3V1 f1 tag _ h1 htag
  · exact h1

theorem inv_setStringV2 (MPC_ID3V1 : Bool) (f : TagLibFile) (str : QString) (always : Bool)
    (get : TagLibTag → TString) (set : TagLibTag → TString → TagLibTag)
    (h : f.flagsHaveTags MPC_ID3V1) :
    (f.setStringV2 str always get set).flagsHaveTags MPC_ID3V1 := by
  have h1 := inv_makeTagV2Settable MPC_ID3V1 f h
  unfold TagLibFile.setStringV2
  simp only
  generalize f.makeTagV2Settable = f1 at h1 ⊢
  split
  · rename_i tag htag
    split_ifs
    all_goals first | exact h1 | exact inv_setTagV2 MPC_ID3V1 f1 tag _ h1 htag
  · exact h1

theorem inv_setYearV2 (MPC_ID3V1 : Bool) (f : TagLibFile) (num : Int)
    (h : f.flagsHaveTags MPC_ID3V1) : (f.setYearV2 num).flagsHaveTags MPC_ID3V1 := by
  have h1 := inv_makeTagV2Settable MPC_ID3V1 f h
  unfold TagLibFile.setYearV2
  simp only
  generalize f.makeTagV2Settable = f1 at h1 ⊢
  split
  · rename_i tag htag
    split_ifs
    all_goals first | exact h1 | exact inv_setTagV2 MPC_ID3V1 f1 tag _ h1 htag
  · exact h1

theorem inv_setTrackNumV2 (MPC_ID3V1 : Bool) (f : TagLibFile) (num : Int)
    (h : f.flagsHaveTags MPC_ID3V1) : (f.setTrackNumV2 num).flagsHaveTags MPC_ID3V1 := by
  have h1 := inv_makeTagV2Settable MPC_ID3V1 f h
  unfold TagLibFile.setTrackNumV2
  simp only
  generalize f.makeTagV2Settable = f1 at h1 ⊢
  split
  · rename_i tag htag
    split_ifs
    all_goals first | exact h1 | exact inv_setTagV2 MPC_ID3V1 f1 tag _ h1 htag
  · exact h1

theorem inv_setGenreNumV2 (MPC_ID3V1 : Bool) (getName : Int → QString) (f : TagLibFile)
    (num : Int) (h : f.flagsHaveTags MPC_ID3V1) :
    (f.setGenreNumV2 getName num).flagsHaveTags MPC_ID3V1 := by
  have h1 := inv_makeTagV2Settable MPC_ID3V1 f h
  unfold TagLibFile.setGenreNumV2
  simp only
  generalize f.makeTagV2Settable = f1 at h1 ⊢
  split
  · rename_i tag htag
    split_ifs
    all_goals first | exact h1 | exact inv_setTagV2 MPC_ID3V1 f1 tag _ h1 htag
  · exact h1

theorem inv_setGenreV2 (MPC_ID3V1 : Bool) (f : TagLibFile) (str : QString)
    (h : f.flagsHaveTags MPC_ID3V1) : (f.setGenreV2 str).flagsHaveTags MPC_ID3V1 := by
  have h1 := inv_makeTagV2Settable MPC_ID3V1 f h
  unfold TagLibFile.setGenreV2
  simp only
  generalize f.makeTagV2Settable = f1 at h1 ⊢
  split
  · rename_i tag htag
    split_ifs
    all_goals first | exact h1 | exact inv_setTagV2 MPC_ID3V1 f1 tag _ h1 htag
  · exact h1

theorem inv_stripTagV1 (MPC_ID3V1 : Bool) (env : WriteEnv) (force : Bool)
    (s : TagLibFile × Disk TagLibTag) (h : s.1.flagsHaveTags MPC_ID3V1) :
    (TagLibFile.stripTagV1 env force s).1.flagsHaveTags MPC_ID3V1 := by
  obtain ⟨h1, h2, h3, h4⟩ := h
  unfold TagLibFile.stripTagV1
  split
  · split_ifs
    all_goals first
      | exact ⟨h1, h2, h3, h4⟩
      | exact ⟨fun hc => by simp at hc, h2, fun _ => rfl, fun hr => ⟨rfl, (h4 hr).2⟩⟩
  · exact ⟨h1, h2, h3, h4⟩

theorem inv_stripTagV2 (MPC_ID3V1 : Bool) (env : WriteEnv) (force : Bool)
    (s : TagLibFile × Disk TagLibTag) (h : s.1.flagsHaveTags MPC_ID3V1) :
    (TagLibFile.stripTagV2 env force s).1.flagsHaveTags MPC_ID3V1 := by
  obtain ⟨h1, h2, h3, h4⟩ := h
  unfold TagLibFile.stripTagV2
  split
  · split_ifs
    all_goals first
      | exact ⟨h1, h2, h3, h4⟩
      | exact ⟨h1, fun hc => by simp at hc, h3, fun hr => ⟨(h4 hr).1, rfl⟩⟩
  · exact ⟨h1, h2, h3, h4⟩

theorem inv_clear_flags (MPC_ID3V1 : Bool) (f : TagLibFile) (c1 c2 : Bool)
    (h : f.flagsHaveTags MPC_ID3V1) (hc1 : c1 = true → f.changedV1 = true)
    (hc2 : c2 = true → f.changedV2 = true) :
    TagLibFile.flagsHaveTags MPC_ID3V1 { f with changedV1 := c1, changedV2 := c2 } :=
  ⟨fun hc => h.1 (hc1 hc), fun hc => h.2.1 (hc2 hc), h.2.2.1, h.2.2.2⟩

theorem inv_saveMasked (MPC_ID3V1 : Bool) (env : WriteEnv) (force : Bool)
    (s : TagLibFile × Disk TagLibTag) (h : s.1.flagsHaveTags MPC_ID3V1) :
    (TagLibFile.saveMasked env force s).1.flagsHaveTags MPC_ID3V1 := by
  unfold TagLibFile.saveMasked
  simp only
  by_cases hm : (saveMaskBit s.1.m_tagV1 force s.1.changedV1 ||
      saveMaskBit s.1.m_tagV2 force s.1.changedV2) = true
  · rw [if_pos hm]
    by_cases ho : env.saveOk = true
    · rw [if_pos ho]
      apply inv_clear_flags MPC_ID3V1 s.1 _ _ h
      · intro hc; split_ifs at hc; simp_all
      · intro hc; split_ifs at hc; simp_all
    · rw [if_neg ho]; exact h
  · rw [if_neg hm]; exact h

theorem inv_saveWhole (MPC_ID3V1 : Bool) (env : WriteEnv) (force : Bool)
    (type : TagLibFileType) (s : TagLibFile × Disk TagLibTag)
    (h : s.1.flagsHaveTags MPC_ID3V1) :
    (TagLibFile.saveWhole MPC_ID3V1 env force type s).1.flagsHaveTags MPC_ID3V1 := by
  unfold TagLibFile.saveWhole
  by_cases hm : ((s.1.m_tagV2.isSome && (force || s.1.changedV2)) ||
      (s.1.m_tagV1.isSome && (force || s.1.changedV1))) = true
  · rw [if_pos hm]
    by_cases ho : env.saveOk = true
    · rw [if_pos ho]
      exact inv_clear_flags MPC_ID3V1 s.1 false false h (fun hc => by simp at hc)
        (fun hc => by simp at hc)
    · rw [if_neg ho]; exact h
  · rw [if_neg hm]; exact h

theorem renameStep_file {F T : Type} (env : WriteEnv) (filename new_filename : QString)
    (renamed : Bool) (file : F) (disk : Disk T) :
    (renameStep env filename new_filename renamed file disk).file = file := by
  unfold renameStep
  split_ifs <;> rfl

theorem inv_writeTags (MPC_ID3V1 : Bool) (isChanged : TagLibFile → Bool) (env : WriteEnv)
    (disk : Disk TagLibTag) (force renamed : Bool) (f : TagLibFile)
    (h : f.flagsHaveTags MPC_ID3V1) :
    (TagLibFile.writeTags MPC_ID3V1 isChanged env disk force renamed f).file.flagsHaveTags
      MPC_ID3V1 := by
  unfold TagLibFile.writeTags
  split_ifs
  · exact h
  · simp only [renameStep_file]
    unfold TagLibFile.saveTags
    split
    · exact h
    · exact inv_saveMasked MPC_ID3V1 env force _
        (inv_stripTagV2 MPC_ID3V1 env force _ (inv_stripTagV1 MPC_ID3V1 env force (f, disk) h))
    · exact inv_saveWhole MPC_ID3V1 env force _ (f, disk) h

theorem inv_adoptTags (MPC_ID3V1 : Bool) (f : TagLibFile) (v1 v2 : Option TagLibTag)
    (h : f.flagsHaveTags MPC_ID3V1) (href : f.m_fileRef.isSome = true)
    (hno : noFirstTag MPC_ID3V1 f.m_fileRef = false) :
    (f.adoptTags v1 v2).flagsHaveTags MPC_ID3V1 := by
  rcases f with ⟨ref, t1, t2, fr, c1, c2, fn, nfn⟩
  cases ref with
  | none => simp at href
  | some type =>
    cases t1 <;> cases t2 <;> cases c1 <;> cases c2 <;>
      simp_all [TagLibFile.adoptTags, TagLibFile.flagsHaveTags]

theorem inv_adoptTag (MPC_ID3V1 : Bool) (f : TagLibFile) (tag : Option TagLibTag)
    (h : f.flagsHaveTags MPC_ID3V1) (href : f.m_fileRef.isSome = true) :
    (f.adoptTag tag).flagsHaveTags MPC_ID3V1 := by
  rcases f with ⟨ref, t1, t2, fr, c1, c2, fn, nfn⟩
  cases ref with
  | none => simp at href
  | some type =>
    cases t1 <;> cases t2 <;> cases c1 <;> cases c2 <;>
      simp_all [TagLibFile.adoptTag, TagLibFile.flagsHaveTags]

theorem inv_new_filename (MPC_ID3V1 : Bool) (f : TagLibFile) (name : QString)
    (h : f.flagsHaveTags MPC_ID3V1) :
    TagLibFile.flagsHaveTags MPC_ID3V1 { f with new_filename := name } := h

theorem inv_readTags_body (MPC_ID3V1 : Bool) (tags : TagLibFileTags) (f1 : TagLibFile)
    (h : f1.flagsHaveTags MPC_ID3V1) :
    TagLibFile.flagsHaveTags MPC_ID3V1
      (match f1.m_fileRef with
        | none => f1
        | some TagLibFileType.MPEG => f1.adoptTags tags.ID3v1Tag tags.ID3v2Tag
        | some TagLibFileType.FLAC => f1.adoptTags tags.ID3v1Tag tags.xiphComment
        | some TagLibFileType.MPC =>
          if MPC_ID3V1 then f1.adoptTags tags.ID3v1Tag tags.APETag else f1.adoptTag tags.tag
        | some TagLibFileType.OTHER => f1.adoptTag tags.tag) := by
  split
  · exact h
  · rename_i href
    exact inv_adoptTags MPC_ID3V1 f1 _ _ h (by simp [href]) (by simp [href, noFirstTag])
  · rename_i href
    exact inv_adoptTags MPC_ID3V1 f1 _ _ h (by simp [href]) (by simp [href, noFirstTag])
  · rename_i href
    split_ifs with hm
    · exact inv_adoptTags MPC_ID3V1 f1 _ _ h (by simp [href]) (by simp [href, noFirstTag, hm])
    · exact inv_adoptTag MPC_ID3V1 f1 _ h (by simp [href])
  · rename_i href
    exact inv_adoptTag MPC_ID3V1 f1 _ h (by simp [href])

theorem inv_readTags (MPC_ID3V1 : Bool) (opened : Option TagLibFileType)
    (tags : TagLibFileTags) (force : Bool) (f : TagLibFile) (h : f.flagsHaveTags MPC_ID3V1) :
    (TagLibFile.readTags MPC_ID3V1 opened tags force f).flagsHaveTags MPC_ID3V1 := by
  have hreset : TagLibFile.flagsHaveTags MPC_ID3V1
      { f with m_fileRef := opened, m_tagV1 := none, m_tagV2 := none, changedV1 := false,
               changedV2 := false, m_fileRead := true } :=
    ⟨fun hc => by simp at hc, fun hc => by simp at hc, fun _ => rfl, fun _ => ⟨rfl, rfl⟩⟩
  unfold TagLibFile.readTags
  cases force
  · simp only [Bool.false_or, Bool.false_eq_true, if_false]
    by_cases hn : f.m_fileRef.isNone = true
    · rw [if_pos hn]
      exact inv_readTags_body MPC_ID3V1 tags _ hreset
    · rw [if_neg hn]
      exact inv_readTags_body MPC_ID3V1 tags _ h
  · simp only [Bool.true_or, if_true]
    exact inv_new_filename MPC_ID3V1 _ _ (inv_readTags_body MPC_ID3V1 tags _ hreset)

theorem inv_removeStandardTagsV2 (MPC_ID3V1 : Bool) (f : TagLibFile) (flt : StandardTagsFilter)
    (h : f.flagsHaveTags MPC_ID3V1) :
    (f.removeStandardTagsV2 flt).flagsHaveTags MPC_ID3V1 := by
  unfold TagLibFile.removeStandardTagsV2
  simp only
  have a1 : TagLibFile.flagsHaveTags MPC_ID3V1
      (if flt.m_enableTitle then f.setTitleV2 (some []) else f) := by
    split_ifs
    · exact inv_setStringV2 MPC_ID3V1 f _ _ _ _ h
    · exact h
  generalize (if flt.m_enableTitle then f.setTitleV2 (some []) else f) = f1 at a1 ⊢
  have a2 : TagLibFile.flagsHaveTags MPC_ID3V1
      (if flt.m_enableArtist then f1.setArtistV2 (some []) else f1) := by
    split_ifs
    · exact inv_setStringV2 MPC_ID3V1 f1 _ _ _ _ a1
    · exact a1
  generalize (if flt.m_enableArtist then f1.setArtistV2 (some []) else f1) = f2 at a2 ⊢
  have a3 : TagLibFile.flagsHaveTags MPC_ID3V1
      (if flt.m_enableAlbum then f2.setAlbumV2 (some []) else f2) := by
    split_ifs
    · exact inv_setStringV2 MPC_ID3V1 f2 _ _ _ _ a2
    · exact a2
  generalize (if flt.m_enableAlbum then f2.setAlbumV2 (some []) else f2) = f3 at a3 ⊢
  have a4 : TagLibFile.flagsHaveTags MPC_ID3V1
      (if flt.m_enableComment then f3.setCommentV2 (some []) else f3) := by
    split_ifs
    · exact inv_setStringV2 MPC_ID3V1 f3 _ _ _ _ a3
    · exact a3
  generalize (if flt.m_enableComment then f3.setCommentV2 (some []) else f3) = f4 at a4 ⊢
  have a5 : TagLibFile.flagsHaveTags MPC_ID3V1
      (if flt.m_enableYear then f4.setYearV2 0 else f4) := by
    split_ifs
    · exact inv_setYearV2 MPC_ID3V1 f4 _ a4
    · exact a4
  generalize (if flt.m_enableYear then f4.setYearV2 0 else f4) = f5 at a5 ⊢
  have a6 : TagLibFile.flagsHaveTags MPC_ID3V1
      (if flt.m_enableTrack then f5.setTrackNumV2 0 else f5) := by
    split_ifs
    · exact inv_setTrackNumV2 MPC_ID3V1 f5 _ a5
    · exact a5
  generalize (if flt.m_enableTrack then f5.setTrackNumV2 0 else f5) = f6 at a6 ⊢
  split_ifs
  · exact inv_setGenreV2 MPC_ID3V1 f6 _ a6
  · exact a6

theorem inv_removeTagsV2 (MPC_ID3V1 : Bool) (f : TagLibFile) (flt : StandardTagsFilter)
    (h : f.flagsHaveTags MPC_ID3V1) :
    (TagLibFile.removeTagsV2 TagLibFile.removeStandardTagsV2 f flt).flagsHaveTags MPC_ID3V1 := by
  unfold TagLibFile.removeTagsV2
  split
  · rename_i tag htag
    split_ifs
    · split
      · exact inv_setTagV2 MPC_ID3V1 f tag _ h htag
      · exact inv_setTagV2 MPC_ID3V1 f tag _ h htag
      · exact inv_setTagV2 MPC_ID3V1 f tag _ h htag
      · exact inv_removeStandardTagsV2 MPC_ID3V1 f flt h
    · exact inv_removeStandardTagsV2 MPC_ID3V1 f flt h
  · exact h

theorem inv_applyOp (MPC_ID3V1 : Bool) (getName : Int → QString)
    (isChanged : TagLibFile → Bool) (f : TagLibFile) (op : TagLibOp)
    (h : f.flagsHaveTags MPC_ID3V1) :
    (TagLibFile.applyOp MPC_ID3V1 getName isChanged f op).flagsHaveTags MPC_ID3V1 := by
  cases op with
  | readTags opened tags force => exact inv_readTags MPC_ID3V1 opened tags force f h
  | writeTags env disk force renamed =>
    exact inv_writeTags MPC_ID3V1 isChanged env disk force renamed f h
  | removeTagsV2 flt => exact inv_removeTagsV2 MPC_ID3V1 f flt h
  | setTitleV1 str => exact inv_setStringV1 MPC_ID3V1 f str _ _ h
  | setArtistV1 str => exact inv_setStringV1 MPC_ID3V1 f str _ _ h
  | setAlbumV1 str => exact inv_setStringV1 MPC_ID3V1 f str _ _ h
  | setCommentV1 str => exact inv_setStringV1 MPC_ID3V1 f str _ _ h
  | setYearV1 num => exact inv_setNumV1 MPC_ID3V1 f num _ _ h
  | setTrackNumV1 num => exact inv_setNumV1 MPC_ID3V1 f num _ _ h
  | setGenreNumV1 num => exact inv_setGenreNumV1 MPC_ID3V1 getName f num h
  | setTitleV2 str => exact inv_setStringV2 MPC_ID3V1 f str _ _ _ h
  | setArtistV2 str => exact inv_setStringV2 MPC_ID3V1 f str _ _ _ h
  | setAlbumV2 str => exact inv_setStringV2 MPC_ID3V1 f str _ _ _ h
  | setCommentV2 str => exact inv_setStringV2 MPC_ID3V1 f str _ _ _ h
  | setYearV2 num => exact inv_setYearV2 MPC_ID3V1 f num h
  | setTrackNumV2 num => exact inv_setTrackNumV2 MPC_ID3V1 f num h
  | setGenreNumV2 num => exact inv_setGenreNumV2 MPC_ID3V1 getName f num h
  | setGenreV2 str => exact inv_setGenreV2 MPC_ID3V1 f str h

theorem inv_runOps (MPC_ID3V1 : Bool) (getName : Int → QString)
    (isChanged : TagLibFile → Bool) (ops : List TagLibOp) :
    ∀ f : TagLibFile, f.flagsHaveTags MPC_ID3V1 →
      (TagLibFile.runOps MPC_ID3V1 getName isChanged f ops).flagsHaveTags MPC_ID3V1 := by
  induction ops with
  | nil => intro f h; exact h
  | cons op ops ih =>
    intro f h
    unfold TagLibFile.runOps
    rw [List.foldl_cons]
    exact ih _ (inv_applyOp MPC_ID3V1 getName isChanged f op h)

theorem readTags_keeps_edits (MPC_ID3V1 : Bool) (opened : Option TagLibFileType)
    (tags : TagLibFileTags) (f : TagLibFile) (h : f.flagsHaveTags MPC_ID3V1) :
    (TagLibFile.readTags MPC_ID3V1 opened tags false f).changedV1 = f.changedV1 ∧
    (TagLibFile.readTags MPC_ID3V1 opened tags false f).changedV2 = f.changedV2 ∧
    (f.changedV1 = true →
      (TagLibFile.readTags MPC_ID3V1 opened tags false f).m_tagV1 = f.m_tagV1) ∧
    (f.changedV2 = true →
      (TagLibFile.readTags MPC_ID3V1 opened tags false f).m_tagV2 = f.m_tagV2) ∧
    (TagLibFile.readTags MPC_ID3V1 opened tags false f).new_filename = f.new_filename ∧
    (TagLibFile.readTags MPC_ID3V1 opened tags false f).filename = f.filename := by
  rcases f with ⟨ref, t1, t2, fr, c1, c2, fn, nfn⟩
  rcases ref with _ | (_ | _ | _ | _) <;> rcases opened with _ | (_ | _ | _ | _) <;>
    cases t1 <;> cases t2 <;> cases c1 <;> cases c2 <;> cases MPC_ID3V1 <;>
    simp_all [TagLibFile.readTags, TagLibFile.adoptTags, TagLibFile.adoptTag,
      TagLibFile.flagsHaveTags, noFirstTag]

theorem inv_constructed (MPC_ID3V1 : Bool) (fn : QString) :
    (TagLibFile.constructed fn).flagsHaveTags MPC_ID3V1 :=
  ⟨fun hc => by simp [TagLibFile.constructed] at hc,
   fun hc => by simp [TagLibFile.constructed] at hc, fun _ => rfl, fun _ => ⟨rfl, rfl⟩⟩

/-- C25. In every state of a `TagLibFile` reachable from the constructed object
through `readTags`, `writeTags`, `removeTagsV2` and the setters, `changedV1`
implies that the tag 1 object is present and `changedV2` implies that the tag 2
object is present; consequently `readTags(false)` in such a state keeps both
change flags, each tag object whose flag is set, and the new file name. -/
theorem changed_flags_have_tags (MPC_ID3V1 : Bool) (getName : Int → QString)
    (isChanged : TagLibFile → Bool) (fn : QString) (ops : List TagLibOp)
    (opened : Option TagLibFileType) (tags : TagLibFileTags) :
    ((TagLibFile.runOps MPC_ID3V1 getName isChanged (TagLibFile.constructed fn) ops).changedV1
        = true →
      (TagLibFile.runOps MPC_ID3V1 getName isChanged (TagLibFile.constructed fn) ops
        ).m_tagV1.isSome = true) ∧
    ((TagLibFile.runOps MPC_ID3V1 getName isChanged (TagLibFile.constructed fn) ops).changedV2
        = true →
      (TagLibFile.runOps MPC_ID3V1 getName isChanged (TagLibFile.constructed fn) ops
        ).m_tagV2.isSome = true) ∧
    (TagLibFile.readTags MPC_ID3V1 opened tags false
        (TagLibFile.runOps MPC_ID3V1 getName isChanged (TagLibFile.constructed fn) ops)
      ).changedV1
      = (TagLibFile.runOps MPC_ID3V1 getName isChanged (TagLibFile.constructed fn) ops
        ).changedV1 ∧
    (TagLibFile.readTags MPC_ID3V1 opened tags false
        (TagLibFile.runOps MPC_ID3V1 getName isChanged (TagLibFile.constructed fn) ops)
      ).changedV2
      = (TagLibFile.runOps MPC_ID3V1 getName isChanged (TagLibFile.constructed fn) ops
        ).changedV2 ∧
    ((TagLibFile.runOps MPC_ID3V1 getName isChanged (TagLibFile.constructed fn) ops).changedV1
        = true →
      (TagLibFile.readTags MPC_ID3V1 opened tags false
          (TagLibFile.runOps MPC_ID3V1 getName isChanged (TagLibFile.constructed fn) ops)
        ).m_tagV1
        = (TagLibFile.runOps MPC_ID3V1 getName isChanged (TagLibFile.constructed fn) ops
          ).m_tagV1) ∧
    ((TagLibFile.runOps MPC_ID3V1 getName isChanged (TagLibFile.constructed fn) ops).changedV2
        = true →
      (TagLibFile.readTags MPC_ID3V1 opened tags false
          (TagLibFile.runOps MPC_ID3V1 getName isChanged (TagLibFile.constructed fn) ops)
        ).m_tagV2
        = (TagLibFile.runOps MPC_ID3V1 getName isChanged (TagLibFile.constructed fn) ops
          ).m_tagV2) ∧
    (TagLibFile.readTags MPC_ID3V1 opened tags false
        (TagLibFile.runOps MPC_ID3V1 getName isChanged (TagLibFile.constructed fn) ops)
      ).new_filename
      = (TagLibFile.runOps MPC_ID3V1 getName isChanged (TagLibFile.constructed fn) ops
        ).new_filename := by
  have hinv := inv_runOps MPC_ID3V1 getName isChanged ops (TagLibFile.constructed fn)
    (inv_constructed MPC_ID3V1 fn)
  obtain ⟨r1, r2, r3, r4, r5, _⟩ := readTags_keeps_edits MPC_ID3V1 opened tags _ hinv
  exact ⟨hinv.1, hinv.2.1, r1, r2, r3, r4, r5⟩

theorem changed_flags_have_tags_witness :
    (TagLibFile.runOps false (fun _ => none) (fun _ => true) (TagLibFile.constructed (qstr "a.mp3"))
        [TagLibOp.readTags (some TagLibFileType.MPEG)
           { ID3v1Tag := none, ID3v2Tag := none, xiphComment := none, APETag := none,
             tag := none } false,
         TagLibOp.setTitleV2 (qstr "T")]).changedV2 = true ∧
    (TagLibFile.runOps false (fun _ => none) (fun _ => true) (TagLibFile.constructed (qstr "a.mp3"))
        [TagLibOp.readTags (some TagLibFileType.MPEG)
           { ID3v1Tag := none, ID3v2Tag := none, xiphComment := none, APETag := none,
             tag := none } false,
         TagLibOp.setTitleV2 (qstr "T")]).m_tagV2.isSome = true ∧
    (TagLibFile.readTags false (some TagLibFileType.MPEG)
        { ID3v1Tag := none, ID3v2Tag := none, xiphComment := none, APETag := none, tag := none }
        false
        (TagLibFile.runOps false (fun _ => none) (fun _ => true)
          (TagLibFile.constructed (qstr "a.mp3"))
          [TagLibOp.readTags (some TagLibFileType.MPEG)
             { ID3v1Tag := none, ID3v2Tag := none, xiphComment := none, APETag := none,
               tag := none } false,
           TagLibOp.setTitleV2 (qstr "T")])).getTitleV2 = qstr "T" :=
  ⟨by decide,
   (changed_flags_have_tags false (fun _ => none) (fun _ => true) (qstr "a.mp3")
      [TagLibOp.readTags (some TagLibFileType.MPEG)
         { ID3v1Tag := none, ID3v2Tag := none, xiphComment := none, APETag := none,
           tag := none } false,
       TagLibOp.setTitleV2 (qstr "T")] none
      { ID3v1Tag := none, ID3v2Tag := none, xiphComment := none, APETag := none,
        tag := none }).2.1 (by decide),
   by decide⟩

end Kid3
